import Mathlib

/-!
Shallow embedding of the terminal core of the Rain terminal emulator
(`src-tauri/src/terminal/{color,cursor,grid,modes,state}.rs`,
`src-tauri/src/render/frame.rs`, `src-tauri/src/shell/mod.rs`,
`src-tauri/src/tmux/parser.rs`), together with theorems settling the
frozen specification claims.

Conventions of the embedding:
* Rust machine integers (`u8`, `u16`, `u32`, `u64`, `usize`) are modelled as
  `Nat`.  Where the source relies on saturating arithmetic
  (`saturating_add`, `saturating_sub`) the translation uses `Nat`
  subtraction (which saturates) and an explicit `u64SatAdd1` mirroring
  `saturating_add(1)` on `u64`.  The few places where release-mode Rust
  could wrap (`cursor.col + n` on `u16`) are modelled without wrapping;
  every theorem below only uses these values through `min`-clamps whose
  bounds are unaffected.
* `VecDeque<Row>` becomes `List Row`; `pop_front` is `List.drop`,
  `insert`/`remove` are `List.insertIdx`/`List.eraseIdx`.
* Rust `String`s that the claims inspect are kept as Lean `String`s;
  span text is kept as `List Char` (a Rust `String` is a sequence of
  chars; pushing a char is list append).
* The byte-oriented `vte` parser is an external crate.  A byte stream fed
  to a `TerminalState` is reflected here as the sequence of `vte::Perform`
  callback invocations it produces (`print`, `execute`, `csi_dispatch`,
  `osc_dispatch`, `esc_dispatch`, `hook`, `put`, `unhook`); universal
  claims quantify over all such sequences, which covers every byte
  stream.  The Unicode width of a printed character
  (`UnicodeWidthChar::width(c).unwrap_or(1)`, always ≤ 2) is supplied
  alongside the character, since the Unicode width table lives in an
  external crate.
-/

namespace Rain

/-- `u64::MAX`, the saturation bound of the monotonic sequence counters. -/
def u64Max : Nat := 2 ^ 64 - 1

/-- `x.saturating_add(1)` on `u64`. -/
def u64SatAdd1 (x : Nat) : Nat := min (x + 1) u64Max

/-- `terminal/color.rs`: `Color` — `Default | Indexed(u8) | Rgb(u8,u8,u8)`. -/
inductive Color where
  | default
  | indexed (i : Nat)
  | rgb (r g b : Nat)
deriving DecidableEq, Repr

/-- `terminal/color.rs`: `indexed_to_rgb` — 256-color index to RGB. -/
def indexed_to_rgb (index : Nat) : Nat × Nat × Nat :=
  if index = 0 then (0x15, 0x16, 0x1e)
  else if index = 1 then (0xf7, 0x76, 0x8e)
  else if index = 2 then (0x9e, 0xce, 0x6a)
  else if index = 3 then (0xe0, 0xaf, 0x68)
  else if index = 4 then (0x7a, 0xa2, 0xf7)
  else if index = 5 then (0xbb, 0x9a, 0xf7)
  else if index = 6 then (0x7d, 0xcf, 0xff)
  else if index = 7 then (0xa9, 0xb1, 0xd6)
  else if index = 8 then (0x41, 0x48, 0x68)
  else if index = 9 then (0xff, 0x9e, 0x9e)
  else if index = 10 then (0xb9, 0xf2, 0x7c)
  else if index = 11 then (0xff, 0x9e, 0x64)
  else if index = 12 then (0x82, 0xaa, 0xff)
  else if index = 13 then (0xd4, 0xb0, 0xff)
  else if index = 14 then (0xa9, 0xe1, 0xff)
  else if index = 15 then (0xc0, 0xca, 0xf5)
  else if index ≤ 231 then
    let idx := index - 16
    let r := idx / 36
    let g := (idx % 36) / 6
    let b := idx % 6
    let toVal := fun v => if v = 0 then 0 else 55 + 40 * v
    (toVal r, toVal g, toVal b)
  else
    let v := 8 + 10 * (index - 232)
    (v, v, v)

/-- `terminal/cursor.rs`: `CellAttrs` bitflags, one `Bool` per flag. -/
structure CellAttrs where
  bold : Bool := false
  dim : Bool := false
  italic : Bool := false
  underline : Bool := false
  blink : Bool := false
  reverse : Bool := false
  hidden : Bool := false
  strikethrough : Bool := false
deriving DecidableEq, Repr

/-- `CellAttrs::empty()`. -/
def CellAttrs.empty : CellAttrs := {}

/-- `terminal/grid.rs`: `CellFlags` bitflags. -/
structure CellFlags where
  wideChar : Bool := false
  wideSpacer : Bool := false
  wrap : Bool := false
deriving DecidableEq, Repr

/-- `CellFlags::empty()`. -/
def CellFlags.empty : CellFlags := {}

/-- `terminal/grid.rs`: a single terminal cell. -/
structure Cell where
  c : Char
  fg : Color := .default
  bg : Color := .default
  attrs : CellAttrs := {}
  flags : CellFlags := {}
deriving DecidableEq, Repr

/-- `Cell::default()` — a blank cell. -/
def Cell.blank : Cell := { c := ' ' }

/-- `Cell::wide_spacer()` — the trailing half of a wide character. -/
def Cell.wide_spacer : Cell := { c := ' ', flags := { wideSpacer := true } }

/-- `Cell::clear` — reset to blank defaults. -/
def Cell.clear (_cell : Cell) : Cell := Cell.blank

/-- `Cell::erase(bg)` — erase keeping the given background (per ECMA-48). -/
def Cell.erase (_cell : Cell) (bg : Color) : Cell :=
  { c := ' ', fg := .default, bg := bg, attrs := .empty, flags := .empty }

/-- `render/frame.rs`: `StyledSpan` (serialization-only fields dropped;
colors kept as `Color`, which `SerializableColor` mirrors bijectively). -/
structure StyledSpan where
  text : List Char
  fg : Color
  bg : Color
  bold : Bool
  dim : Bool
  italic : Bool
  underline : Bool
  strikethrough : Bool
  url : Option String := none
deriving DecidableEq, Repr

/-- `render/frame.rs`: `StyledSpan::new` — REVERSE swaps fg/bg, HIDDEN sets
`fg := bg` (after the swap). -/
def StyledSpan.new (text : List Char) (fg bg : Color) (attrs : CellAttrs) : StyledSpan :=
  let fgbg := if attrs.reverse then (bg, fg) else (fg, bg)
  let fg2 := if attrs.hidden then fgbg.2 else fgbg.1
  { text := text
    fg := fg2
    bg := fgbg.2
    bold := attrs.bold
    dim := attrs.dim
    italic := attrs.italic
    underline := attrs.underline
    strikethrough := attrs.strikethrough
    url := none }

/-- `render/frame.rs`: `RenderedLine`. -/
structure RenderedLine where
  index : Nat
  spans : List StyledSpan
deriving DecidableEq, Repr

/-- `terminal/grid.rs`: `Row`. -/
structure Row where
  cells : List Cell
  dirty : Bool
deriving DecidableEq, Repr

/-- `Row::new(cols)` — blank cells, dirty. -/
def Row.new (cols : Nat) : Row := { cells := List.replicate cols Cell.blank, dirty := true }

/-- `Row::clear`. -/
def Row.clear (r : Row) : Row := { cells := r.cells.map Cell.clear, dirty := true }

/-- `Row::erase_with_bg`. -/
def Row.erase_with_bg (r : Row) (bg : Color) : Row :=
  { cells := r.cells.map (fun c => c.erase bg), dirty := true }

/-- `Row::resize(cols)` — `Vec::resize` semantics: truncate or extend with
blank cells; marks dirty only when the length actually changed. -/
def Row.resize (r : Row) (cols : Nat) : Row :=
  if r.cells.length = cols then r
  else
    { cells :=
        if cols ≤ r.cells.length then r.cells.take cols
        else r.cells ++ List.replicate (cols - r.cells.length) Cell.blank
      dirty := true }

/-- The loop body of `Row::to_styled_spans`: walk the cells carrying the
accumulated spans, the current text, the current style and the
`initialized` flag, exactly as the Rust loop does. -/
def spansAux : List Cell → List StyledSpan → List Char → Color → Color → CellAttrs → Bool →
    List StyledSpan
  | [], spans, text, fg, bg, attrs, _ =>
      if text = [] then spans else spans ++ [StyledSpan.new text fg bg attrs]
  | cell :: rest, spans, text, fg, bg, attrs, initialized =>
      if cell.flags.wideSpacer then
        spansAux rest spans text fg bg attrs initialized
      else if !initialized then
        spansAux rest spans (text ++ [cell.c]) cell.fg cell.bg cell.attrs true
      else if cell.fg ≠ fg ∨ cell.bg ≠ bg ∨ cell.attrs ≠ attrs then
        let spans2 := if text = [] then spans else spans ++ [StyledSpan.new text fg bg attrs]
        spansAux rest spans2 [cell.c] cell.fg cell.bg cell.attrs true
      else
        spansAux rest spans (text ++ [cell.c]) fg bg attrs initialized

/-- `Row::to_styled_spans` — coalesce adjacent cells with matching style
into spans, skipping wide-character spacer cells. -/
def Row.to_styled_spans (r : Row) : List StyledSpan :=
  if r.cells = [] then []
  else spansAux r.cells [] [] .default .default .empty false

/-- `terminal/grid.rs`: `Grid` — scrollback plus visible rows in one deque. -/
structure Grid where
  rows : List Row
  cols : Nat
  visibleRows : Nat
  scrollbackLimit : Nat
deriving DecidableEq, Repr

/-- `Grid::new(visible_rows, cols)`. -/
def Grid.new (visibleRows cols : Nat) : Grid :=
  { rows := List.replicate visibleRows (Row.new cols)
    cols := cols
    visibleRows := visibleRows
    scrollbackLimit := 10000 }

/-- `Grid::visible_offset` — `len().saturating_sub(visible_rows)`. -/
def Grid.visibleOffset (g : Grid) : Nat := g.rows.length - g.visibleRows

/-- `Grid::set_cell(row, col, cell)`. -/
def Grid.set_cell (g : Grid) (row col : Nat) (cell : Cell) : Grid :=
  if col < g.cols ∧ row < g.visibleRows then
    let rows2 :=
      List.modify (fun r => { cells := r.cells.set col cell, dirty := true })
        (g.visibleOffset + row) g.rows
    { g with rows := rows2 }
  else g

/-- The `for i in top..=bottom { visible_row_mut(i).dirty = true }` loops
that end `Grid::scroll_up` / `Grid::scroll_down`. -/
def Grid.markDirtyRange (g : Grid) (top bottom : Nat) : Grid :=
  (List.range (bottom + 1 - top)).foldl
    (fun g2 k =>
      let rows2 :=
        List.modify (fun r => { r with dirty := true }) (g2.visibleOffset + (top + k)) g2.rows
      { g2 with rows := rows2 })
    g

/-- `Grid::scroll_up(top, bottom)` — returns the rendered scrolled-off line
(when `top == 0`) and the updated grid. -/
def Grid.scroll_up (g : Grid) (top bottom : Nat) : Option RenderedLine × Grid :=
  let offset := g.visibleOffset
  let topIdx := offset + top
  let bottomIdx := offset + bottom
  if topIdx > bottomIdx ∨ bottomIdx ≥ g.rows.length then (none, g)
  else if top = 0 then
    let spans := (g.rows.getD topIdx (Row.new 0)).to_styled_spans
    let scrolled : RenderedLine := { index := 0, spans := spans }
    let rows1 := g.rows.insertIdx (bottomIdx + 1) (Row.new g.cols)
    let rows2 := rows1.drop (rows1.length - (g.visibleRows + g.scrollbackLimit))
    (some scrolled, ({ g with rows := rows2 }).markDirtyRange top bottom)
  else
    let rows1 := (g.rows.eraseIdx topIdx).insertIdx bottomIdx (Row.new g.cols)
    (none, ({ g with rows := rows1 }).markDirtyRange top bottom)

/-- `Grid::scroll_down(top, bottom)`. -/
def Grid.scroll_down (g : Grid) (top bottom : Nat) : Grid :=
  let offset := g.visibleOffset
  let topIdx := offset + top
  let bottomIdx := offset + bottom
  if topIdx > bottomIdx ∨ bottomIdx ≥ g.rows.length then g
  else
    let rows1 := (g.rows.eraseIdx bottomIdx).insertIdx topIdx (Row.new g.cols)
    ({ g with rows := rows1 }).markDirtyRange top bottom

/-- `Grid::mark_all_dirty`. -/
def Grid.mark_all_dirty (g : Grid) : Grid :=
  let rows2 :=
    (List.range g.visibleRows).foldl
      (fun rows i =>
        if g.visibleOffset + i < rows.length then
          List.modify (fun r => { r with dirty := true }) (g.visibleOffset + i) rows
        else rows)
      g.rows
  { g with rows := rows2 }

/-- `Grid::resize(new_rows, new_cols)` — re-length every row, append blank
rows when growing (shrinking keeps rows as scrollback), mark all dirty. -/
def Grid.resize (g : Grid) (newRows newCols : Nat) : Grid :=
  let rows1 := g.rows.map (fun r => r.resize newCols)
  let rows2 :=
    if g.visibleRows < newRows then
      rows1 ++ List.replicate (newRows - g.visibleRows) (Row.new newCols)
    else rows1
  ({ rows := rows2, cols := newCols, visibleRows := newRows,
     scrollbackLimit := g.scrollbackLimit } : Grid).mark_all_dirty

/-- `Grid::resize_no_scrollback` — discard everything, fresh blank grid. -/
def Grid.resize_no_scrollback (g : Grid) (newRows newCols : Nat) : Grid :=
  ({ rows := List.replicate newRows (Row.new newCols), cols := newCols,
     visibleRows := newRows, scrollbackLimit := g.scrollbackLimit } : Grid).mark_all_dirty

/-- `Grid::collect_dirty_lines` — gather dirty visible rows as rendered
lines, clearing their dirty flags. -/
def Grid.collect_dirty_lines (g : Grid) : List RenderedLine × Grid :=
  let offset := g.visibleOffset
  let folded :=
    (List.range g.visibleRows).foldl
      (fun acc i =>
        let idx := offset + i
        match acc.2[idx]? with
        | some r =>
            if r.dirty then
              (acc.1 ++ [{ index := i, spans := r.to_styled_spans }],
               acc.2.set idx { r with dirty := false })
            else acc
        | none => acc)
      (([] : List RenderedLine), g.rows)
  (folded.1, { g with rows := folded.2 })

/-- `Grid::erase_cells(row, start_col, end_col, bg)`. -/
def Grid.erase_cells (g : Grid) (row startCol endCol : Nat) (bg : Color) : Grid :=
  if row < g.visibleRows then
    let rows2 :=
      List.modify
        (fun r =>
          { cells :=
              r.cells.mapIdx
                (fun i c =>
                  if startCol ≤ i ∧ i < min endCol r.cells.length then c.erase bg else c)
            dirty := true })
        (g.visibleOffset + row) g.rows
    { g with rows := rows2 }
  else g

/-- `Grid::insert_cells(row, col, count)` — shift right, dropping from the
end; `count.min(len - col)` iterations of pop-then-insert. -/
def Grid.insert_cells (g : Grid) (row col count : Nat) : Grid :=
  if row < g.visibleRows then
    let rows2 :=
      List.modify
        (fun r =>
          { cells :=
              (List.range (min count (r.cells.length - col))).foldl
                (fun cs _ => cs.dropLast.insertIdx col Cell.blank) r.cells
            dirty := true })
        (g.visibleOffset + row) g.rows
    { g with rows := rows2 }
  else g

/-- `Grid::delete_cells(row, col, count)` — shift left, blank-filling the
end; `count.min(len.saturating_sub(col))` iterations of remove-then-push. -/
def Grid.delete_cells (g : Grid) (row col count : Nat) : Grid :=
  if row < g.visibleRows then
    let rows2 :=
      List.modify
        (fun r =>
          { cells :=
              (List.range (min count (r.cells.length - col))).foldl
                (fun cs _ => if col < cs.length then cs.eraseIdx col ++ [Cell.blank] else cs)
                r.cells
            dirty := true })
        (g.visibleOffset + row) g.rows
    { g with rows := rows2 }
  else g

/-- `tmux/parser.rs`: `decode_octal_escapes` — tmux control-mode octal
escape decoding, over the UTF-8 bytes of the input line. -/
def decode_octal_escapes : List Nat → List Nat
  | [] => []
  | 92 :: 92 :: rest2 => 92 :: decode_octal_escapes rest2
  | 92 :: d1 :: d2 :: d3 :: rest2 =>
      if (48 ≤ d1 ∧ d1 ≤ 57) ∧ (48 ≤ d2 ∧ d2 ≤ 57) ∧ (48 ≤ d3 ∧ d3 ≤ 57) then
        ((d1 - 48) * 64 + (d2 - 48) * 8 + (d3 - 48)) % 256 :: decode_octal_escapes rest2
      else 92 :: decode_octal_escapes (d1 :: d2 :: d3 :: rest2)
  | 92 :: rest => 92 :: decode_octal_escapes rest
  | b :: rest => b :: decode_octal_escapes rest

/-- Modelled from the spec: tmux's own encoder is not part of this
repository; §6 describes its encoded form as `\NNN` (three-digit octal)
for non-printable bytes, `\\` for the backslash, and the literal byte
otherwise. -/
def tmuxEncodeByte (b : Nat) : List Nat :=
  if b = 92 then [92, 92]
  else if 32 ≤ b ∧ b < 127 then [b]
  else [92, 48 + b / 64, 48 + (b / 8) % 8, 48 + b % 8]

/-- `terminal/cursor.rs`: `CursorShape`. -/
inductive CursorShape where
  | block
  | underline
  | bar
deriving DecidableEq, Repr

/-- `terminal/cursor.rs`: `SavedCursor` (DECSC/DECRC payload). -/
structure SavedCursor where
  row : Nat
  col : Nat
  fg : Color
  bg : Color
  attrs : CellAttrs
deriving DecidableEq, Repr

/-- `terminal/cursor.rs`: `CursorState`. -/
structure CursorState where
  row : Nat := 0
  col : Nat := 0
  fg : Color := .default
  bg : Color := .default
  attrs : CellAttrs := {}
  shape : CursorShape := .block
  visible : Bool := true
  saved : Option SavedCursor := none
deriving DecidableEq, Repr

/-- `CursorState::new()`. -/
def CursorState.new : CursorState := {}

/-- `CursorState::save` — snapshot `(row, col, fg, bg, attrs)`. -/
def CursorState.save (c : CursorState) : CursorState :=
  { c with saved := some { row := c.row, col := c.col, fg := c.fg, bg := c.bg, attrs := c.attrs } }

/-- `CursorState::restore` — write the snapshot back, clearing the slot. -/
def CursorState.restore (c : CursorState) : CursorState :=
  match c.saved with
  | some sv =>
      { c with row := sv.row, col := sv.col, fg := sv.fg, bg := sv.bg, attrs := sv.attrs,
               saved := none }
  | none => c

/-- `terminal/modes.rs`: `TerminalModes` with its `Default` values. -/
structure TerminalModes where
  cursorKeysApplication : Bool := false
  origin : Bool := false
  autowrap : Bool := true
  cursorVisible : Bool := true
  mouseTracking : Bool := false
  mouseMotion : Bool := false
  mouseAllMotion : Bool := false
  sgrMouse : Bool := false
  utf8Mouse : Bool := false
  alternateScroll : Bool := false
  bracketedPaste : Bool := false
  synchronizedOutput : Bool := false
  focusEvents : Bool := false
  altScreen : Bool := false
  insert : Bool := false
  linefeedNewline : Bool := false
deriving DecidableEq, Repr

/-- `render/frame.rs`: `TerminalEvent`. -/
inductive TerminalEvent where
  | blockStarted (id : String) (cwd : String) (globalRow : Nat)
  | blockCommand (id : String) (command : String) (globalRow : Nat)
  | blockCompleted (id : String) (exitCode : Int) (globalRow : Nat)
  | titleChanged (title : String)
  | altScreenEntered
  | altScreenExited
  | bell
  | cwdChanged (path : String)
  | mouseModeChanged (tracking motion allMotion sgr utf8 focus altScroll
      synchronizedOutput bracketedPaste cursorKeysApplication : Bool)
  | scrollbackCleared
  | inlineImage (id : String) (dataBase64 : String) (width height row col : Nat)
  | sixelImage (id : String) (dataBase64 : String) (width height row col : Nat)
  | kittyImage (id : String) (action : String) (dataBase64 : String)
      (width height row col imageId placementId : Nat)
  | tmuxRequested (args : String)
deriving DecidableEq, Repr

/-- `shell/mod.rs`: `ShellIntegration`. -/
structure ShellIntegration where
  active : Bool := false
  currentBlockId : Option String := none
  cwd : String := ""
  pendingEvents : List TerminalEvent := []
deriving DecidableEq, Repr

/-- `ShellIntegration::new()`. -/
def ShellIntegration.new : ShellIntegration := {}

/-- `ShellIntegration::prompt_start` (OSC 133;A).  The fresh block id is
supplied by the caller: the source draws it from `Uuid::new_v4()`, an
external randomness source. -/
def ShellIntegration.prompt_start (sh : ShellIntegration) (freshId : String) (globalRow : Nat) :
    ShellIntegration :=
  { sh with active := true
            currentBlockId := some freshId
            pendingEvents :=
              sh.pendingEvents ++ [.blockStarted freshId sh.cwd globalRow] }

/-- `ShellIntegration::command_start` (OSC 133;B). -/
def ShellIntegration.command_start (sh : ShellIntegration) (command : String) (globalRow : Nat) :
    ShellIntegration :=
  match sh.currentBlockId with
  | some id => { sh with pendingEvents := sh.pendingEvents ++ [.blockCommand id command globalRow] }
  | none => sh

/-- `ShellIntegration::command_end` (OSC 133;D). -/
def ShellIntegration.command_end (sh : ShellIntegration) (exitCode : Int) (globalRow : Nat) :
    ShellIntegration :=
  match sh.currentBlockId with
  | some id =>
      { sh with currentBlockId := none
                pendingEvents := sh.pendingEvents ++ [.blockCompleted id exitCode globalRow] }
  | none => sh

/-- `ShellIntegration::set_cwd` (OSC 7). -/
def ShellIntegration.set_cwd (sh : ShellIntegration) (path : String) : ShellIntegration :=
  { sh with cwd := path, pendingEvents := sh.pendingEvents ++ [.cwdChanged path] }

/-- `ShellIntegration::take_pending_events`. -/
def ShellIntegration.take_pending_events (sh : ShellIntegration) :
    List TerminalEvent × ShellIntegration :=
  (sh.pendingEvents, { sh with pendingEvents := [] })

/-- `state.rs`: the `param(params, idx, default)` helper — positional CSI
parameter with `0` treated as absent. -/
def param (params : List Nat) (idx : Nat) (dflt : Nat) : Nat :=
  match params[idx]? with
  | some v => if v = 0 then dflt else v
  | none => dflt

/-- `state.rs`: `dec_line_drawing_char` — DEC Special Graphics mapping. -/
def dec_line_drawing_char (c : Char) : Char :=
  match c with
  | '`' => '◆'
  | 'a' => '▒'
  | 'j' => '┘'
  | 'k' => '┐'
  | 'l' => '┌'
  | 'm' => '└'
  | 'n' => '┼'
  | 'o' => '⎺'
  | 'p' => '⎻'
  | 'q' => '─'
  | 'r' => '⎼'
  | 's' => '⎽'
  | 't' => '├'
  | 'u' => '┤'
  | 'v' => '┴'
  | 'w' => '┬'
  | 'x' => '│'
  | 'y' => '≤'
  | 'z' => '≥'
  | '{' => 'π'
  | '|' => '≠'
  | '}' => '£'
  | '~' => '·'
  | _ => c

/-- Lowercase hex digit. -/
def hexDigit (n : Nat) : Char := ("0123456789abcdef".toList).getD n '0'

/-- Two lowercase hex digits of a byte (`format!("{:02x}", b)`). -/
def hex2 (b : Nat) : List Char := [hexDigit (b / 16 % 16), hexDigit (b % 16)]

/-- Four lowercase hex digits (`format!("{:04x}", v)`). -/
def hex4 (v : Nat) : List Char :=
  [hexDigit (v / 4096 % 16), hexDigit (v / 256 % 16), hexDigit (v / 16 % 16), hexDigit (v % 16)]

/-- The RFC 4648 base64 alphabet. -/
def base64Table : List Char :=
  "ABCDEFGHIJKLMNOPQRSTUVWXYZabcdefghijklmnopqrstuvwxyz0123456789+/".toList

/-- `BASE64_STANDARD.encode` over a byte list. -/
def base64Encode : List Nat → List Char
  | [] => []
  | [a] =>
      [base64Table.getD (a / 4 % 64) 'A', base64Table.getD (a % 4 * 16) 'A', '=', '=']
  | [a, b] =>
      [base64Table.getD (a / 4 % 64) 'A', base64Table.getD (a % 4 * 16 + b / 16) 'A',
       base64Table.getD (b % 16 * 4) 'A', '=']
  | a :: b :: c :: rest =>
      [base64Table.getD (a / 4 % 64) 'A', base64Table.getD (a % 4 * 16 + b / 16) 'A',
       base64Table.getD (b % 16 * 4 + c / 64) 'A', base64Table.getD (c % 64) 'A'] ++
        base64Encode rest

/-- UTF-8 bytes of a string, as `Nat`s. -/
def utf8Bytes (s : String) : List Nat := s.toUTF8.toList.map UInt8.toNat

/-- Hex value of an ASCII hex digit, upper or lower case
(`u8::from_str_radix(_, 16)` on a single digit). -/
def hexVal (c : Char) : Option Nat :=
  if '0' ≤ c ∧ c ≤ '9' then some (c.toNat - 48)
  else if 'a' ≤ c ∧ c ≤ 'f' then some (c.toNat - 87)
  else if 'A' ≤ c ∧ c ≤ 'F' then some (c.toNat - 55)
  else none

/-- `state.rs`: `decode_hex_ascii` — hex-pair decoding of XTGETTCAP names.
The source additionally validates the decoded bytes as UTF-8; all
capability names in use are ASCII, so the check is omitted here. -/
def decode_hex_ascii (input : List Char) : Option (List Char) :=
  if input.length % 2 ≠ 0 then none
  else go input
where
  go : List Char → Option (List Char)
    | [] => some []
    | c1 :: c2 :: rest =>
        match hexVal c1, hexVal c2, go rest with
        | some h, some l, some out => some (Char.ofNat (h * 16 + l) :: out)
        | _, _, _ => none
    | [_] => some []

/-- `state.rs`: `encode_hex_ascii`. -/
def encode_hex_ascii (input : List Char) : List Char :=
  (input.map (fun c => hex2 c.toNat)).flatten

/-- `state.rs`: `tcap_capability_value` — the known XTGETTCAP entries. -/
def tcap_capability_value (name : List Char) : Option (List Char) :=
  if name = "TN".toList ∨ name = "name".toList then some "xterm-256color".toList
  else if name = "Co".toList ∨ name = "colors".toList then some "256".toList
  else if name = "RGB".toList ∨ name = "Tc".toList then some "8".toList
  else if name = "Ms".toList then some "\x1b]52;%p1%s;%p2%s\x07".toList
  else if name = "Ss".toList then some "\x1b[%p1%d q".toList
  else if name = "Se".toList then some "\x1b[2 q".toList
  else none

/-- `str::split(sep)` — splitting that keeps empty segments. -/
def splitOnChar (sep : Char) : List Char → List (List Char)
  | [] => [[]]
  | c :: rest =>
      match splitOnChar sep rest with
      | [] => if c = sep then [[], []] else [[c]]
      | seg :: segs => if c = sep then [] :: seg :: segs else (c :: seg) :: segs

/-- `state.rs`: `TerminalState` — the full terminal state. -/
structure TerminalState where
  grid : Grid
  altGrid : Option Grid
  usingAlt : Bool
  cursor : CursorState
  modes : TerminalModes
  scrollTop : Nat
  scrollBottom : Nat
  tabStops : List Bool
  title : String
  titleChanged : Bool
  shell : ShellIntegration
  cols : Nat
  rows : Nat
  dcsBuffer : List Nat
  dcsIntermediates : List Nat
  dcsAction : Option Char
  scrolledOffBuffer : List RenderedLine
  scrollbackSeq : Nat
  pendingTerminalEvents : List TerminalEvent
  pendingResponses : List String
  frameSeq : Nat
  resizeEpoch : Nat
  activeHyperlink : Option String
  imageCounter : Nat
  charsetG0Drawing : Bool
  bellPending : Bool
  sixelActive : Bool
  sixelBuffer : List Nat
  experimentalImageProtocolsEnabled : Bool
  imageProtocolDropNotified : Bool
  lastPrintedChar : Char
  /-- `UnicodeWidthChar::width(last_printed_char).unwrap_or(1)`: CSI REP
  recomputes the width of the cached character through the external
  `unicode-width` crate, so the width is cached alongside it here. -/
  lastPrintedWidth : Nat
deriving DecidableEq, Repr

/-- The default-every-8-columns tab stops built by `TerminalState::new` and
`TerminalState::resize`. -/
def defaultTabStops (cols : Nat) : List Bool :=
  (List.range cols).map (fun i => i % 8 = 0)

/-- `TerminalState::new(rows, cols)`. -/
def TerminalState.new (rows cols : Nat) : TerminalState :=
  { grid := Grid.new rows cols
    altGrid := none
    usingAlt := false
    cursor := CursorState.new
    modes := {}
    scrollTop := 0
    scrollBottom := rows - 1
    tabStops := defaultTabStops cols
    title := ""
    titleChanged := false
    shell := ShellIntegration.new
    cols := cols
    rows := rows
    dcsBuffer := []
    dcsIntermediates := []
    dcsAction := none
    scrolledOffBuffer := []
    scrollbackSeq := 0
    pendingTerminalEvents := []
    pendingResponses := []
    frameSeq := 0
    resizeEpoch := 0
    activeHyperlink := none
    imageCounter := 0
    charsetG0Drawing := false
    bellPending := false
    sixelActive := false
    sixelBuffer := []
    experimentalImageProtocolsEnabled := true
    imageProtocolDropNotified := false
    lastPrintedChar := ' '
    lastPrintedWidth := 1 }

/-- `state.rs`: `RenderSnapshot` with `CursorRender` inlined fields. -/
structure CursorRender where
  row : Nat
  col : Nat
  visible : Bool
  shape : String
deriving DecidableEq, Repr

/-- `state.rs`: `RenderSnapshot` — render data extracted under lock. -/
structure RenderSnapshot where
  frameSeq : Nat
  resizeEpoch : Nat
  lines : List RenderedLine
  scrolledLines : List RenderedLine
  visibleBaseGlobal : Nat
  visibleRows : Nat
  visibleCols : Nat
  cursor : CursorRender
  events : List TerminalEvent
deriving DecidableEq, Repr

/-- `active_grid_mut` (read side): the alternate grid when `using_alt`,
else the main grid.  `using_alt` always comes with `alt_grid = Some`, so
the `getD` fallback is never reached. -/
def TerminalState.activeGrid (s : TerminalState) : Grid :=
  if s.usingAlt then s.altGrid.getD s.grid else s.grid

/-- `active_grid_mut` (write side): store an updated active grid back. -/
def TerminalState.setActiveGrid (s : TerminalState) (g : Grid) : TerminalState :=
  if s.usingAlt then { s with altGrid := some g } else { s with grid := g }

/-- Apply a grid transformation to the active grid. -/
def TerminalState.withActiveGrid (s : TerminalState) (f : Grid → Grid) : TerminalState :=
  s.setActiveGrid (f s.activeGrid)

/-- `TerminalState::take_pending_responses`. -/
def TerminalState.take_pending_responses (s : TerminalState) : List String × TerminalState :=
  (s.pendingResponses, { s with pendingResponses := [] })

/-- One `Grid::scroll_up` on the active grid with the scrolled-line capture
that `linefeed`, `delete_lines` and `scroll_up_n` all perform: outside the
alt screen the returned line is appended to `scrolled_off_buffer` and
`scrollback_seq` is bumped. -/
def TerminalState.scrollUpCapture (s : TerminalState) (top bottom : Nat) : TerminalState :=
  let res := s.activeGrid.scroll_up top bottom
  let s2 := s.setActiveGrid res.2
  match res.1 with
  | some line =>
      if !s2.usingAlt then
        { s2 with scrolledOffBuffer := s2.scrolledOffBuffer ++ [line]
                  scrollbackSeq := u64SatAdd1 s2.scrollbackSeq }
      else s2
  | none => s2

/-- `TerminalState::linefeed`. -/
def TerminalState.linefeed (s : TerminalState) : TerminalState :=
  if s.cursor.row = s.scrollBottom then
    s.scrollUpCapture s.scrollTop s.scrollBottom
  else if s.cursor.row < s.rows - 1 then
    { s with cursor.row := s.cursor.row + 1 }
  else s

/-- `TerminalState::global_row` — `scrollback_seq + cursor.row`. -/
def TerminalState.global_row (s : TerminalState) : Nat := s.scrollbackSeq + s.cursor.row

/-- `TerminalState::reverse_index`. -/
def TerminalState.reverse_index (s : TerminalState) : TerminalState :=
  if s.cursor.row = s.scrollTop then
    s.withActiveGrid (fun g => g.scroll_down s.scrollTop s.scrollBottom)
  else if 0 < s.cursor.row then
    { s with cursor.row := s.cursor.row - 1 }
  else s

/-- `TerminalState::carriage_return`. -/
def TerminalState.carriage_return (s : TerminalState) : TerminalState :=
  { s with cursor.col := 0 }

/-- `TerminalState::backspace`. -/
def TerminalState.backspace (s : TerminalState) : TerminalState :=
  if 0 < s.cursor.col then { s with cursor.col := s.cursor.col - 1 } else s

/-- `TerminalState::tab` — jump to the next tab stop or the last column. -/
def TerminalState.tab (s : TerminalState) : TerminalState :=
  match (List.range' (s.cursor.col + 1) (s.cols - (s.cursor.col + 1))).find?
      (fun i => s.tabStops.getD i false) with
  | some i => { s with cursor.col := i }
  | none => { s with cursor.col := s.cols - 1 }

/-- `TerminalState::cursor_up` — region-aware clamp. -/
def TerminalState.cursor_up (s : TerminalState) (n : Nat) : TerminalState :=
  let minRow :=
    if s.scrollTop ≤ s.cursor.row ∧ s.cursor.row ≤ s.scrollBottom then s.scrollTop else 0
  { s with cursor.row := max (s.cursor.row - n) minRow }

/-- `TerminalState::cursor_down` — region-aware clamp. -/
def TerminalState.cursor_down (s : TerminalState) (n : Nat) : TerminalState :=
  let maxRow :=
    if s.scrollTop ≤ s.cursor.row ∧ s.cursor.row ≤ s.scrollBottom then s.scrollBottom
    else s.rows - 1
  { s with cursor.row := min (s.cursor.row + n) maxRow }

/-- `TerminalState::cursor_forward`. -/
def TerminalState.cursor_forward (s : TerminalState) (n : Nat) : TerminalState :=
  { s with cursor.col := min (s.cursor.col + n) (s.cols - 1) }

/-- `TerminalState::cursor_backward`. -/
def TerminalState.cursor_backward (s : TerminalState) (n : Nat) : TerminalState :=
  { s with cursor.col := s.cursor.col - n }

/-- `visible_row_mut(r).erase_with_bg(bg)` lifted to the grid. -/
def Grid.eraseVisibleRow (g : Grid) (r : Nat) (bg : Color) : Grid :=
  { g with rows := List.modify (fun row => row.erase_with_bg bg) (g.visibleOffset + r) g.rows }

/-- `visible_row_mut(r).clear()` lifted to the grid. -/
def Grid.clearVisibleRow (g : Grid) (r : Nat) : Grid :=
  { g with rows := List.modify Row.clear (g.visibleOffset + r) g.rows }

/-- `TerminalState::erase_display` (CSI J).  Mode 3 (xterm ED 3) only
clears the scrolled-off line buffer and queues `ScrollbackCleared`. -/
def TerminalState.erase_display (s : TerminalState) (mode : Nat) : TerminalState :=
  let crow := s.cursor.row
  let ccol := s.cursor.col
  let cols := s.cols
  let rows := s.rows
  let bg := s.cursor.bg
  if mode = 0 then
    s.withActiveGrid (fun g =>
      (List.range' (crow + 1) (rows - (crow + 1))).foldl
        (fun g2 r => g2.eraseVisibleRow r bg)
        (g.erase_cells crow ccol cols bg))
  else if mode = 1 then
    s.withActiveGrid (fun g =>
      ((List.range crow).foldl (fun g2 r => g2.eraseVisibleRow r bg) g).erase_cells
        crow 0 (ccol + 1) bg)
  else if mode = 2 then
    s.withActiveGrid (fun g =>
      (List.range rows).foldl (fun g2 r => g2.eraseVisibleRow r bg) g)
  else if mode = 3 then
    { s with scrolledOffBuffer := []
             pendingTerminalEvents := s.pendingTerminalEvents ++ [.scrollbackCleared] }
  else s

/-- `TerminalState::erase_line` (CSI K). -/
def TerminalState.erase_line (s : TerminalState) (mode : Nat) : TerminalState :=
  let crow := s.cursor.row
  let ccol := s.cursor.col
  let cols := s.cols
  let bg := s.cursor.bg
  if mode = 0 then s.withActiveGrid (fun g => g.erase_cells crow ccol cols bg)
  else if mode = 1 then s.withActiveGrid (fun g => g.erase_cells crow 0 (ccol + 1) bg)
  else if mode = 2 then s.withActiveGrid (fun g => g.eraseVisibleRow crow bg)
  else s

/-- `TerminalState::insert_lines` (CSI L). -/
def TerminalState.insert_lines (s : TerminalState) (n : Nat) : TerminalState :=
  if s.scrollTop ≤ s.cursor.row ∧ s.cursor.row ≤ s.scrollBottom then
    let crow := s.cursor.row
    let bottom := s.scrollBottom
    let s2 :=
      (List.range n).foldl (fun st _ => st.withActiveGrid (fun g => g.scroll_down crow bottom)) s
    { s2 with cursor.col := 0 }
  else s

/-- `TerminalState::delete_lines` (CSI M). -/
def TerminalState.delete_lines (s : TerminalState) (n : Nat) : TerminalState :=
  if s.scrollTop ≤ s.cursor.row ∧ s.cursor.row ≤ s.scrollBottom then
    let crow := s.cursor.row
    let bottom := s.scrollBottom
    let s2 := (List.range n).foldl (fun st _ => st.scrollUpCapture crow bottom) s
    { s2 with cursor.col := 0 }
  else s

/-- `TerminalState::erase_chars` (CSI X). -/
def TerminalState.erase_chars (s : TerminalState) (n : Nat) : TerminalState :=
  let endCol := min (s.cursor.col + n) s.cols
  s.withActiveGrid (fun g => g.erase_cells s.cursor.row s.cursor.col endCol s.cursor.bg)

/-- `TerminalState::insert_chars` (CSI @). -/
def TerminalState.insert_chars (s : TerminalState) (n : Nat) : TerminalState :=
  s.withActiveGrid (fun g => g.insert_cells s.cursor.row s.cursor.col n)

/-- `TerminalState::delete_chars` (CSI P). -/
def TerminalState.delete_chars (s : TerminalState) (n : Nat) : TerminalState :=
  s.withActiveGrid (fun g => g.delete_cells s.cursor.row s.cursor.col n)

/-- `TerminalState::scroll_up_n` (CSI S). -/
def TerminalState.scroll_up_n (s : TerminalState) (n : Nat) : TerminalState :=
  (List.range n).foldl (fun st _ => st.scrollUpCapture s.scrollTop s.scrollBottom) s

/-- `TerminalState::scroll_down_n` (CSI T). -/
def TerminalState.scroll_down_n (s : TerminalState) (n : Nat) : TerminalState :=
  (List.range n).foldl
    (fun st _ => st.withActiveGrid (fun g => g.scroll_down s.scrollTop s.scrollBottom)) s

/-- `TerminalState::save_cursor`. -/
def TerminalState.save_cursor (s : TerminalState) : TerminalState :=
  { s with cursor := s.cursor.save }

/-- `TerminalState::restore_cursor`. -/
def TerminalState.restore_cursor (s : TerminalState) : TerminalState :=
  { s with cursor := s.cursor.restore }

/-- `TerminalState::enter_alt_screen`. -/
def TerminalState.enter_alt_screen (s : TerminalState) : TerminalState :=
  if !s.usingAlt then
    { s with altGrid := some (Grid.new s.rows s.cols)
             usingAlt := true
             modes.altScreen := true
             pendingTerminalEvents := s.pendingTerminalEvents ++ [.altScreenEntered] }
  else s

/-- `TerminalState::exit_alt_screen`. -/
def TerminalState.exit_alt_screen (s : TerminalState) : TerminalState :=
  if s.usingAlt then
    { s with usingAlt := false
             modes.altScreen := false
             altGrid := none
             grid := s.grid.mark_all_dirty
             pendingTerminalEvents := s.pendingTerminalEvents ++ [.altScreenExited] }
  else s

/-- `TerminalState::clear_screen`. -/
def TerminalState.clear_screen (s : TerminalState) : TerminalState :=
  let rows := s.rows
  let s2 := s.withActiveGrid (fun g => (List.range rows).foldl (fun g2 r => g2.clearVisibleRow r) g)
  { s2 with cursor.row := 0, cursor.col := 0 }

/-- One non-38/48 SGR parameter applied to the cursor style. -/
def sgrApply (cur : CursorState) (p : Nat) : CursorState :=
  if p = 0 then { cur with attrs := .empty, fg := .default, bg := .default }
  else if p = 1 then { cur with attrs.bold := true }
  else if p = 2 then { cur with attrs.dim := true }
  else if p = 3 then { cur with attrs.italic := true }
  else if p = 4 then { cur with attrs.underline := true }
  else if p = 5 then { cur with attrs.blink := true }
  else if p = 7 then { cur with attrs.reverse := true }
  else if p = 8 then { cur with attrs.hidden := true }
  else if p = 9 then { cur with attrs.strikethrough := true }
  else if p = 22 then { cur with attrs.bold := false, attrs.dim := false }
  else if p = 23 then { cur with attrs.italic := false }
  else if p = 24 then { cur with attrs.underline := false }
  else if p = 25 then { cur with attrs.blink := false }
  else if p = 27 then { cur with attrs.reverse := false }
  else if p = 28 then { cur with attrs.hidden := false }
  else if p = 29 then { cur with attrs.strikethrough := false }
  else if 30 ≤ p ∧ p ≤ 37 then { cur with fg := .indexed (p - 30) }
  else if p = 39 then { cur with fg := .default }
  else if 40 ≤ p ∧ p ≤ 47 then { cur with bg := .indexed (p - 40) }
  else if p = 49 then { cur with bg := .default }
  else if 90 ≤ p ∧ p ≤ 97 then { cur with fg := .indexed (p - 90 + 8) }
  else if 100 ≤ p ∧ p ≤ 107 then { cur with bg := .indexed (p - 100 + 8) }
  else cur

/-- The sequential SGR walk of `handle_sgr`, with the 38/48 lookahead.  The
Rust loop consumes `38;2;r;g;b` / `38;5;i` when complete; an incomplete
introducer consumes only `38` and its selector, leaving the remaining
parameters to be interpreted on their own (`u8` casts become `% 256`). -/
def sgrWalk (cur : CursorState) : List Nat → CursorState
  | [] => cur
  | 38 :: 2 :: r :: g :: b :: rest =>
      sgrWalk { cur with fg := .rgb (r % 256) (g % 256) (b % 256) } rest
  | 38 :: 5 :: i :: rest => sgrWalk { cur with fg := .indexed (i % 256) } rest
  | 38 :: _ :: rest => sgrWalk cur rest
  | [38] => cur
  | 48 :: 2 :: r :: g :: b :: rest =>
      sgrWalk { cur with bg := .rgb (r % 256) (g % 256) (b % 256) } rest
  | 48 :: 5 :: i :: rest => sgrWalk { cur with bg := .indexed (i % 256) } rest
  | 48 :: _ :: rest => sgrWalk cur rest
  | [48] => cur
  | p :: rest => sgrWalk (sgrApply cur p) rest

/-- `TerminalState::handle_sgr` — empty parameter list acts as `[0]`. -/
def TerminalState.handle_sgr (s : TerminalState) (params : List Nat) : TerminalState :=
  let ps := if params = [] then [0] else params
  { s with cursor := sgrWalk s.cursor ps }

/-- `TerminalState::emit_mode_changed`. -/
def TerminalState.emit_mode_changed (s : TerminalState) : TerminalState :=
  { s with pendingTerminalEvents :=
      s.pendingTerminalEvents ++
        [.mouseModeChanged s.modes.mouseTracking s.modes.mouseMotion s.modes.mouseAllMotion
          s.modes.sgrMouse s.modes.utf8Mouse s.modes.focusEvents s.modes.alternateScroll
          s.modes.synchronizedOutput s.modes.bracketedPaste s.modes.cursorKeysApplication] }

/-- One DEC private mode set/reset (`set_dec_mode` loop body). -/
def TerminalState.setDecModeOne (s : TerminalState) (p : Nat) (enable : Bool) : TerminalState :=
  if p = 1 then
    ({ s with modes.cursorKeysApplication := enable }).emit_mode_changed
  else if p = 6 then
    let s2 := { s with modes.origin := enable }
    let s3 :=
      if enable then { s2 with cursor.row := s2.scrollTop } else { s2 with cursor.row := 0 }
    { s3 with cursor.col := 0 }
  else if p = 7 then { s with modes.autowrap := enable }
  else if p = 12 then s
  else if p = 25 then { s with modes.cursorVisible := enable }
  else if p = 47 then
    (if enable then s.enter_alt_screen else s.exit_alt_screen)
  else if p = 1047 then
    (if enable then s.enter_alt_screen.clear_screen else s.exit_alt_screen)
  else if p = 1048 then
    (if enable then s.save_cursor else s.restore_cursor)
  else if p = 1000 then ({ s with modes.mouseTracking := enable }).emit_mode_changed
  else if p = 1002 then ({ s with modes.mouseMotion := enable }).emit_mode_changed
  else if p = 1003 then ({ s with modes.mouseAllMotion := enable }).emit_mode_changed
  else if p = 1004 then ({ s with modes.focusEvents := enable }).emit_mode_changed
  else if p = 1005 then ({ s with modes.utf8Mouse := enable }).emit_mode_changed
  else if p = 1006 then ({ s with modes.sgrMouse := enable }).emit_mode_changed
  else if p = 1007 then ({ s with modes.alternateScroll := enable }).emit_mode_changed
  else if p = 1049 then
    (if enable then s.save_cursor.enter_alt_screen.clear_screen
     else s.exit_alt_screen.restore_cursor)
  else if p = 2004 then ({ s with modes.bracketedPaste := enable }).emit_mode_changed
  else if p = 2026 then ({ s with modes.synchronizedOutput := enable }).emit_mode_changed
  else s

/-- `TerminalState::set_dec_mode` — apply each parameter in order. -/
def TerminalState.set_dec_mode (s : TerminalState) (params : List Nat) (enable : Bool) :
    TerminalState :=
  params.foldl (fun st p => st.setDecModeOne p enable) s

/-- `TerminalState::report_mode_state` — one DECRPM / RQM report line. -/
def TerminalState.report_mode_state (s : TerminalState) (mode : Nat) (set : Option Bool)
    (decPrivate : Bool) : TerminalState :=
  let pm : Nat := match set with | some true => 1 | some false => 2 | none => 0
  let px := if decPrivate then "?" else ""
  { s with pendingResponses :=
      s.pendingResponses ++ ["\x1b[" ++ px ++ toString mode ++ ";" ++ toString pm ++ "$y"] }

/-- `TerminalState::dec_mode_state`. -/
def TerminalState.dec_mode_state (s : TerminalState) (mode : Nat) : Option Bool :=
  if mode = 1 then some s.modes.cursorKeysApplication
  else if mode = 6 then some s.modes.origin
  else if mode = 7 then some s.modes.autowrap
  else if mode = 25 then some s.modes.cursorVisible
  else if mode = 47 ∨ mode = 1047 ∨ mode = 1049 then some s.usingAlt
  else if mode = 1000 then some s.modes.mouseTracking
  else if mode = 1002 then some s.modes.mouseMotion
  else if mode = 1003 then some s.modes.mouseAllMotion
  else if mode = 1004 then some s.modes.focusEvents
  else if mode = 1005 then some s.modes.utf8Mouse
  else if mode = 1006 then some s.modes.sgrMouse
  else if mode = 1007 then some s.modes.alternateScroll
  else if mode = 2004 then some s.modes.bracketedPaste
  else if mode = 2026 then some s.modes.synchronizedOutput
  else none

/-- `TerminalState::ansi_mode_state`. -/
def TerminalState.ansi_mode_state (s : TerminalState) (mode : Nat) : Option Bool :=
  if mode = 4 then some s.modes.insert
  else if mode = 20 then some s.modes.linefeedNewline
  else none

/-- `TerminalState::report_dec_modes`. -/
def TerminalState.report_dec_modes (s : TerminalState) (params : List Nat) : TerminalState :=
  if params = [] then s.report_mode_state 0 none true
  else params.foldl (fun st mode => st.report_mode_state mode (st.dec_mode_state mode) true) s

/-- `TerminalState::report_ansi_modes`. -/
def TerminalState.report_ansi_modes (s : TerminalState) (params : List Nat) : TerminalState :=
  if params = [] then s.report_mode_state 0 none false
  else params.foldl (fun st mode => st.report_mode_state mode (st.ansi_mode_state mode) false) s

/-- `TerminalState::set_mode` (ANSI modes: IRM, LNM). -/
def TerminalState.set_mode (s : TerminalState) (params : List Nat) (enable : Bool) :
    TerminalState :=
  params.foldl
    (fun st p =>
      if p = 4 then { st with modes.insert := enable }
      else if p = 20 then { st with modes.linefeedNewline := enable }
      else st)
    s

/-- `state.rs`: `handle_osc_52` — OSC 52 clipboard.  The system clipboard
is an external resource: its current text is supplied as `clipboard`
(mirroring `read_clipboard_text().unwrap_or_default()`); clipboard writes
are external effects with no terminal-state footprint. -/
def TerminalState.handle_osc_52 (s : TerminalState) (params : List String) (clipboard : String) :
    TerminalState :=
  if params.length < 3 then s
  else
    let target := params.getD 1 "c"
    let payload := params.getD 2 ""
    if payload = "?" then
      { s with pendingResponses :=
          s.pendingResponses ++
            ["\x1b]52;" ++ target ++ ";" ++ String.mk (base64Encode (utf8Bytes clipboard)) ++
              "\x1b\\"] }
    else s

/-- `val.parse::<u16>().unwrap_or(0)`. -/
def parseU16 (v : String) : Nat :=
  match v.toNat? with
  | some n => if n < 65536 then n else 0
  | none => 0

/-- The OSC 1337 (`File=…`) branch of `handle_osc`. -/
def TerminalState.handleOsc1337 (s : TerminalState) (payload : String) : TerminalState :=
  if payload.startsWith "File=" then
    let rest := (payload.drop 5).toList
    match rest.findIdx? (· = ':') with
    | some colonIdx =>
        let paramStr := rest.take colonIdx
        let dataB64 := rest.drop (colonIdx + 1)
        let parsed :=
          (splitOnChar ';' paramStr).foldl
            (fun (acc : Nat × Nat × Bool) part =>
              match part.findIdx? (· = '=') with
              | some eqIdx =>
                  let key := String.mk (part.take eqIdx)
                  let val := String.mk (part.drop (eqIdx + 1))
                  if key = "width" then (parseU16 val, acc.2.1, acc.2.2)
                  else if key = "height" then (acc.1, parseU16 val, acc.2.2)
                  else if key = "inline" then (acc.1, acc.2.1, val = "1")
                  else acc
              | none => acc)
            (0, 0, false)
        if parsed.2.2 ∧ dataB64 ≠ [] ∧ s.experimentalImageProtocolsEnabled then
          let s2 := { s with imageCounter := s.imageCounter + 1 }
          { s2 with pendingTerminalEvents :=
              s2.pendingTerminalEvents ++
                [.inlineImage ("img-" ++ toString s2.imageCounter) (String.mk dataB64)
                  parsed.1 parsed.2.1 s2.cursor.row s2.cursor.col] }
        else if parsed.2.2 ∧ dataB64 ≠ [] ∧ !s.imageProtocolDropNotified then
          { s with imageProtocolDropNotified := true }
        else s
    | none => s
  else s

/-- The OSC `1337` parameter lookup of `handle_osc`. -/
def TerminalState.handleOsc1337Dispatch (s : TerminalState) (params : List String) :
    TerminalState :=
  match params[1]? with
  | some payload => s.handleOsc1337 payload
  | none => s

/-- The OSC `0`/`2` (title) branch of `handle_osc`. -/
def TerminalState.handleOscTitle (s : TerminalState) (params : List String) : TerminalState :=
  match params[1]? with
  | some t => { s with title := t, titleChanged := true }
  | none => s

/-- The OSC `7` (cwd) branch of `handle_osc` — strip `file://<host>`. -/
def TerminalState.handleOsc7 (s : TerminalState) (params : List String) : TerminalState :=
  match params[1]? with
  | some uri =>
      if uri.startsWith "file://" then
        let path := uri.drop 7
        match path.toList.findIdx? (· = '/') with
        | some i => { s with shell := s.shell.set_cwd (String.mk (path.toList.drop i)) }
        | none => s
      else { s with shell := s.shell.set_cwd uri }
  | none => s

/-- The OSC `133` (shell integration) branch of `handle_osc`. -/
def TerminalState.handleOsc133 (s : TerminalState) (params : List String) (freshId : String) :
    TerminalState :=
  match params[1]? with
  | some marker =>
      if marker = "A" then { s with shell := s.shell.prompt_start freshId s.global_row }
      else if marker = "B" then
        let cmd := String.intercalate ";" (params.drop 2)
        if cmd ≠ "" then { s with shell := s.shell.command_start cmd s.global_row } else s
      else if marker = "C" then s
      else if marker = "T" then
        let args := String.intercalate ";" (params.drop 2)
        { s with pendingTerminalEvents := s.pendingTerminalEvents ++ [.tmuxRequested args] }
      else if marker = "D" then
        let exitCode : Int :=
          match params[2]? with
          | some p =>
              match p.toInt? with
              | some v => if -(2 ^ 31 : Int) ≤ v ∧ v < 2 ^ 31 then v else 0
              | none => 0
          | none => 0
        { s with shell := s.shell.command_end exitCode s.global_row }
      else s
  | none => s

/-- The OSC `8` (hyperlink) branch of `handle_osc`. -/
def TerminalState.handleOsc8 (s : TerminalState) (params : List String) : TerminalState :=
  if 3 ≤ params.length then
    let uri := params.getD 2 ""
    if uri = "" then { s with activeHyperlink := none }
    else { s with activeHyperlink := some uri }
  else if 2 ≤ params.length then { s with activeHyperlink := none }
  else s

/-- The OSC `4` (palette colour query) branch of `handle_osc`. -/
def TerminalState.handleOsc4 (s : TerminalState) (params : List String) : TerminalState :=
  if 3 ≤ params.length ∧ params.getD 2 "" = "?" then
    match (params.getD 1 "").toNat? with
    | some index =>
        if index < 256 then
          let rgb := indexed_to_rgb index
          { s with pendingResponses :=
              s.pendingResponses ++
                ["\x1b]4;" ++ toString index ++ ";rgb:" ++ String.mk (hex4 (rgb.1 * 257)) ++
                  "/" ++ String.mk (hex4 (rgb.2.1 * 257)) ++ "/" ++
                  String.mk (hex4 (rgb.2.2 * 257)) ++ "\x1b\\"] }
        else s
    | none => s
  else s

/-- The OSC `10`/`11`/`12` (fg/bg/cursor colour query) branch. -/
def TerminalState.handleOscColorQuery (s : TerminalState) (first : String)
    (params : List String) : TerminalState :=
  if 2 ≤ params.length ∧ params.getD 1 "" = "?" then
    let rgb : Nat × Nat × Nat :=
      if first = "10" then (0xd4, 0xd4, 0xd4)
      else if first = "11" then (0x0e, 0x0e, 0x0e)
      else (0xd4, 0xd4, 0xd4)
    { s with pendingResponses :=
        s.pendingResponses ++
          ["\x1b]" ++ first ++ ";rgb:" ++ String.mk (hex4 (rgb.1 * 257)) ++ "/" ++
            String.mk (hex4 (rgb.2.1 * 257)) ++ "/" ++ String.mk (hex4 (rgb.2.2 * 257)) ++
            "\x1b\\"] }
  else s

/-- `state.rs`: `handle_osc`.  OSC parameters arrive as byte slices and are
decoded with `from_utf8` / `from_utf8_lossy`; they are modelled as the
decoded strings.  The fresh block id of OSC 133;A (a `Uuid::new_v4()` in
the source) is supplied by the caller. -/
def TerminalState.handle_osc (s : TerminalState) (params : List String)
    (freshId clipboard : String) : TerminalState :=
  match params with
  | [] => s
  | first :: _ =>
    if first = "0" ∨ first = "2" then s.handleOscTitle params
    else if first = "7" then s.handleOsc7 params
    else if first = "133" then s.handleOsc133 params freshId
    else if first = "8" then s.handleOsc8 params
    else if first = "52" then s.handle_osc_52 params clipboard
    else if first = "4" then s.handleOsc4 params
    else if first = "10" ∨ first = "11" ∨ first = "12" then s.handleOscColorQuery first params
    else if first = "1337" then s.handleOsc1337Dispatch params
    else s

/-- Decode-and-lookup loop of `handle_xtgettcap`: the first malformed or
unknown capability aborts the whole request (the source early-returns the
error response). -/
def xtgettcapPairs : List (List Char) → Option (List (List Char))
  | [] => some []
  | item :: rest =>
      if item = [] then xtgettcapPairs rest
      else
        match decode_hex_ascii item with
        | none => none
        | some name =>
            match tcap_capability_value name with
            | none => none
            | some value =>
                match xtgettcapPairs rest with
                | none => none
                | some pairs =>
                    some ((encode_hex_ascii name ++ ['='] ++ encode_hex_ascii value) :: pairs)

/-- `state.rs`: `handle_xtgettcap` (`DCS + q … ST`).  The
`from_utf8_lossy` byte-to-text step is modelled as a direct byte-to-char
map; all capability names in use are ASCII. -/
def TerminalState.handle_xtgettcap (s : TerminalState) (data : List Nat) : TerminalState :=
  let raw : List Char := data.map Char.ofNat
  let isWs : Char → Bool := fun c => c = ' ' ∨ c = '\t' ∨ c = '\n' ∨ c = '\r'
  let errResponse := "\x1bP0+r\x1b\\"
  if raw.all isWs then
    { s with pendingResponses := s.pendingResponses ++ [errResponse] }
  else
    match xtgettcapPairs (splitOnChar ';' raw) with
    | none => { s with pendingResponses := s.pendingResponses ++ [errResponse] }
    | some [] => { s with pendingResponses := s.pendingResponses ++ [errResponse] }
    | some pairs =>
        { s with pendingResponses :=
            s.pendingResponses ++
              ["\x1bP1+r" ++ String.mk (List.intercalate [';'] pairs) ++ "\x1b\\"] }

/-- The queryable status strings of `handle_decrqss`. -/
def TerminalState.decrqssStatus (s : TerminalState) (query : List Char) : Option String :=
  if query = "m".toList then some "0m"
  else if query = " q".toList then
    let cursorStyle : Nat :=
      match s.cursor.shape with
      | .block => 2
      | .underline => 4
      | .bar => 6
    some (toString cursorStyle ++ " q")
  else if query = "r".toList then
    some (toString (s.scrollTop + 1) ++ ";" ++ toString (s.scrollBottom + 1) ++ "r")
  else none

/-- `state.rs`: `handle_decrqss` (`DCS $ q Pt ST`). -/
def TerminalState.handle_decrqss (s : TerminalState) (data : List Nat) : TerminalState :=
  match s.decrqssStatus (data.map Char.ofNat) with
  | some pt => { s with pendingResponses := s.pendingResponses ++ ["\x1bP1$r" ++ pt ++ "\x1b\\"] }
  | none => { s with pendingResponses := s.pendingResponses ++ ["\x1bP0$r\x1b\\"] }

/-- `state.rs`: `handle_tmux_passthrough` (`DCS tmux; … ST`).  The source
un-doubles `ESC ESC` in the payload and re-feeds the decoded bytes into
the same `vte` parser, i.e. it triggers further `Perform` callbacks on the
same state.  In this trace embedding those callbacks are represented as
the subsequent operations of the trace, so the handler itself leaves the
state unchanged. -/
def TerminalState.handle_tmux_passthrough (s : TerminalState) (_data : List Nat) :
    TerminalState :=
  s

/-- `state.rs`: `handle_dcs` — dispatch on `(action, intermediates)`. -/
def TerminalState.handle_dcs (s : TerminalState) (action : Option Char)
    (intermediates : List Nat) (data : List Nat) : TerminalState :=
  match action, intermediates with
  | some 'q', [0x2b] => s.handle_xtgettcap data
  | some 'q', [0x24] => s.handle_decrqss data
  | some 't', [] => s.handle_tmux_passthrough data
  | _, _ => s

/-- The wrap-or-clamp stage shared by `print` and one CSI REP iteration:
at or past the right edge the cursor wraps to the next line (autowrap on)
or clamps to the last column (autowrap off). -/
def TerminalState.putCharWrap (s : TerminalState) : TerminalState :=
  if s.cols ≤ s.cursor.col then
    if s.modes.autowrap then s.carriage_return.linefeed
    else { s with cursor.col := s.cols - 1 }
  else s

/-- The cell-writing stage shared by `print` and one CSI REP iteration:
optional insert-mode shift, write the cell (plus wide spacer), advance the
cursor by the width. -/
def TerminalState.putCharWrite (s : TerminalState) (c : Char) (w : Nat) : TerminalState :=
  let s2 :=
    if s.modes.insert then
      s.withActiveGrid (fun g => g.insert_cells s.cursor.row s.cursor.col w)
    else s
  let cell : Cell :=
    { c := c, fg := s2.cursor.fg, bg := s2.cursor.bg, attrs := s2.cursor.attrs
      flags := if w = 2 then { wideChar := true } else {} }
  let s3 := s2.withActiveGrid (fun g =>
    let g2 := g.set_cell s2.cursor.row s2.cursor.col cell
    if w = 2 ∧ s2.cursor.col + 1 < s2.cols then
      g2.set_cell s2.cursor.row (s2.cursor.col + 1) Cell.wide_spacer
    else g2)
  { s3 with cursor.col := s3.cursor.col + w }

/-- The shared cell-writing body of `print` and of one CSI REP iteration:
wrap-or-clamp at the right edge, then the cell write. -/
def TerminalState.putChar (s : TerminalState) (c : Char) (w : Nat) : TerminalState :=
  (s.putCharWrap).putCharWrite c w

/-- `vte::Perform::print` for `TerminalState`.  `w` is
`UnicodeWidthChar::width(c).unwrap_or(1)` of the (charset-mapped)
character — the DEC Special Graphics mapping only exchanges width-1
characters for width-1 characters, so the width of the mapped character
equals the width of `c`. -/
def TerminalState.print (s : TerminalState) (c : Char) (w : Nat) : TerminalState :=
  let c2 := if s.charsetG0Drawing then dec_line_drawing_char c else c
  ({ s with lastPrintedChar := c2, lastPrintedWidth := w }).putChar c2 w

/-- The CSI REP (`b`) loop: repeat the last printed character, capped at
2048 repetitions. -/
def TerminalState.csiRep (s : TerminalState) (count : Nat) : TerminalState :=
  let c := s.lastPrintedChar
  let w := s.lastPrintedWidth
  (List.range (min count 2048)).foldl (fun st _ => st.putChar c w) s

/-- `vte::Perform::execute` — C0 controls. -/
def TerminalState.execute (s : TerminalState) (b : Nat) : TerminalState :=
  if b = 0x07 then { s with bellPending := true }
  else if b = 0x08 then s.backspace
  else if b = 0x09 then s.tab
  else if b = 0x0A ∨ b = 0x0B ∨ b = 0x0C then
    let s2 := s.linefeed
    if s2.modes.linefeedNewline then s2.carriage_return else s2
  else if b = 0x0D then s.carriage_return
  else s

/-- CUP / `f` (cursor position): origin mode offsets rows by `scroll_top`
and clamps to `scroll_bottom`. -/
def TerminalState.csiCup (s : TerminalState) (raw : List Nat) : TerminalState :=
  let row := param raw 0 1 - 1
  let s2 :=
    if s.modes.origin then { s with cursor.row := min (s.scrollTop + row) s.scrollBottom }
    else { s with cursor.row := min row (s.rows - 1) }
  { s2 with cursor.col := min (param raw 1 1 - 1) (s2.cols - 1) }

/-- CNL (`E`): column 0 then cursor down. -/
def TerminalState.csiNextLine (s : TerminalState) (raw : List Nat) : TerminalState :=
  ({ s with cursor.col := 0 }).cursor_down (param raw 0 1)

/-- CPL (`F`): column 0 then cursor up. -/
def TerminalState.csiPrevLine (s : TerminalState) (raw : List Nat) : TerminalState :=
  ({ s with cursor.col := 0 }).cursor_up (param raw 0 1)

/-- HPA (`G`). -/
def TerminalState.csiHpa (s : TerminalState) (raw : List Nat) : TerminalState :=
  { s with cursor.col := min (param raw 0 1 - 1) (s.cols - 1) }

/-- VPA (`d`), with the same origin-mode handling as CUP. -/
def TerminalState.csiVpa (s : TerminalState) (raw : List Nat) : TerminalState :=
  let row := param raw 0 1 - 1
  if s.modes.origin then { s with cursor.row := min (s.scrollTop + row) s.scrollBottom }
  else { s with cursor.row := min row (s.rows - 1) }

/-- DECSTBM (`r`): set the scroll region and home the cursor. -/
def TerminalState.csiDecstbm (s : TerminalState) (raw : List Nat) : TerminalState :=
  let top := param raw 0 1 - 1
  let bottom := param raw 1 s.rows - 1
  let s2 := { s with scrollTop := top, scrollBottom := min bottom (s.rows - 1) }
  let s3 :=
    if s2.modes.origin then { s2 with cursor.row := s2.scrollTop }
    else { s2 with cursor.row := 0 }
  { s3 with cursor.col := 0 }

/-- DSR (`n`): 5 → `ESC[0n`, 6 → CPR `ESC[row;colR` (1-based). -/
def TerminalState.csiDsr (s : TerminalState) (raw : List Nat) : TerminalState :=
  let p := param raw 0 0
  if p = 5 then { s with pendingResponses := s.pendingResponses ++ ["\x1b[0n"] }
  else if p = 6 then
    { s with pendingResponses :=
        s.pendingResponses ++
          ["\x1b[" ++ toString (s.cursor.row + 1) ++ ";" ++ toString (s.cursor.col + 1) ++
            "R"] }
  else s

/-- DA1 (`c`): parameter 0 responds as a VT220. -/
def TerminalState.csiDa1 (s : TerminalState) (raw : List Nat) : TerminalState :=
  if param raw 0 0 = 0 then
    { s with pendingResponses := s.pendingResponses ++ ["\x1b[?62;22c"] }
  else s

/-- DA2 (`CSI > c`): parameter 0 responds with the firmware marker. -/
def TerminalState.csiDa2 (s : TerminalState) (raw : List Nat) : TerminalState :=
  if param raw 0 0 = 0 then
    { s with pendingResponses := s.pendingResponses ++ ["\x1b[>0;10;0c"] }
  else s

/-- DECSCUSR (`SP q`): cursor shape. -/
def TerminalState.csiDecscusr (s : TerminalState) (raw : List Nat) : TerminalState :=
  let p := param raw 0 1
  if p = 0 ∨ p = 1 ∨ p = 2 then { s with cursor.shape := .block }
  else if p = 3 ∨ p = 4 then { s with cursor.shape := .underline }
  else if p = 5 ∨ p = 6 then { s with cursor.shape := .bar }
  else s

/-- `vte::Perform::csi_dispatch`.  `raw` is the flattened parameter list
(`extract_params`); intermediates are raw bytes (`?` = 0x3f, `>` = 0x3e,
`$` = 0x24, space = 0x20). -/
def TerminalState.csi_dispatch (s : TerminalState) (raw : List Nat) (intermediates : List Nat)
    (action : Char) : TerminalState :=
  let isPrivate := intermediates.contains 0x3f
  let hasGt := intermediates.contains 0x3e
  let hasDollar := intermediates.contains 0x24
  if action = 'p' ∧ hasDollar then
    if isPrivate then s.report_dec_modes raw else s.report_ansi_modes raw
  else if action = 'c' ∧ hasGt then s.csiDa2 raw
  else if isPrivate then
    if action = 'h' then s.set_dec_mode raw true
    else if action = 'l' then s.set_dec_mode raw false
    else s
  else if action = 'A' then s.cursor_up (param raw 0 1)
  else if action = 'B' then s.cursor_down (param raw 0 1)
  else if action = 'C' then s.cursor_forward (param raw 0 1)
  else if action = 'D' then s.cursor_backward (param raw 0 1)
  else if action = 'E' then s.csiNextLine raw
  else if action = 'F' then s.csiPrevLine raw
  else if action = 'G' then s.csiHpa raw
  else if action = 'H' ∨ action = 'f' then s.csiCup raw
  else if action = 'J' then s.erase_display (param raw 0 0)
  else if action = 'K' then s.erase_line (param raw 0 0)
  else if action = 'L' then s.insert_lines (param raw 0 1)
  else if action = 'M' then s.delete_lines (param raw 0 1)
  else if action = 'P' then s.delete_chars (param raw 0 1)
  else if action = 'S' then s.scroll_up_n (param raw 0 1)
  else if action = 'T' then s.scroll_down_n (param raw 0 1)
  else if action = 'X' then s.erase_chars (param raw 0 1)
  else if action = '@' then s.insert_chars (param raw 0 1)
  else if action = 'd' then s.csiVpa raw
  else if action = 'm' then s.handle_sgr raw
  else if action = 'r' then s.csiDecstbm raw
  else if action = 'h' then s.set_mode raw true
  else if action = 'l' then s.set_mode raw false
  else if action = 'n' then s.csiDsr raw
  else if action = 'c' then s.csiDa1 raw
  else if action = 's' then s.save_cursor
  else if action = 'u' then s.restore_cursor
  else if action = 'q' then
    if intermediates.contains 0x20 then s.csiDecscusr raw
    else s
  else if action = 'b' then s.csiRep (param raw 0 1)
  else s

/-- `vte::Perform::esc_dispatch`.  `ESC c` (RIS) rebuilds the state at the
same dimensions, carrying over only `frame_seq`, marks all dirty and, when
the alt screen was active, queues `AltScreenExited`. -/
def TerminalState.esc_dispatch (s : TerminalState) (intermediates : List Nat) (b : Nat) :
    TerminalState :=
  if b = 0x63 ∧ intermediates = [] then
    let s2 := TerminalState.new s.rows s.cols
    let s3 := { s2 with frameSeq := s.frameSeq, grid := s2.grid.mark_all_dirty }
    if s.usingAlt then
      { s3 with pendingTerminalEvents := s3.pendingTerminalEvents ++ [.altScreenExited] }
    else s3
  else if b = 0x44 ∧ intermediates = [] then s.linefeed
  else if b = 0x45 ∧ intermediates = [] then s.carriage_return.linefeed
  else if b = 0x48 ∧ intermediates = [] then
    if s.cursor.col < s.tabStops.length then
      { s with tabStops := s.tabStops.set s.cursor.col true }
    else s
  else if b = 0x4d ∧ intermediates = [] then s.reverse_index
  else if b = 0x37 ∧ intermediates = [] then s.save_cursor
  else if b = 0x38 ∧ intermediates = [] then s.restore_cursor
  else if b = 0x3d ∧ intermediates = [] then
    ({ s with modes.cursorKeysApplication := true }).emit_mode_changed
  else if b = 0x3e ∧ intermediates = [] then
    ({ s with modes.cursorKeysApplication := false }).emit_mode_changed
  else if b = 0x30 ∧ intermediates = [0x28] then { s with charsetG0Drawing := true }
  else if b = 0x42 ∧ intermediates = [0x28] then { s with charsetG0Drawing := false }
  else s

/-- `vte::Perform::hook` — start of a DCS sequence. -/
def TerminalState.hookDcs (s : TerminalState) (intermediates : List Nat) (action : Char) :
    TerminalState :=
  let s1 := { s with dcsBuffer := [], dcsIntermediates := intermediates,
                     dcsAction := some action }
  if action = 'q' ∧ intermediates = [] ∧ s1.experimentalImageProtocolsEnabled then
    { s1 with sixelActive := true, sixelBuffer := [] }
  else if action = 'q' ∧ intermediates = [] ∧ !s1.imageProtocolDropNotified then
    { s1 with imageProtocolDropNotified := true }
  else s1

/-- `vte::Perform::put` — one DCS payload byte, 16 MiB caps. -/
def TerminalState.putDcs (s : TerminalState) (b : Nat) : TerminalState :=
  if s.sixelActive then
    if s.sixelBuffer.length < 16 * 1024 * 1024 then
      { s with sixelBuffer := s.sixelBuffer ++ [b] }
    else s
  else if s.dcsBuffer.length < 16 * 1024 * 1024 then
    { s with dcsBuffer := s.dcsBuffer ++ [b] }
  else s

/-- `vte::Perform::unhook` — end of a DCS sequence. -/
def TerminalState.unhookDcs (s : TerminalState) : TerminalState :=
  if s.sixelActive then
    let data := s.sixelBuffer
    let s1 := { s with sixelActive := false, sixelBuffer := [] }
    let s2 :=
      if data ≠ [] then
        let s1b := { s1 with imageCounter := s1.imageCounter + 1 }
        { s1b with pendingTerminalEvents :=
            s1b.pendingTerminalEvents ++
              [.sixelImage ("sixel-" ++ toString s1b.imageCounter)
                (String.mk (base64Encode data)) 0 0 s1b.cursor.row s1b.cursor.col] }
      else s1
    { s2 with dcsBuffer := [], dcsIntermediates := [], dcsAction := none }
  else
    let data := s.dcsBuffer
    let ints := s.dcsIntermediates
    let act := s.dcsAction
    let s1 := { s with dcsBuffer := [], dcsIntermediates := [], dcsAction := none }
    s1.handle_dcs act ints data

/-- The scrolled-line capture `TerminalState::resize` performs when the
main grid shrinks: the visible top rows losing visibility are recorded in
`scrolled_off_buffer` and counted into `scrollback_seq`. -/
def TerminalState.captureShrinkRows (s : TerminalState) (rows : Nat) : TerminalState :=
  if s.usingAlt = false ∧ rows < s.rows then
    let lostRows := s.rows - rows
    let visibleOffset := s.grid.rows.length - s.grid.visibleRows
    (List.range lostRows).foldl
      (fun st i =>
        match st.grid.rows[visibleOffset + i]? with
        | some r =>
            { st with
                scrolledOffBuffer :=
                  st.scrolledOffBuffer ++ [{ index := 0, spans := r.to_styled_spans }]
                scrollbackSeq := u64SatAdd1 st.scrollbackSeq }
        | none => st)
      s
  else s

/-- `TerminalState::resize` — scrolled-line capture on main-grid shrink,
then grid resizes (alt grid discards), tab-stop rebuild, cursor clamp,
epoch bump. -/
def TerminalState.resize (s : TerminalState) (rows cols : Nat) : TerminalState :=
  let s1 := s.captureShrinkRows rows
  let s2 := { s1 with grid := s1.grid.resize rows cols }
  let s3 :=
    { s2 with altGrid := s2.altGrid.map (fun alt => Grid.resize_no_scrollback alt rows cols) }
  { s3 with rows := rows, cols := cols, scrollTop := 0, scrollBottom := rows - 1,
            tabStops := defaultTabStops cols,
            cursor.row := min s3.cursor.row (rows - 1),
            cursor.col := min s3.cursor.col (cols - 1),
            resizeEpoch := u64SatAdd1 s3.resizeEpoch }

/-- The draining phase of `take_render_snapshot`: collect dirty lines
(clearing dirty flags through `putGrid`), take the scrolled-off buffer,
the shell events and the pending terminal events, and append the
`TitleChanged` / `Bell` events while clearing their flags.  Returns
`((dirty_lines, scrolled_lines, all_events), drained_state)`. -/
def TerminalState.snapshotDrain (s : TerminalState) (g : Grid)
    (putGrid : TerminalState → Grid → TerminalState) :
    (List RenderedLine × List RenderedLine × List TerminalEvent) × TerminalState :=
  let collected := g.collect_dirty_lines
  let dirtyLines := collected.1
  let s1 := putGrid s collected.2
  let scrolledLines := s1.scrolledOffBuffer
  let s2 := { s1 with scrolledOffBuffer := [] }
  let events := s2.shell.pendingEvents
  let s3 := { s2 with shell.pendingEvents := [] }
  let allEvents0 := events ++ s3.pendingTerminalEvents
  let s4 := { s3 with pendingTerminalEvents := [] }
  let allEvents1 :=
    if s4.titleChanged then allEvents0 ++ [.titleChanged s4.title] else allEvents0
  let s5 := if s4.titleChanged then { s4 with titleChanged := false } else s4
  let allEvents := if s5.bellPending then allEvents1 ++ [.bell] else allEvents1
  let s6 := if s5.bellPending then { s5 with bellPending := false } else s5
  ((dirtyLines, scrolledLines, allEvents), s6)

/-- The body of `take_render_snapshot` once the active grid is selected;
`putGrid` stores the dirty-cleared grid back into the right slot.  When
nothing was drained it returns no snapshot; otherwise it bumps
`frame_seq` and packages the frame.  (The pure drain is referenced
several times instead of being bound once; it is the same value each
time.) -/
def TerminalState.snapshotWithGrid (s : TerminalState) (g : Grid)
    (putGrid : TerminalState → Grid → TerminalState) : Option RenderSnapshot × TerminalState :=
  if (s.snapshotDrain g putGrid).1.1 = [] ∧ (s.snapshotDrain g putGrid).1.2.2 = [] ∧
      (s.snapshotDrain g putGrid).1.2.1 = [] then
    (none, (s.snapshotDrain g putGrid).2)
  else
    (some { frameSeq := u64SatAdd1 (s.snapshotDrain g putGrid).2.frameSeq
            resizeEpoch := (s.snapshotDrain g putGrid).2.resizeEpoch
            lines := (s.snapshotDrain g putGrid).1.1
            scrolledLines := (s.snapshotDrain g putGrid).1.2.1
            visibleBaseGlobal :=
              if (s.snapshotDrain g putGrid).2.usingAlt then 0
              else (s.snapshotDrain g putGrid).2.scrollbackSeq
            visibleRows := g.visibleRows
            visibleCols := g.cols
            cursor := { row := (s.snapshotDrain g putGrid).2.cursor.row
                        col := (s.snapshotDrain g putGrid).2.cursor.col
                        visible := (s.snapshotDrain g putGrid).2.cursor.visible &&
                          (s.snapshotDrain g putGrid).2.modes.cursorVisible
                        shape :=
                          match (s.snapshotDrain g putGrid).2.cursor.shape with
                          | .block => "block"
                          | .underline => "underline"
                          | .bar => "bar" }
            events := (s.snapshotDrain g putGrid).1.2.2 },
     { (s.snapshotDrain g putGrid).2 with
         frameSeq := u64SatAdd1 (s.snapshotDrain g putGrid).2.frameSeq })

/-- `TerminalState::take_render_snapshot` — `None` when there is nothing
to publish, otherwise bumps `frame_seq` and packages the frame. -/
def TerminalState.take_render_snapshot (s : TerminalState) :
    Option RenderSnapshot × TerminalState :=
  if s.usingAlt then
    match s.altGrid with
    | none => (none, s)
    | some ag => s.snapshotWithGrid ag (fun st g => { st with altGrid := some g })
  else s.snapshotWithGrid s.grid (fun st g => { st with grid := g })

/-- One operation on a session's `TerminalState`: the eight `vte::Perform`
callbacks that feeding bytes produces, plus the two non-parser entry
points (`resize` and `take_render_snapshot`) reachable through the session
lock.  `print` carries the external Unicode width of its character; `osc`
carries the externally drawn fresh block id and the external clipboard
text (used only by OSC 133;A and OSC 52 respectively). -/
inductive Op where
  | print (c : Char) (w : Nat)
  | execute (b : Nat)
  | csi (params : List Nat) (intermediates : List Nat) (action : Char)
  | osc (params : List String) (freshId : String) (clipboard : String)
  | esc (intermediates : List Nat) (b : Nat)
  | hook (intermediates : List Nat) (action : Char)
  | put (b : Nat)
  | unhook
  | resizeTo (rows cols : Nat)
  | snapshot
deriving DecidableEq, Repr

/-- Apply one operation to the terminal state. -/
def step (s : TerminalState) (op : Op) : TerminalState :=
  match op with
  | .print c w => s.print c w
  | .execute b => s.execute b
  | .csi p i a => s.csi_dispatch p i a
  | .osc p fid clip => s.handle_osc p fid clip
  | .esc i b => s.esc_dispatch i b
  | .hook i a => s.hookDcs i a
  | .put b => s.putDcs b
  | .unhook => s.unhookDcs
  | .resizeTo r c => s.resize r c
  | .snapshot => s.take_render_snapshot.2

/-- Apply a sequence of operations. -/
def run (s : TerminalState) (ops : List Op) : TerminalState :=
  ops.foldl step s

/-- Whether an operation is the full reset `ESC c` (RIS). -/
def Op.isRIS : Op → Prop
  | Op.esc ints b => b = 0x63 ∧ ints = []
  | _ => False

instance (op : Op) : Decidable op.isRIS := by
  cases op <;> simp only [Op.isRIS] <;> infer_instance

/-- Whether one parser operation falls within the scope of the
cursor-bounds claim for a screen of height `r`: only bytes are fed (no
session resize, no snapshot), printed characters carry a Unicode width of
at most 2 (the only widths the external `unicode-width` crate reports for
a `char`), and any DECSTBM top parameter stays within the screen height
(the source stores it unclamped). -/
def Op.safeFor (r : Nat) : Op → Prop
  | Op.print _ w => w ≤ 2
  | Op.csi raw _ action => action = 'r' → param raw 0 1 ≤ r
  | Op.resizeTo _ _ => False
  | Op.snapshot => False
  | _ => True

instance (r : Nat) (op : Op) : Decidable (op.safeFor r) := by
  cases op <;> simp only [Op.safeFor] <;> infer_instance

/-- Bounds of a saved DECSC cursor relative to the screen size. -/
def savedOk (rows cols : Nat) : Option SavedCursor → Prop
  | none => True
  | some sv => sv.row < rows ∧ sv.col ≤ cols + 1

instance (rows cols : Nat) (o : Option SavedCursor) : Decidable (savedOk rows cols o) := by
  cases o <;> simp only [savedOk] <;> infer_instance

/-- The cursor-bounds invariant maintained while feeding parser callbacks
at fixed dimensions: at least one row and one column, the cursor inside
the screen vertically and at most one column past the right edge (a wide
character written in the last column leaves `col = cols + 1`), the scroll
region marks inside the screen, any saved DECSC cursor within the same
bounds, and a cached last-printed width of at most 2. -/
def cursorInv (s : TerminalState) : Prop :=
  1 ≤ s.rows ∧ 1 ≤ s.cols ∧ s.cursor.row < s.rows ∧ s.cursor.col ≤ s.cols + 1 ∧
  s.scrollTop < s.rows ∧ s.scrollBottom < s.rows ∧
  savedOk s.rows s.cols s.cursor.saved ∧ s.lastPrintedWidth ≤ 2

instance (s : TerminalState) : Decidable (cursorInv s) := by
  unfold cursorInv; infer_instance

/-- Observation helper: the cell stored at visible position `(row, col)`
of a grid, if present. -/
def Grid.cellAt (g : Grid) (row col : Nat) : Option Cell :=
  match g.rows[g.visibleOffset + row]? with
  | some r => r.cells[col]?
  | none => none

/-- Modelled from the spec: the style triple `(fg, bg, attrs)` of a cell,
used to state the span-coalescing claim. -/
@[reducible] def cellStyle (c : Cell) : Color × Color × CellAttrs := (c.fg, c.bg, c.attrs)

/-- Modelled from the spec: chunk a (spacer-free) cell sequence into its
maximal runs of consecutive cells sharing one style.  The `[] :: rs` arm
is unreachable (no produced run is empty) and only serves totality. -/
def specRuns : List Cell → List (List Cell)
  | [] => []
  | c :: rest =>
      match specRuns rest with
      | [] => [[c]]
      | (d :: ds) :: rs =>
          if cellStyle d = cellStyle c then (c :: d :: ds) :: rs
          else [c] :: (d :: ds) :: rs
      | [] :: rs => [c] :: rs

/-- Modelled from the spec: the span a run of equally-styled cells emits. -/
def runToSpan : List Cell → StyledSpan
  | [] => StyledSpan.new [] .default .default .empty
  | c :: cs => StyledSpan.new (c.c :: cs.map Cell.c) c.fg c.bg c.attrs

/-- Proof-layer bridge: the spans emitted by the tail of the loop of
`Row::to_styled_spans` once a current run (`text` with style
`(fg, bg, attrs)`) is open, over an already spacer-filtered cell list. -/
def seedSpans : List Char → Color → Color → CellAttrs → List Cell → List StyledSpan
  | text, fg, bg, attrs, [] => [StyledSpan.new text fg bg attrs]
  | text, fg, bg, attrs, c :: rest =>
      if c.fg ≠ fg ∨ c.bg ≠ bg ∨ c.attrs ≠ attrs then
        StyledSpan.new text fg bg attrs :: seedSpans [c.c] c.fg c.bg c.attrs rest
      else
        seedSpans (text ++ [c.c]) fg bg attrs rest

/-- Proof-layer bridge: prepend an open run (`text`, style) onto the spans
of an already-chunked tail, merging it into the first chunk when the
styles agree.  The `[] :: rs` arm is again unreachable. -/
def prependSpans : List Char → Color → Color → CellAttrs → List (List Cell) → List StyledSpan
  | text, fg, bg, attrs, [] => [StyledSpan.new text fg bg attrs]
  | text, fg, bg, attrs, [] :: rs =>
      StyledSpan.new text fg bg attrs :: (([] : List Cell) :: rs).map runToSpan
  | text, fg, bg, attrs, (d :: ds) :: rs =>
      if cellStyle d = (fg, bg, attrs) then
        StyledSpan.new (text ++ (d :: ds).map Cell.c) fg bg attrs :: rs.map runToSpan
      else
        StyledSpan.new text fg bg attrs :: ((d :: ds) :: rs).map runToSpan

/-- Modelled from the spec: one step of the block-bracketing discipline.
Walking an event against the currently open block id: `BlockStarted`
opens a fresh block, `BlockCommand` must cite the open block and keeps it
open, `BlockCompleted` must cite the open block and closes it; every
other event is transparent. -/
def walkEvent (cur : Option String) (ev : TerminalEvent) : Option (Option String) :=
  match ev with
  | .blockStarted id _ _ => some (some id)
  | .blockCommand id _ _ => if cur = some id then some cur else none
  | .blockCompleted id _ _ => if cur = some id then some none else none
  | _ => some cur

/-- Modelled from the spec: fold `walkEvent` over a queue of events,
failing as soon as one event breaks the bracketing. -/
def walkEvents (cur : Option String) : List TerminalEvent → Option (Option String)
  | [] => some cur
  | ev :: rest =>
      match walkEvent cur ev with
      | some cur2 => walkEvents cur2 rest
      | none => none

/-- Modelled from the spec: a shell-integration state is well bracketed
when its pending events walk cleanly from some initially-open block to
exactly the currently open block. -/
def shellInv (sh : ShellIntegration) : Prop :=
  ∃ b0 : Option String, walkEvents b0 sh.pendingEvents = some sh.currentBlockId

/-!
### Footprint of each operation on `frame_seq` and `resize_epoch`

Only three places in `state.rs` ever write these fields: the snapshot bump
in `take_render_snapshot`, the epoch bump in `resize`, and the full reset
in `esc_dispatch(c)` (which preserves `frame_seq` but rebuilds the state,
resetting `resize_epoch` to 0).  The following lemmas check every other
code path leaves both untouched.
-/

theorem seqs_setActiveGrid (s : TerminalState) (g : Grid) :
    (s.setActiveGrid g).frameSeq = s.frameSeq ∧
      (s.setActiveGrid g).resizeEpoch = s.resizeEpoch := by
  unfold TerminalState.setActiveGrid; split <;> simp

theorem seqs_withActiveGrid (s : TerminalState) (f : Grid → Grid) :
    (s.withActiveGrid f).frameSeq = s.frameSeq ∧
      (s.withActiveGrid f).resizeEpoch = s.resizeEpoch := by
  unfold TerminalState.withActiveGrid; exact seqs_setActiveGrid ..

theorem seqs_foldl {β : Type} (f : TerminalState → β → TerminalState)
    (h : ∀ st b, (f st b).frameSeq = st.frameSeq ∧ (f st b).resizeEpoch = st.resizeEpoch)
    (l : List β) (s : TerminalState) :
    (l.foldl f s).frameSeq = s.frameSeq ∧ (l.foldl f s).resizeEpoch = s.resizeEpoch := by
  induction l generalizing s with
  | nil => simp
  | cons b rest ih =>
      simp only [List.foldl_cons]
      exact ⟨(ih (f s b)).1.trans (h s b).1, (ih (f s b)).2.trans (h s b).2⟩

theorem seqs_scrollUpCapture (s : TerminalState) (top bottom : Nat) :
    (s.scrollUpCapture top bottom).frameSeq = s.frameSeq ∧
      (s.scrollUpCapture top bottom).resizeEpoch = s.resizeEpoch := by
  unfold TerminalState.scrollUpCapture
  cases hr : (s.activeGrid.scroll_up top bottom).1 with
  | none => simp [hr, seqs_setActiveGrid]
  | some line => simp only [hr]; split <;> simp [seqs_setActiveGrid]

theorem seqs_linefeed (s : TerminalState) :
    (s.linefeed).frameSeq = s.frameSeq ∧ (s.linefeed).resizeEpoch = s.resizeEpoch := by
  unfold TerminalState.linefeed
  split
  · exact seqs_scrollUpCapture ..
  · split <;> simp

theorem seqs_reverse_index (s : TerminalState) :
    (s.reverse_index).frameSeq = s.frameSeq ∧ (s.reverse_index).resizeEpoch = s.resizeEpoch := by
  unfold TerminalState.reverse_index
  split
  · exact seqs_withActiveGrid ..
  · split <;> simp

theorem seqs_carriage_return (s : TerminalState) :
    (s.carriage_return).frameSeq = s.frameSeq ∧
      (s.carriage_return).resizeEpoch = s.resizeEpoch := by
  simp [TerminalState.carriage_return]

theorem seqs_backspace (s : TerminalState) :
    (s.backspace).frameSeq = s.frameSeq ∧ (s.backspace).resizeEpoch = s.resizeEpoch := by
  unfold TerminalState.backspace; split <;> simp

theorem seqs_tab (s : TerminalState) :
    (s.tab).frameSeq = s.frameSeq ∧ (s.tab).resizeEpoch = s.resizeEpoch := by
  unfold TerminalState.tab; split <;> simp

theorem seqs_cursor_up (s : TerminalState) (n : Nat) :
    (s.cursor_up n).frameSeq = s.frameSeq ∧ (s.cursor_up n).resizeEpoch = s.resizeEpoch := by
  simp [TerminalState.cursor_up]

theorem seqs_cursor_down (s : TerminalState) (n : Nat) :
    (s.cursor_down n).frameSeq = s.frameSeq ∧ (s.cursor_down n).resizeEpoch = s.resizeEpoch := by
  simp [TerminalState.cursor_down]

theorem seqs_cursor_forward (s : TerminalState) (n : Nat) :
    (s.cursor_forward n).frameSeq = s.frameSeq ∧
      (s.cursor_forward n).resizeEpoch = s.resizeEpoch := by
  simp [TerminalState.cursor_forward]

theorem seqs_cursor_backward (s : TerminalState) (n : Nat) :
    (s.cursor_backward n).frameSeq = s.frameSeq ∧
      (s.cursor_backward n).resizeEpoch = s.resizeEpoch := by
  simp [TerminalState.cursor_backward]

theorem seqs_erase_display (s : TerminalState) (mode : Nat) :
    (s.erase_display mode).frameSeq = s.frameSeq ∧
      (s.erase_display mode).resizeEpoch = s.resizeEpoch := by
  unfold TerminalState.erase_display
  split
  · exact seqs_withActiveGrid ..
  split
  · exact seqs_withActiveGrid ..
  split
  · exact seqs_withActiveGrid ..
  split
  · simp
  · simp

theorem seqs_erase_line (s : TerminalState) (mode : Nat) :
    (s.erase_line mode).frameSeq = s.frameSeq ∧
      (s.erase_line mode).resizeEpoch = s.resizeEpoch := by
  unfold TerminalState.erase_line
  split
  · exact seqs_withActiveGrid ..
  split
  · exact seqs_withActiveGrid ..
  split
  · exact seqs_withActiveGrid ..
  · simp

theorem seqs_insert_lines (s : TerminalState) (n : Nat) :
    (s.insert_lines n).frameSeq = s.frameSeq ∧
      (s.insert_lines n).resizeEpoch = s.resizeEpoch := by
  unfold TerminalState.insert_lines
  split
  · have h := seqs_foldl
      (fun st (_ : Nat) => st.withActiveGrid (fun g => g.scroll_down s.cursor.row s.scrollBottom))
      (fun st _ => seqs_withActiveGrid ..) (List.range n) s
    simpa using h
  · simp

theorem seqs_delete_lines (s : TerminalState) (n : Nat) :
    (s.delete_lines n).frameSeq = s.frameSeq ∧
      (s.delete_lines n).resizeEpoch = s.resizeEpoch := by
  unfold TerminalState.delete_lines
  split
  · have h := seqs_foldl
      (fun st (_ : Nat) => st.scrollUpCapture s.cursor.row s.scrollBottom)
      (fun st _ => seqs_scrollUpCapture ..) (List.range n) s
    simpa using h
  · simp

theorem seqs_erase_chars (s : TerminalState) (n : Nat) :
    (s.erase_chars n).frameSeq = s.frameSeq ∧
      (s.erase_chars n).resizeEpoch = s.resizeEpoch := by
  unfold TerminalState.erase_chars; exact seqs_withActiveGrid ..

theorem seqs_insert_chars (s : TerminalState) (n : Nat) :
    (s.insert_chars n).frameSeq = s.frameSeq ∧
      (s.insert_chars n).resizeEpoch = s.resizeEpoch := by
  unfold TerminalState.insert_chars; exact seqs_withActiveGrid ..

theorem seqs_delete_chars (s : TerminalState) (n : Nat) :
    (s.delete_chars n).frameSeq = s.frameSeq ∧
      (s.delete_chars n).resizeEpoch = s.resizeEpoch := by
  unfold TerminalState.delete_chars; exact seqs_withActiveGrid ..

theorem seqs_scroll_up_n (s : TerminalState) (n : Nat) :
    (s.scroll_up_n n).frameSeq = s.frameSeq ∧
      (s.scroll_up_n n).resizeEpoch = s.resizeEpoch := by
  unfold TerminalState.scroll_up_n
  exact seqs_foldl _ (fun st _ => seqs_scrollUpCapture ..) (List.range n) s

theorem seqs_scroll_down_n (s : TerminalState) (n : Nat) :
    (s.scroll_down_n n).frameSeq = s.frameSeq ∧
      (s.scroll_down_n n).resizeEpoch = s.resizeEpoch := by
  unfold TerminalState.scroll_down_n
  exact seqs_foldl _ (fun st _ => seqs_withActiveGrid ..) (List.range n) s

theorem seqs_save_cursor (s : TerminalState) :
    (s.save_cursor).frameSeq = s.frameSeq ∧ (s.save_cursor).resizeEpoch = s.resizeEpoch := by
  simp [TerminalState.save_cursor]

theorem seqs_restore_cursor (s : TerminalState) :
    (s.restore_cursor).frameSeq = s.frameSeq ∧
      (s.restore_cursor).resizeEpoch = s.resizeEpoch := by
  simp [TerminalState.restore_cursor]

theorem seqs_enter_alt_screen (s : TerminalState) :
    (s.enter_alt_screen).frameSeq = s.frameSeq ∧
      (s.enter_alt_screen).resizeEpoch = s.resizeEpoch := by
  unfold TerminalState.enter_alt_screen; split <;> simp

theorem seqs_exit_alt_screen (s : TerminalState) :
    (s.exit_alt_screen).frameSeq = s.frameSeq ∧
      (s.exit_alt_screen).resizeEpoch = s.resizeEpoch := by
  unfold TerminalState.exit_alt_screen; split <;> simp

theorem seqs_clear_screen (s : TerminalState) :
    (s.clear_screen).frameSeq = s.frameSeq ∧
      (s.clear_screen).resizeEpoch = s.resizeEpoch := by
  unfold TerminalState.clear_screen
  have h := seqs_withActiveGrid s
    (fun g => (List.range s.rows).foldl (fun g2 r => g2.clearVisibleRow r) g)
  simp [h.1, h.2]

theorem seqs_handle_sgr (s : TerminalState) (params : List Nat) :
    (s.handle_sgr params).frameSeq = s.frameSeq ∧
      (s.handle_sgr params).resizeEpoch = s.resizeEpoch := by
  simp [TerminalState.handle_sgr]

theorem seqs_emit_mode_changed (s : TerminalState) :
    (s.emit_mode_changed).frameSeq = s.frameSeq ∧
      (s.emit_mode_changed).resizeEpoch = s.resizeEpoch := by
  simp [TerminalState.emit_mode_changed]

theorem seqs_setDecModeOne (s : TerminalState) (p : Nat) (enable : Bool) :
    (s.setDecModeOne p enable).frameSeq = s.frameSeq ∧
      (s.setDecModeOne p enable).resizeEpoch = s.resizeEpoch := by
  constructor <;>
    simp only [TerminalState.setDecModeOne, apply_ite TerminalState.frameSeq,
      apply_ite TerminalState.resizeEpoch, seqs_emit_mode_changed, seqs_enter_alt_screen,
      seqs_exit_alt_screen, seqs_save_cursor, seqs_restore_cursor, seqs_clear_screen,
      ite_self]

theorem seqs_set_dec_mode (s : TerminalState) (params : List Nat) (enable : Bool) :
    (s.set_dec_mode params enable).frameSeq = s.frameSeq ∧
      (s.set_dec_mode params enable).resizeEpoch = s.resizeEpoch := by
  unfold TerminalState.set_dec_mode
  exact seqs_foldl _ (fun st p => seqs_setDecModeOne ..) params s

theorem seqs_report_mode_state (s : TerminalState) (mode : Nat) (set : Option Bool) (dp : Bool) :
    (s.report_mode_state mode set dp).frameSeq = s.frameSeq ∧
      (s.report_mode_state mode set dp).resizeEpoch = s.resizeEpoch := by
  simp [TerminalState.report_mode_state]

theorem seqs_report_dec_modes (s : TerminalState) (params : List Nat) :
    (s.report_dec_modes params).frameSeq = s.frameSeq ∧
      (s.report_dec_modes params).resizeEpoch = s.resizeEpoch := by
  unfold TerminalState.report_dec_modes
  split
  · exact seqs_report_mode_state ..
  · exact seqs_foldl _ (fun st p => seqs_report_mode_state ..) params s

theorem seqs_report_ansi_modes (s : TerminalState) (params : List Nat) :
    (s.report_ansi_modes params).frameSeq = s.frameSeq ∧
      (s.report_ansi_modes params).resizeEpoch = s.resizeEpoch := by
  unfold TerminalState.report_ansi_modes
  split
  · exact seqs_report_mode_state ..
  · exact seqs_foldl _ (fun st p => seqs_report_mode_state ..) params s

theorem seqs_set_mode (s : TerminalState) (params : List Nat) (enable : Bool) :
    (s.set_mode params enable).frameSeq = s.frameSeq ∧
      (s.set_mode params enable).resizeEpoch = s.resizeEpoch := by
  unfold TerminalState.set_mode
  refine seqs_foldl _ (fun st p => ?_) params s
  constructor <;>
    simp only [apply_ite TerminalState.frameSeq, apply_ite TerminalState.resizeEpoch, ite_self]

theorem seqs_handle_osc_52 (s : TerminalState) (params : List String) (clipboard : String) :
    (s.handle_osc_52 params clipboard).frameSeq = s.frameSeq ∧
      (s.handle_osc_52 params clipboard).resizeEpoch = s.resizeEpoch := by
  constructor <;>
    simp only [TerminalState.handle_osc_52, apply_ite TerminalState.frameSeq,
      apply_ite TerminalState.resizeEpoch, ite_self]

theorem seqs_handleOsc1337 (s : TerminalState) (payload : String) :
    (s.handleOsc1337 payload).frameSeq = s.frameSeq ∧
      (s.handleOsc1337 payload).resizeEpoch = s.resizeEpoch := by
  simp only [TerminalState.handleOsc1337]
  split
  · cases (payload.drop 5).toList.findIdx? (· = ':') with
    | none => exact ⟨rfl, rfl⟩
    | some colonIdx =>
        constructor <;>
          (repeat' split) <;>
            simp only [apply_ite TerminalState.frameSeq, apply_ite TerminalState.resizeEpoch,
              ite_self]
  · exact ⟨rfl, rfl⟩

theorem seqs_handleOsc1337Dispatch (s : TerminalState) (params : List String) :
    (s.handleOsc1337Dispatch params).frameSeq = s.frameSeq ∧
      (s.handleOsc1337Dispatch params).resizeEpoch = s.resizeEpoch := by
  unfold TerminalState.handleOsc1337Dispatch
  cases params[1]? with
  | none => exact ⟨rfl, rfl⟩
  | some payload => exact seqs_handleOsc1337 ..

theorem seqs_handleOscTitle (s : TerminalState) (params : List String) :
    (s.handleOscTitle params).frameSeq = s.frameSeq ∧
      (s.handleOscTitle params).resizeEpoch = s.resizeEpoch := by
  unfold TerminalState.handleOscTitle
  cases params[1]? <;> simp

theorem seqs_handleOsc7 (s : TerminalState) (params : List String) :
    (s.handleOsc7 params).frameSeq = s.frameSeq ∧
      (s.handleOsc7 params).resizeEpoch = s.resizeEpoch := by
  cases hp : params[1]? with
  | none => constructor <;> simp only [TerminalState.handleOsc7, hp]
  | some uri =>
      constructor <;>
        · simp only [TerminalState.handleOsc7, hp]
          split
          · cases (uri.drop 7).toList.findIdx? (· = '/') <;> rfl
          · rfl

theorem seqs_handleOsc133 (s : TerminalState) (params : List String) (freshId : String) :
    (s.handleOsc133 params freshId).frameSeq = s.frameSeq ∧
      (s.handleOsc133 params freshId).resizeEpoch = s.resizeEpoch := by
  unfold TerminalState.handleOsc133
  cases params[1]? with
  | none => exact ⟨rfl, rfl⟩
  | some marker =>
      constructor <;>
        simp only [apply_ite TerminalState.frameSeq, apply_ite TerminalState.resizeEpoch,
          ite_self]

theorem seqs_handleOsc8 (s : TerminalState) (params : List String) :
    (s.handleOsc8 params).frameSeq = s.frameSeq ∧
      (s.handleOsc8 params).resizeEpoch = s.resizeEpoch := by
  constructor <;>
    simp only [TerminalState.handleOsc8, apply_ite TerminalState.frameSeq,
      apply_ite TerminalState.resizeEpoch, ite_self]

theorem seqs_handleOsc4 (s : TerminalState) (params : List String) :
    (s.handleOsc4 params).frameSeq = s.frameSeq ∧
      (s.handleOsc4 params).resizeEpoch = s.resizeEpoch := by
  unfold TerminalState.handleOsc4
  split
  · cases (params.getD 1 "").toNat? with
    | none => exact ⟨rfl, rfl⟩
    | some index =>
        constructor <;>
          simp only [apply_ite TerminalState.frameSeq, apply_ite TerminalState.resizeEpoch,
            ite_self]
  · exact ⟨rfl, rfl⟩

theorem seqs_handleOscColorQuery (s : TerminalState) (first : String) (params : List String) :
    (s.handleOscColorQuery first params).frameSeq = s.frameSeq ∧
      (s.handleOscColorQuery first params).resizeEpoch = s.resizeEpoch := by
  constructor <;>
    simp only [TerminalState.handleOscColorQuery, apply_ite TerminalState.frameSeq,
      apply_ite TerminalState.resizeEpoch, ite_self]

theorem seqs_handle_osc (s : TerminalState) (params : List String) (freshId clipboard : String) :
    (s.handle_osc params freshId clipboard).frameSeq = s.frameSeq ∧
      (s.handle_osc params freshId clipboard).resizeEpoch = s.resizeEpoch := by
  cases params with
  | nil => exact ⟨rfl, rfl⟩
  | cons first rest =>
      simp only [TerminalState.handle_osc]
      split_ifs <;>
        (constructor <;>
          simp only [seqs_handleOscTitle, seqs_handleOsc7, seqs_handleOsc133, seqs_handleOsc8,
            seqs_handle_osc_52, seqs_handleOsc4, seqs_handleOscColorQuery,
            seqs_handleOsc1337Dispatch])

theorem seqs_handle_xtgettcap (s : TerminalState) (data : List Nat) :
    (s.handle_xtgettcap data).frameSeq = s.frameSeq ∧
      (s.handle_xtgettcap data).resizeEpoch = s.resizeEpoch := by
  simp only [TerminalState.handle_xtgettcap]
  split
  · simp
  · cases hx : xtgettcapPairs (splitOnChar ';' (data.map Char.ofNat)) with
    | none => exact ⟨rfl, rfl⟩
    | some pairs => cases pairs <;> exact ⟨rfl, rfl⟩

theorem seqs_handle_decrqss (s : TerminalState) (data : List Nat) :
    (s.handle_decrqss data).frameSeq = s.frameSeq ∧
      (s.handle_decrqss data).resizeEpoch = s.resizeEpoch := by
  unfold TerminalState.handle_decrqss
  cases hx : s.decrqssStatus (data.map Char.ofNat) <;> simp [hx]

theorem seqs_handle_dcs (s : TerminalState) (action : Option Char) (ints data : List Nat) :
    (s.handle_dcs action ints data).frameSeq = s.frameSeq ∧
      (s.handle_dcs action ints data).resizeEpoch = s.resizeEpoch := by
  unfold TerminalState.handle_dcs
  (repeat' split) <;>
    first
    | exact seqs_handle_xtgettcap ..
    | exact seqs_handle_decrqss ..
    | exact ⟨rfl, rfl⟩

theorem seqs_putChar (s : TerminalState) (c : Char) (w : Nat) :
    (s.putChar c w).frameSeq = s.frameSeq ∧ (s.putChar c w).resizeEpoch = s.resizeEpoch := by
  constructor <;>
    simp only [TerminalState.putChar, TerminalState.putCharWrap, TerminalState.putCharWrite,
      apply_ite TerminalState.frameSeq, apply_ite TerminalState.resizeEpoch,
      seqs_withActiveGrid, seqs_linefeed, seqs_carriage_return, ite_self]

theorem seqs_print (s : TerminalState) (c : Char) (w : Nat) :
    (s.print c w).frameSeq = s.frameSeq ∧ (s.print c w).resizeEpoch = s.resizeEpoch := by
  unfold TerminalState.print
  constructor <;>
    simp only [apply_ite TerminalState.frameSeq, apply_ite TerminalState.resizeEpoch,
      seqs_putChar, ite_self]

theorem seqs_csiRep (s : TerminalState) (count : Nat) :
    (s.csiRep count).frameSeq = s.frameSeq ∧ (s.csiRep count).resizeEpoch = s.resizeEpoch := by
  unfold TerminalState.csiRep
  exact seqs_foldl _ (fun st _ => seqs_putChar ..) (List.range (min count 2048)) s

theorem seqs_execute (s : TerminalState) (b : Nat) :
    (s.execute b).frameSeq = s.frameSeq ∧ (s.execute b).resizeEpoch = s.resizeEpoch := by
  constructor <;>
    simp only [TerminalState.execute, apply_ite TerminalState.frameSeq,
      apply_ite TerminalState.resizeEpoch, ite_self, seqs_backspace, seqs_tab, seqs_linefeed,
      seqs_carriage_return]

theorem seqs_csiCup (s : TerminalState) (raw : List Nat) :
    (s.csiCup raw).frameSeq = s.frameSeq ∧ (s.csiCup raw).resizeEpoch = s.resizeEpoch := by
  constructor <;>
    simp only [TerminalState.csiCup, apply_ite TerminalState.frameSeq,
      apply_ite TerminalState.resizeEpoch, ite_self]

theorem seqs_csiNextLine (s : TerminalState) (raw : List Nat) :
    (s.csiNextLine raw).frameSeq = s.frameSeq ∧
      (s.csiNextLine raw).resizeEpoch = s.resizeEpoch := by
  constructor <;> simp only [TerminalState.csiNextLine, seqs_cursor_down]

theorem seqs_csiPrevLine (s : TerminalState) (raw : List Nat) :
    (s.csiPrevLine raw).frameSeq = s.frameSeq ∧
      (s.csiPrevLine raw).resizeEpoch = s.resizeEpoch := by
  constructor <;> simp only [TerminalState.csiPrevLine, seqs_cursor_up]

theorem seqs_csiHpa (s : TerminalState) (raw : List Nat) :
    (s.csiHpa raw).frameSeq = s.frameSeq ∧ (s.csiHpa raw).resizeEpoch = s.resizeEpoch := by
  exact ⟨rfl, rfl⟩

theorem seqs_csiVpa (s : TerminalState) (raw : List Nat) :
    (s.csiVpa raw).frameSeq = s.frameSeq ∧ (s.csiVpa raw).resizeEpoch = s.resizeEpoch := by
  constructor <;>
    simp only [TerminalState.csiVpa, apply_ite TerminalState.frameSeq,
      apply_ite TerminalState.resizeEpoch, ite_self]

theorem seqs_csiDecstbm (s : TerminalState) (raw : List Nat) :
    (s.csiDecstbm raw).frameSeq = s.frameSeq ∧
      (s.csiDecstbm raw).resizeEpoch = s.resizeEpoch := by
  constructor <;>
    simp only [TerminalState.csiDecstbm, apply_ite TerminalState.frameSeq,
      apply_ite TerminalState.resizeEpoch, ite_self]

theorem seqs_csiDsr (s : TerminalState) (raw : List Nat) :
    (s.csiDsr raw).frameSeq = s.frameSeq ∧ (s.csiDsr raw).resizeEpoch = s.resizeEpoch := by
  constructor <;>
    simp only [TerminalState.csiDsr, apply_ite TerminalState.frameSeq,
      apply_ite TerminalState.resizeEpoch, ite_self]

theorem seqs_csiDa1 (s : TerminalState) (raw : List Nat) :
    (s.csiDa1 raw).frameSeq = s.frameSeq ∧ (s.csiDa1 raw).resizeEpoch = s.resizeEpoch := by
  constructor <;>
    simp only [TerminalState.csiDa1, apply_ite TerminalState.frameSeq,
      apply_ite TerminalState.resizeEpoch, ite_self]

theorem seqs_csiDa2 (s : TerminalState) (raw : List Nat) :
    (s.csiDa2 raw).frameSeq = s.frameSeq ∧ (s.csiDa2 raw).resizeEpoch = s.resizeEpoch := by
  constructor <;>
    simp only [TerminalState.csiDa2, apply_ite TerminalState.frameSeq,
      apply_ite TerminalState.resizeEpoch, ite_self]

theorem seqs_csiDecscusr (s : TerminalState) (raw : List Nat) :
    (s.csiDecscusr raw).frameSeq = s.frameSeq ∧
      (s.csiDecscusr raw).resizeEpoch = s.resizeEpoch := by
  constructor <;>
    simp only [TerminalState.csiDecscusr, apply_ite TerminalState.frameSeq,
      apply_ite TerminalState.resizeEpoch, ite_self]

theorem seqs_csi_dispatch (s : TerminalState) (raw ints : List Nat) (action : Char) :
    (s.csi_dispatch raw ints action).frameSeq = s.frameSeq ∧
      (s.csi_dispatch raw ints action).resizeEpoch = s.resizeEpoch := by
  constructor <;>
    simp only [TerminalState.csi_dispatch, apply_ite TerminalState.frameSeq,
      apply_ite TerminalState.resizeEpoch, ite_self, seqs_report_dec_modes,
      seqs_report_ansi_modes, seqs_csiDa2, seqs_set_dec_mode, seqs_cursor_up, seqs_cursor_down,
      seqs_cursor_forward, seqs_cursor_backward, seqs_csiNextLine, seqs_csiPrevLine,
      seqs_csiHpa, seqs_csiCup, seqs_erase_display, seqs_erase_line, seqs_insert_lines,
      seqs_delete_lines, seqs_delete_chars, seqs_scroll_up_n, seqs_scroll_down_n,
      seqs_erase_chars, seqs_insert_chars, seqs_csiVpa, seqs_handle_sgr, seqs_csiDecstbm,
      seqs_set_mode, seqs_csiDsr, seqs_csiDa1, seqs_save_cursor, seqs_restore_cursor,
      seqs_csiDecscusr, seqs_csiRep]

theorem seqs_hookDcs (s : TerminalState) (ints : List Nat) (action : Char) :
    (s.hookDcs ints action).frameSeq = s.frameSeq ∧
      (s.hookDcs ints action).resizeEpoch = s.resizeEpoch := by
  constructor <;>
    simp only [TerminalState.hookDcs, apply_ite TerminalState.frameSeq,
      apply_ite TerminalState.resizeEpoch, ite_self]

theorem seqs_putDcs (s : TerminalState) (b : Nat) :
    (s.putDcs b).frameSeq = s.frameSeq ∧ (s.putDcs b).resizeEpoch = s.resizeEpoch := by
  constructor <;>
    simp only [TerminalState.putDcs, apply_ite TerminalState.frameSeq,
      apply_ite TerminalState.resizeEpoch, ite_self]

theorem seqs_unhookDcs (s : TerminalState) :
    (s.unhookDcs).frameSeq = s.frameSeq ∧ (s.unhookDcs).resizeEpoch = s.resizeEpoch := by
  constructor <;>
    simp only [TerminalState.unhookDcs, apply_ite TerminalState.frameSeq,
      apply_ite TerminalState.resizeEpoch, ite_self, seqs_handle_dcs]

/-- `esc_dispatch` never changes `frame_seq`: the RIS branch explicitly
carries it over, every other branch leaves it untouched. -/
theorem frameSeq_esc_dispatch (s : TerminalState) (ints : List Nat) (b : Nat) :
    (s.esc_dispatch ints b).frameSeq = s.frameSeq := by
  simp only [TerminalState.esc_dispatch, apply_ite TerminalState.frameSeq, ite_self,
    seqs_linefeed, seqs_carriage_return, seqs_reverse_index, seqs_save_cursor,
    seqs_restore_cursor, seqs_emit_mode_changed]

/-- `esc_dispatch` leaves `resize_epoch` untouched except on RIS
(`ESC c` with no intermediates), which resets it to 0. -/
theorem resizeEpoch_esc_dispatch (s : TerminalState) (ints : List Nat) (b : Nat) :
    (s.esc_dispatch ints b).resizeEpoch =
      if b = 0x63 ∧ ints = [] then 0 else s.resizeEpoch := by
  by_cases hc : b = 0x63 ∧ ints = []
  · rw [if_pos hc]
    unfold TerminalState.esc_dispatch
    rw [if_pos hc]
    simp only [apply_ite TerminalState.resizeEpoch, ite_self]
    unfold TerminalState.new
    rfl
  · rw [if_neg hc]
    unfold TerminalState.esc_dispatch
    rw [if_neg hc]
    simp only [apply_ite TerminalState.resizeEpoch, ite_self, seqs_linefeed,
      seqs_carriage_return, seqs_reverse_index, seqs_save_cursor, seqs_restore_cursor,
      seqs_emit_mode_changed]

theorem seqs_captureShrinkRows (s : TerminalState) (rows : Nat) :
    (s.captureShrinkRows rows).frameSeq = s.frameSeq ∧
      (s.captureShrinkRows rows).resizeEpoch = s.resizeEpoch := by
  unfold TerminalState.captureShrinkRows
  split
  · refine seqs_foldl _ (fun st i => ?_) _ s
    cases st.grid.rows[s.grid.rows.length - s.grid.visibleRows + i]? <;> simp
  · exact ⟨rfl, rfl⟩

/-- `resize` leaves `frame_seq` untouched. -/
theorem frameSeq_resize (s : TerminalState) (rows cols : Nat) :
    (s.resize rows cols).frameSeq = s.frameSeq := by
  simp only [TerminalState.resize, seqs_captureShrinkRows]

/-- `resize` bumps `resize_epoch` by a saturating one. -/
theorem resizeEpoch_resize (s : TerminalState) (rows cols : Nat) :
    (s.resize rows cols).resizeEpoch = u64SatAdd1 s.resizeEpoch := by
  simp only [TerminalState.resize, seqs_captureShrinkRows]

/-- The draining phase leaves `frame_seq` untouched. -/
theorem snapshotDrain_frameSeq (s : TerminalState) (g : Grid)
    (putGrid : TerminalState → Grid → TerminalState)
    (hp : ∀ st g2, (putGrid st g2).frameSeq = st.frameSeq) :
    (s.snapshotDrain g putGrid).2.frameSeq = s.frameSeq := by
  simp only [TerminalState.snapshotDrain, apply_ite TerminalState.frameSeq,
    apply_ite TerminalState.bellPending, apply_ite TerminalState.titleChanged, ite_self, hp]

/-- The draining phase leaves `resize_epoch` untouched. -/
theorem snapshotDrain_resizeEpoch (s : TerminalState) (g : Grid)
    (putGrid : TerminalState → Grid → TerminalState)
    (hp : ∀ st g2, (putGrid st g2).resizeEpoch = st.resizeEpoch) :
    (s.snapshotDrain g putGrid).2.resizeEpoch = s.resizeEpoch := by
  simp only [TerminalState.snapshotDrain, apply_ite TerminalState.resizeEpoch,
    apply_ite TerminalState.bellPending, apply_ite TerminalState.titleChanged, ite_self, hp]

/-- `take_render_snapshot` (via `snapshotWithGrid`) bumps `frame_seq` by a
saturating one exactly when it returns a snapshot. -/
theorem snapshotWithGrid_frameSeq (s : TerminalState) (g : Grid)
    (putGrid : TerminalState → Grid → TerminalState)
    (hp : ∀ st g2, (putGrid st g2).frameSeq = st.frameSeq) :
    (s.snapshotWithGrid g putGrid).2.frameSeq =
      if (s.snapshotWithGrid g putGrid).1.isSome then u64SatAdd1 s.frameSeq
      else s.frameSeq := by
  unfold TerminalState.snapshotWithGrid
  by_cases hc : (s.snapshotDrain g putGrid).1.1 = [] ∧ (s.snapshotDrain g putGrid).1.2.2 = [] ∧
      (s.snapshotDrain g putGrid).1.2.1 = [] <;>
    simp [hc, snapshotDrain_frameSeq s g putGrid hp]

/-- `take_render_snapshot` never touches `resize_epoch` (helper). -/
theorem snapshotWithGrid_resizeEpoch (s : TerminalState) (g : Grid)
    (putGrid : TerminalState → Grid → TerminalState)
    (hp : ∀ st g2, (putGrid st g2).resizeEpoch = st.resizeEpoch) :
    (s.snapshotWithGrid g putGrid).2.resizeEpoch = s.resizeEpoch := by
  unfold TerminalState.snapshotWithGrid
  by_cases hc : (s.snapshotDrain g putGrid).1.1 = [] ∧ (s.snapshotDrain g putGrid).1.2.2 = [] ∧
      (s.snapshotDrain g putGrid).1.2.1 = [] <;>
    simp [hc, snapshotDrain_resizeEpoch s g putGrid hp]

theorem take_render_snapshot_frameSeq (s : TerminalState) :
    (s.take_render_snapshot).2.frameSeq =
      if (s.take_render_snapshot).1.isSome then u64SatAdd1 s.frameSeq else s.frameSeq := by
  unfold TerminalState.take_render_snapshot
  split
  · cases s.altGrid with
    | none => simp
    | some ag =>
        exact snapshotWithGrid_frameSeq s ag
          (fun st g2 => { st with altGrid := some g2 }) (fun st g2 => rfl)
  · exact snapshotWithGrid_frameSeq s s.grid
      (fun st g2 => { st with grid := g2 }) (fun st g2 => rfl)

theorem take_render_snapshot_resizeEpoch (s : TerminalState) :
    (s.take_render_snapshot).2.resizeEpoch = s.resizeEpoch := by
  unfold TerminalState.take_render_snapshot
  split
  · cases s.altGrid with
    | none => simp
    | some ag =>
        exact snapshotWithGrid_resizeEpoch s ag
          (fun st g2 => { st with altGrid := some g2 }) (fun st g2 => rfl)
  · exact snapshotWithGrid_resizeEpoch s s.grid
      (fun st g2 => { st with grid := g2 }) (fun st g2 => rfl)

/-- Any non-snapshot, non-resize, non-RIS operation leaves both counters
unchanged; `resize` keeps `frame_seq`; RIS keeps `frame_seq`. -/
theorem frameSeq_step (s : TerminalState) (op : Op) (h : op ≠ Op.snapshot) :
    (step s op).frameSeq = s.frameSeq := by
  cases op with
  | print c w => exact (seqs_print s c w).1
  | execute b => exact (seqs_execute s b).1
  | csi p i a => exact (seqs_csi_dispatch s p i a).1
  | osc p fid clip => exact (seqs_handle_osc s p fid clip).1
  | esc i b => exact frameSeq_esc_dispatch s i b
  | hook i a => exact (seqs_hookDcs s i a).1
  | put b => exact (seqs_putDcs s b).1
  | unhook => exact (seqs_unhookDcs s).1
  | resizeTo r c => exact frameSeq_resize s r c
  | snapshot => exact absurd rfl h

/-- Step-level `frame_seq` monotonicity with the `u64` range carried
along. -/
theorem frameSeq_step_mono (s : TerminalState) (op : Op) (h : s.frameSeq ≤ u64Max) :
    s.frameSeq ≤ (step s op).frameSeq ∧ (step s op).frameSeq ≤ u64Max := by
  by_cases hop : op = Op.snapshot
  · subst hop
    show s.frameSeq ≤ (s.take_render_snapshot).2.frameSeq ∧
      (s.take_render_snapshot).2.frameSeq ≤ u64Max
    rw [take_render_snapshot_frameSeq]
    split_ifs
    · exact ⟨le_min (Nat.le_succ _) h, min_le_right _ _⟩
    · exact ⟨le_refl _, h⟩
  · rw [frameSeq_step s op hop]
    exact ⟨le_refl _, h⟩

theorem frameSeq_run_mono (s : TerminalState) (ops : List Op) (h : s.frameSeq ≤ u64Max) :
    s.frameSeq ≤ (run s ops).frameSeq ∧ (run s ops).frameSeq ≤ u64Max := by
  induction ops generalizing s with
  | nil => exact ⟨le_refl _, h⟩
  | cons op rest ih =>
      have h1 := frameSeq_step_mono s op h
      have h2 := ih (step s op) h1.2
      exact ⟨h1.1.trans h2.1, h2.2⟩

/-- Step-level `resize_epoch` monotonicity for non-RIS operations. -/
theorem resizeEpoch_step_mono (s : TerminalState) (op : Op) (h : s.resizeEpoch ≤ u64Max)
    (hop : ¬op.isRIS) :
    s.resizeEpoch ≤ (step s op).resizeEpoch ∧ (step s op).resizeEpoch ≤ u64Max := by
  cases op with
  | print c w =>
      show s.resizeEpoch ≤ (s.print c w).resizeEpoch ∧ (s.print c w).resizeEpoch ≤ u64Max
      rw [(seqs_print s c w).2]; exact ⟨le_refl _, h⟩
  | execute b =>
      show s.resizeEpoch ≤ (s.execute b).resizeEpoch ∧ (s.execute b).resizeEpoch ≤ u64Max
      rw [(seqs_execute s b).2]; exact ⟨le_refl _, h⟩
  | csi p i a =>
      show s.resizeEpoch ≤ (s.csi_dispatch p i a).resizeEpoch ∧
        (s.csi_dispatch p i a).resizeEpoch ≤ u64Max
      rw [(seqs_csi_dispatch s p i a).2]; exact ⟨le_refl _, h⟩
  | osc p fid clip =>
      show s.resizeEpoch ≤ (s.handle_osc p fid clip).resizeEpoch ∧
        (s.handle_osc p fid clip).resizeEpoch ≤ u64Max
      rw [(seqs_handle_osc s p fid clip).2]; exact ⟨le_refl _, h⟩
  | esc i b =>
      show s.resizeEpoch ≤ (s.esc_dispatch i b).resizeEpoch ∧
        (s.esc_dispatch i b).resizeEpoch ≤ u64Max
      rw [resizeEpoch_esc_dispatch]
      rw [if_neg (by simpa [Op.isRIS] using hop)]
      exact ⟨le_refl _, h⟩
  | hook i a =>
      show s.resizeEpoch ≤ (s.hookDcs i a).resizeEpoch ∧ (s.hookDcs i a).resizeEpoch ≤ u64Max
      rw [(seqs_hookDcs s i a).2]; exact ⟨le_refl _, h⟩
  | put b =>
      show s.resizeEpoch ≤ (s.putDcs b).resizeEpoch ∧ (s.putDcs b).resizeEpoch ≤ u64Max
      rw [(seqs_putDcs s b).2]; exact ⟨le_refl _, h⟩
  | unhook =>
      show s.resizeEpoch ≤ (s.unhookDcs).resizeEpoch ∧ (s.unhookDcs).resizeEpoch ≤ u64Max
      rw [(seqs_unhookDcs s).2]; exact ⟨le_refl _, h⟩
  | resizeTo r c =>
      show s.resizeEpoch ≤ (s.resize r c).resizeEpoch ∧ (s.resize r c).resizeEpoch ≤ u64Max
      rw [resizeEpoch_resize]
      exact ⟨le_min (Nat.le_succ _) h, min_le_right _ _⟩
  | snapshot =>
      show s.resizeEpoch ≤ (s.take_render_snapshot).2.resizeEpoch ∧
        (s.take_render_snapshot).2.resizeEpoch ≤ u64Max
      rw [take_render_snapshot_resizeEpoch]
      exact ⟨le_refl _, h⟩

theorem resizeEpoch_run_mono (s : TerminalState) (ops : List Op) (h : s.resizeEpoch ≤ u64Max)
    (hops : ∀ op ∈ ops, ¬op.isRIS) :
    s.resizeEpoch ≤ (run s ops).resizeEpoch ∧ (run s ops).resizeEpoch ≤ u64Max := by
  induction ops generalizing s with
  | nil => exact ⟨le_refl _, h⟩
  | cons op rest ih =>
      have h1 := resizeEpoch_step_mono s op h (hops op (List.mem_cons_self op rest))
      have h2 := ih (step s op) h1.2 (fun o ho => hops o (List.mem_cons_of_mem op ho))
      exact ⟨h1.1.trans h2.1, h2.2⟩

/-- C1 (counterexample): `resize_epoch` is *not* monotonic over every
operation sequence.  On a fresh 2×2 session, a resize raises
`resize_epoch` to 1, and then feeding the two bytes `ESC c` (RIS — part
of an ordinary byte stream) rebuilds the state, dropping `resize_epoch`
back to 0.  This refutes the claim "resize_epoch never decreases". -/
theorem c1_resizeEpoch_counterexample :
    (step (TerminalState.new 2 2) (Op.resizeTo 2 2)).resizeEpoch = 1 ∧
      (step (step (TerminalState.new 2 2) (Op.resizeTo 2 2)) (Op.esc [] 0x63)).resizeEpoch
        = 0 := by
  constructor <;> rfl

/-- C1 (amended): over every operation sequence (feeding bytes, resizing,
snapshotting), `frame_seq` never decreases and changes only at
`take_render_snapshot`, where it advances by a saturating one exactly when
a snapshot is returned; `resize_epoch` never decreases as long as no RIS
(`ESC c`) occurs, while RIS resets it to 0 (and `resize` bumps it by a
saturating one). -/
theorem c1_frameSeq_resizeEpoch_amended :
    (∀ (s : TerminalState) (ops : List Op),
      s.frameSeq ≤ u64Max → s.frameSeq ≤ (run s ops).frameSeq) ∧
    (∀ (s : TerminalState) (op : Op), op ≠ Op.snapshot → (step s op).frameSeq = s.frameSeq) ∧
    (∀ s : TerminalState,
      (step s Op.snapshot).frameSeq =
        if (s.take_render_snapshot).1.isSome then u64SatAdd1 s.frameSeq else s.frameSeq) ∧
    (∀ (s : TerminalState) (ops : List Op),
      s.resizeEpoch ≤ u64Max → (∀ op ∈ ops, ¬op.isRIS) →
        s.resizeEpoch ≤ (run s ops).resizeEpoch) ∧
    (∀ (s : TerminalState) (rows cols : Nat),
      (step s (Op.resizeTo rows cols)).resizeEpoch = u64SatAdd1 s.resizeEpoch) ∧
    (∀ s : TerminalState, (step s (Op.esc [] 0x63)).resizeEpoch = 0) := by
  refine ⟨fun s ops h => (frameSeq_run_mono s ops h).1,
          frameSeq_step,
          fun s => take_render_snapshot_frameSeq s,
          fun s ops h hops => (resizeEpoch_run_mono s ops h hops).1,
          fun s rows cols => resizeEpoch_resize s rows cols,
          fun s => ?_⟩
  show (s.esc_dispatch [] 0x63).resizeEpoch = 0
  rw [resizeEpoch_esc_dispatch]
  simp

/-- C1 (witness): the amended statement applied on a fresh 2×2 session to
a resize, a snapshot, and a byte-feeding operation. -/
theorem c1_frameSeq_resizeEpoch_amended_witness :
    (TerminalState.new 2 2).frameSeq ≤
        (run (TerminalState.new 2 2) [Op.resizeTo 3 3, Op.snapshot]).frameSeq ∧
      (step (TerminalState.new 2 2) (Op.print 'A' 1)).frameSeq = 0 ∧
      (TerminalState.new 2 2).resizeEpoch ≤
        (run (TerminalState.new 2 2) [Op.print 'A' 1, Op.snapshot]).resizeEpoch := by
  refine ⟨c1_frameSeq_resizeEpoch_amended.1 _ _ (by decide), ?_, ?_⟩
  · have h := c1_frameSeq_resizeEpoch_amended.2.1 (TerminalState.new 2 2) (Op.print 'A' 1)
      (by decide)
    simpa using h
  · exact c1_frameSeq_resizeEpoch_amended.2.2.2.1 _ _ (by decide) (by decide)


/-!
### C2: cursor bounds while feeding bytes at fixed dimensions

`cursorInv` is the inductive invariant; the `cfp_*` lemmas check that an
operation leaves the cursor, the dimensions, the scroll region and the
cached print width untouched, and the `cinv_*` lemmas push the invariant
through every cursor-moving operation.
-/

theorem cursorInv_parts {s t : TerminalState} (hrow : t.cursor.row = s.cursor.row)
    (hcol : t.cursor.col = s.cursor.col) (hsv : t.cursor.saved = s.cursor.saved)
    (hr : t.rows = s.rows) (hc : t.cols = s.cols) (ht : t.scrollTop = s.scrollTop)
    (hb : t.scrollBottom = s.scrollBottom) (hw : t.lastPrintedWidth = s.lastPrintedWidth)
    (hs : cursorInv s) : cursorInv t := by
  unfold cursorInv at hs ⊢
  rw [hrow, hcol, hsv, hr, hc, ht, hb, hw]
  exact hs

theorem cinv_of_cfp {s t : TerminalState}
    (h : t.cursor = s.cursor ∧ t.rows = s.rows ∧ t.cols = s.cols ∧
      t.scrollTop = s.scrollTop ∧ t.scrollBottom = s.scrollBottom ∧
      t.lastPrintedWidth = s.lastPrintedWidth)
    (hs : cursorInv s) : cursorInv t ∧ t.rows = s.rows ∧ t.cols = s.cols := by
  obtain ⟨hc, hr, hco, ht, hb, hw⟩ := h
  exact ⟨cursorInv_parts (by rw [hc]) (by rw [hc]) (by rw [hc]) hr hco ht hb hw hs, hr, hco⟩

theorem cfp_setActiveGrid (s : TerminalState) (g : Grid) :
    (s.setActiveGrid g).cursor = s.cursor ∧
      (s.setActiveGrid g).rows = s.rows ∧
      (s.setActiveGrid g).cols = s.cols ∧
      (s.setActiveGrid g).scrollTop = s.scrollTop ∧
      (s.setActiveGrid g).scrollBottom = s.scrollBottom ∧
      (s.setActiveGrid g).lastPrintedWidth = s.lastPrintedWidth := by
  unfold TerminalState.setActiveGrid; split <;> simp

theorem cfp_withActiveGrid (s : TerminalState) (f : Grid → Grid) :
    (s.withActiveGrid f).cursor = s.cursor ∧
      (s.withActiveGrid f).rows = s.rows ∧
      (s.withActiveGrid f).cols = s.cols ∧
      (s.withActiveGrid f).scrollTop = s.scrollTop ∧
      (s.withActiveGrid f).scrollBottom = s.scrollBottom ∧
      (s.withActiveGrid f).lastPrintedWidth = s.lastPrintedWidth := by
  unfold TerminalState.withActiveGrid; exact cfp_setActiveGrid ..

theorem cfp_foldl {β : Type} (f : TerminalState → β → TerminalState)
    (h : ∀ (s : TerminalState) (b : β), (f s b).cursor = s.cursor ∧
      (f s b).rows = s.rows ∧
      (f s b).cols = s.cols ∧
      (f s b).scrollTop = s.scrollTop ∧
      (f s b).scrollBottom = s.scrollBottom ∧
      (f s b).lastPrintedWidth = s.lastPrintedWidth)
    (l : List β) (s : TerminalState) : (l.foldl f s).cursor = s.cursor ∧
      (l.foldl f s).rows = s.rows ∧
      (l.foldl f s).cols = s.cols ∧
      (l.foldl f s).scrollTop = s.scrollTop ∧
      (l.foldl f s).scrollBottom = s.scrollBottom ∧
      (l.foldl f s).lastPrintedWidth = s.lastPrintedWidth := by
  induction l generalizing s with
  | nil => exact ⟨rfl, rfl, rfl, rfl, rfl, rfl⟩
  | cons b rest ih =>
      simp only [List.foldl_cons]
      exact ⟨((ih (f s b)).1).trans (h s b).1, ((ih (f s b)).2.1).trans (h s b).2.1,
        ((ih (f s b)).2.2.1).trans (h s b).2.2.1, ((ih (f s b)).2.2.2.1).trans (h s b).2.2.2.1,
        ((ih (f s b)).2.2.2.2.1).trans (h s b).2.2.2.2.1,
        ((ih (f s b)).2.2.2.2.2).trans (h s b).2.2.2.2.2⟩

theorem cfp_scrollUpCapture (s : TerminalState) (top bottom : Nat) :
    (s.scrollUpCapture top bottom).cursor = s.cursor ∧
      (s.scrollUpCapture top bottom).rows = s.rows ∧
      (s.scrollUpCapture top bottom).cols = s.cols ∧
      (s.scrollUpCapture top bottom).scrollTop = s.scrollTop ∧
      (s.scrollUpCapture top bottom).scrollBottom = s.scrollBottom ∧
      (s.scrollUpCapture top bottom).lastPrintedWidth = s.lastPrintedWidth := by
  unfold TerminalState.scrollUpCapture
  cases hr : (s.activeGrid.scroll_up top bottom).1 with
  | none => simp [hr, cfp_setActiveGrid]
  | some line => simp only [hr]; split <;> simp [cfp_setActiveGrid]

theorem cfp_erase_display (s : TerminalState) (mode : Nat) :
    (s.erase_display mode).cursor = s.cursor ∧
      (s.erase_display mode).rows = s.rows ∧
      (s.erase_display mode).cols = s.cols ∧
      (s.erase_display mode).scrollTop = s.scrollTop ∧
      (s.erase_display mode).scrollBottom = s.scrollBottom ∧
      (s.erase_display mode).lastPrintedWidth = s.lastPrintedWidth := by
  unfold TerminalState.erase_display
  split
  · exact cfp_withActiveGrid ..
  split
  · exact cfp_withActiveGrid ..
  split
  · exact cfp_withActiveGrid ..
  split
  · simp
  · simp

theorem cfp_erase_line (s : TerminalState) (mode : Nat) :
    (s.erase_line mode).cursor = s.cursor ∧
      (s.erase_line mode).rows = s.rows ∧
      (s.erase_line mode).cols = s.cols ∧
      (s.erase_line mode).scrollTop = s.scrollTop ∧
      (s.erase_line mode).scrollBottom = s.scrollBottom ∧
      (s.erase_line mode).lastPrintedWidth = s.lastPrintedWidth := by
  unfold TerminalState.erase_line
  split
  · exact cfp_withActiveGrid ..
  split
  · exact cfp_withActiveGrid ..
  split
  · exact cfp_withActiveGrid ..
  · simp

theorem cfp_erase_chars (s : TerminalState) (n : Nat) :
    (s.erase_chars n).cursor = s.cursor ∧
      (s.erase_chars n).rows = s.rows ∧
      (s.erase_chars n).cols = s.cols ∧
      (s.erase_chars n).scrollTop = s.scrollTop ∧
      (s.erase_chars n).scrollBottom = s.scrollBottom ∧
      (s.erase_chars n).lastPrintedWidth = s.lastPrintedWidth := by
  simp only [TerminalState.erase_chars]
  exact cfp_withActiveGrid ..

theorem cfp_insert_chars (s : TerminalState) (n : Nat) :
    (s.insert_chars n).cursor = s.cursor ∧
      (s.insert_chars n).rows = s.rows ∧
      (s.insert_chars n).cols = s.cols ∧
      (s.insert_chars n).scrollTop = s.scrollTop ∧
      (s.insert_chars n).scrollBottom = s.scrollBottom ∧
      (s.insert_chars n).lastPrintedWidth = s.lastPrintedWidth := by
  simp only [TerminalState.insert_chars]
  exact cfp_withActiveGrid ..

theorem cfp_delete_chars (s : TerminalState) (n : Nat) :
    (s.delete_chars n).cursor = s.cursor ∧
      (s.delete_chars n).rows = s.rows ∧
      (s.delete_chars n).cols = s.cols ∧
      (s.delete_chars n).scrollTop = s.scrollTop ∧
      (s.delete_chars n).scrollBottom = s.scrollBottom ∧
      (s.delete_chars n).lastPrintedWidth = s.lastPrintedWidth := by
  simp only [TerminalState.delete_chars]
  exact cfp_withActiveGrid ..

theorem cfp_scroll_up_n (s : TerminalState) (n : Nat) :
    (s.scroll_up_n n).cursor = s.cursor ∧
      (s.scroll_up_n n).rows = s.rows ∧
      (s.scroll_up_n n).cols = s.cols ∧
      (s.scroll_up_n n).scrollTop = s.scrollTop ∧
      (s.scroll_up_n n).scrollBottom = s.scrollBottom ∧
      (s.scroll_up_n n).lastPrintedWidth = s.lastPrintedWidth := by
  unfold TerminalState.scroll_up_n
  exact cfp_foldl _ (fun st _ => cfp_scrollUpCapture ..) (List.range n) s

theorem cfp_scroll_down_n (s : TerminalState) (n : Nat) :
    (s.scroll_down_n n).cursor = s.cursor ∧
      (s.scroll_down_n n).rows = s.rows ∧
      (s.scroll_down_n n).cols = s.cols ∧
      (s.scroll_down_n n).scrollTop = s.scrollTop ∧
      (s.scroll_down_n n).scrollBottom = s.scrollBottom ∧
      (s.scroll_down_n n).lastPrintedWidth = s.lastPrintedWidth := by
  unfold TerminalState.scroll_down_n
  exact cfp_foldl _ (fun st _ => cfp_withActiveGrid ..) (List.range n) s

theorem cfp_enter_alt_screen (s : TerminalState) :
    (s.enter_alt_screen).cursor = s.cursor ∧
      (s.enter_alt_screen).rows = s.rows ∧
      (s.enter_alt_screen).cols = s.cols ∧
      (s.enter_alt_screen).scrollTop = s.scrollTop ∧
      (s.enter_alt_screen).scrollBottom = s.scrollBottom ∧
      (s.enter_alt_screen).lastPrintedWidth = s.lastPrintedWidth := by
  unfold TerminalState.enter_alt_screen; split <;> simp

theorem cfp_exit_alt_screen (s : TerminalState) :
    (s.exit_alt_screen).cursor = s.cursor ∧
      (s.exit_alt_screen).rows = s.rows ∧
      (s.exit_alt_screen).cols = s.cols ∧
      (s.exit_alt_screen).scrollTop = s.scrollTop ∧
      (s.exit_alt_screen).scrollBottom = s.scrollBottom ∧
      (s.exit_alt_screen).lastPrintedWidth = s.lastPrintedWidth := by
  unfold TerminalState.exit_alt_screen; split <;> simp

theorem cfp_report_mode_state (s : TerminalState) (mode : Nat) (set : Option Bool) (dp : Bool) :
    (s.report_mode_state mode set dp).cursor = s.cursor ∧
      (s.report_mode_state mode set dp).rows = s.rows ∧
      (s.report_mode_state mode set dp).cols = s.cols ∧
      (s.report_mode_state mode set dp).scrollTop = s.scrollTop ∧
      (s.report_mode_state mode set dp).scrollBottom = s.scrollBottom ∧
      (s.report_mode_state mode set dp).lastPrintedWidth = s.lastPrintedWidth := by
  simp [TerminalState.report_mode_state]

theorem cfp_report_dec_modes (s : TerminalState) (params : List Nat) :
    (s.report_dec_modes params).cursor = s.cursor ∧
      (s.report_dec_modes params).rows = s.rows ∧
      (s.report_dec_modes params).cols = s.cols ∧
      (s.report_dec_modes params).scrollTop = s.scrollTop ∧
      (s.report_dec_modes params).scrollBottom = s.scrollBottom ∧
      (s.report_dec_modes params).lastPrintedWidth = s.lastPrintedWidth := by
  unfold TerminalState.report_dec_modes
  split
  · exact cfp_report_mode_state ..
  · exact cfp_foldl _ (fun st p => cfp_report_mode_state ..) params s

theorem cfp_report_ansi_modes (s : TerminalState) (params : List Nat) :
    (s.report_ansi_modes params).cursor = s.cursor ∧
      (s.report_ansi_modes params).rows = s.rows ∧
      (s.report_ansi_modes params).cols = s.cols ∧
      (s.report_ansi_modes params).scrollTop = s.scrollTop ∧
      (s.report_ansi_modes params).scrollBottom = s.scrollBottom ∧
      (s.report_ansi_modes params).lastPrintedWidth = s.lastPrintedWidth := by
  unfold TerminalState.report_ansi_modes
  split
  · exact cfp_report_mode_state ..
  · exact cfp_foldl _ (fun st p => cfp_report_mode_state ..) params s

theorem cfp_set_mode (s : TerminalState) (params : List Nat) (enable : Bool) :
    (s.set_mode params enable).cursor = s.cursor ∧
      (s.set_mode params enable).rows = s.rows ∧
      (s.set_mode params enable).cols = s.cols ∧
      (s.set_mode params enable).scrollTop = s.scrollTop ∧
      (s.set_mode params enable).scrollBottom = s.scrollBottom ∧
      (s.set_mode params enable).lastPrintedWidth = s.lastPrintedWidth := by
  unfold TerminalState.set_mode
  refine cfp_foldl _ (fun st p => ?_) params s
  refine ⟨?_, ?_, ?_, ?_, ?_, ?_⟩ <;>
    simp only [apply_ite TerminalState.cursor, apply_ite TerminalState.rows,
      apply_ite TerminalState.cols, apply_ite TerminalState.scrollTop,
      apply_ite TerminalState.scrollBottom, apply_ite TerminalState.lastPrintedWidth, ite_self]

theorem cfp_handle_osc_52 (s : TerminalState) (params : List String) (clipboard : String) :
    (s.handle_osc_52 params clipboard).cursor = s.cursor ∧
      (s.handle_osc_52 params clipboard).rows = s.rows ∧
      (s.handle_osc_52 params clipboard).cols = s.cols ∧
      (s.handle_osc_52 params clipboard).scrollTop = s.scrollTop ∧
      (s.handle_osc_52 params clipboard).scrollBottom = s.scrollBottom ∧
      (s.handle_osc_52 params clipboard).lastPrintedWidth = s.lastPrintedWidth := by
  refine ⟨?_, ?_, ?_, ?_, ?_, ?_⟩ <;>
    simp only [TerminalState.handle_osc_52, apply_ite TerminalState.cursor, apply_ite TerminalState.rows,
      apply_ite TerminalState.cols, apply_ite TerminalState.scrollTop,
      apply_ite TerminalState.scrollBottom, apply_ite TerminalState.lastPrintedWidth, ite_self]

theorem cfp_handleOsc1337 (s : TerminalState) (payload : String) :
    (s.handleOsc1337 payload).cursor = s.cursor ∧
      (s.handleOsc1337 payload).rows = s.rows ∧
      (s.handleOsc1337 payload).cols = s.cols ∧
      (s.handleOsc1337 payload).scrollTop = s.scrollTop ∧
      (s.handleOsc1337 payload).scrollBottom = s.scrollBottom ∧
      (s.handleOsc1337 payload).lastPrintedWidth = s.lastPrintedWidth := by
  simp only [TerminalState.handleOsc1337]
  split
  · cases (payload.drop 5).toList.findIdx? (· = ':') with
    | none => exact ⟨rfl, rfl, rfl, rfl, rfl, rfl⟩
    | some colonIdx =>
        refine ⟨?_, ?_, ?_, ?_, ?_, ?_⟩ <;>
          (repeat' split) <;>
            simp only [apply_ite TerminalState.cursor, apply_ite TerminalState.rows,
      apply_ite TerminalState.cols, apply_ite TerminalState.scrollTop,
      apply_ite TerminalState.scrollBottom, apply_ite TerminalState.lastPrintedWidth, ite_self]
  · exact ⟨rfl, rfl, rfl, rfl, rfl, rfl⟩

theorem cfp_handleOsc1337Dispatch (s : TerminalState) (params : List String) :
    (s.handleOsc1337Dispatch params).cursor = s.cursor ∧
      (s.handleOsc1337Dispatch params).rows = s.rows ∧
      (s.handleOsc1337Dispatch params).cols = s.cols ∧
      (s.handleOsc1337Dispatch params).scrollTop = s.scrollTop ∧
      (s.handleOsc1337Dispatch params).scrollBottom = s.scrollBottom ∧
      (s.handleOsc1337Dispatch params).lastPrintedWidth = s.lastPrintedWidth := by
  unfold TerminalState.handleOsc1337Dispatch
  cases params[1]? with
  | none => exact ⟨rfl, rfl, rfl, rfl, rfl, rfl⟩
  | some payload => exact cfp_handleOsc1337 ..

theorem cfp_handleOscTitle (s : TerminalState) (params : List String) :
    (s.handleOscTitle params).cursor = s.cursor ∧
      (s.handleOscTitle params).rows = s.rows ∧
      (s.handleOscTitle params).cols = s.cols ∧
      (s.handleOscTitle params).scrollTop = s.scrollTop ∧
      (s.handleOscTitle params).scrollBottom = s.scrollBottom ∧
      (s.handleOscTitle params).lastPrintedWidth = s.lastPrintedWidth := by
  unfold TerminalState.handleOscTitle
  cases params[1]? <;> simp

theorem cfp_handleOsc7 (s : TerminalState) (params : List String) :
    (s.handleOsc7 params).cursor = s.cursor ∧
      (s.handleOsc7 params).rows = s.rows ∧
      (s.handleOsc7 params).cols = s.cols ∧
      (s.handleOsc7 params).scrollTop = s.scrollTop ∧
      (s.handleOsc7 params).scrollBottom = s.scrollBottom ∧
      (s.handleOsc7 params).lastPrintedWidth = s.lastPrintedWidth := by
  cases hp : params[1]? with
  | none => refine ⟨?_, ?_, ?_, ?_, ?_, ?_⟩ <;> simp only [TerminalState.handleOsc7, hp]
  | some uri =>
      refine ⟨?_, ?_, ?_, ?_, ?_, ?_⟩ <;>
        · simp only [TerminalState.handleOsc7, hp]
          split
          · cases (uri.drop 7).toList.findIdx? (· = '/') <;> rfl
          · rfl

theorem cfp_handleOsc133 (s : TerminalState) (params : List String) (freshId : String) :
    (s.handleOsc133 params freshId).cursor = s.cursor ∧
      (s.handleOsc133 params freshId).rows = s.rows ∧
      (s.handleOsc133 params freshId).cols = s.cols ∧
      (s.handleOsc133 params freshId).scrollTop = s.scrollTop ∧
      (s.handleOsc133 params freshId).scrollBottom = s.scrollBottom ∧
      (s.handleOsc133 params freshId).lastPrintedWidth = s.lastPrintedWidth := by
  unfold TerminalState.handleOsc133
  cases params[1]? with
  | none => exact ⟨rfl, rfl, rfl, rfl, rfl, rfl⟩
  | some marker =>
      refine ⟨?_, ?_, ?_, ?_, ?_, ?_⟩ <;>
        simp only [apply_ite TerminalState.cursor, apply_ite TerminalState.rows,
      apply_ite TerminalState.cols, apply_ite TerminalState.scrollTop,
      apply_ite TerminalState.scrollBottom, apply_ite TerminalState.lastPrintedWidth, ite_self]

theorem cfp_handleOsc8 (s : TerminalState) (params : List String) :
    (s.handleOsc8 params).cursor = s.cursor ∧
      (s.handleOsc8 params).rows = s.rows ∧
      (s.handleOsc8 params).cols = s.cols ∧
      (s.handleOsc8 params).scrollTop = s.scrollTop ∧
      (s.handleOsc8 params).scrollBottom = s.scrollBottom ∧
      (s.handleOsc8 params).lastPrintedWidth = s.lastPrintedWidth := by
  refine ⟨?_, ?_, ?_, ?_, ?_, ?_⟩ <;>
    simp only [TerminalState.handleOsc8, apply_ite TerminalState.cursor, apply_ite TerminalState.rows,
      apply_ite TerminalState.cols, apply_ite TerminalState.scrollTop,
      apply_ite TerminalState.scrollBottom, apply_ite TerminalState.lastPrintedWidth, ite_self]

theorem cfp_handleOsc4 (s : TerminalState) (params : List String) :
    (s.handleOsc4 params).cursor = s.cursor ∧
      (s.handleOsc4 params).rows = s.rows ∧
      (s.handleOsc4 params).cols = s.cols ∧
      (s.handleOsc4 params).scrollTop = s.scrollTop ∧
      (s.handleOsc4 params).scrollBottom = s.scrollBottom ∧
      (s.handleOsc4 params).lastPrintedWidth = s.lastPrintedWidth := by
  unfold TerminalState.handleOsc4
  split
  · cases (params.getD 1 "").toNat? with
    | none => exact ⟨rfl, rfl, rfl, rfl, rfl, rfl⟩
    | some index =>
        refine ⟨?_, ?_, ?_, ?_, ?_, ?_⟩ <;>
          simp only [apply_ite TerminalState.cursor, apply_ite TerminalState.rows,
      apply_ite TerminalState.cols, apply_ite TerminalState.scrollTop,
      apply_ite TerminalState.scrollBottom, apply_ite TerminalState.lastPrintedWidth, ite_self]
  · exact ⟨rfl, rfl, rfl, rfl, rfl, rfl⟩

theorem cfp_handleOscColorQuery (s : TerminalState) (first : String) (params : List String) :
    (s.handleOscColorQuery first params).cursor = s.cursor ∧
      (s.handleOscColorQuery first params).rows = s.rows ∧
      (s.handleOscColorQuery first params).cols = s.cols ∧
      (s.handleOscColorQuery first params).scrollTop = s.scrollTop ∧
      (s.handleOscColorQuery first params).scrollBottom = s.scrollBottom ∧
      (s.handleOscColorQuery first params).lastPrintedWidth = s.lastPrintedWidth := by
  refine ⟨?_, ?_, ?_, ?_, ?_, ?_⟩ <;>
    simp only [TerminalState.handleOscColorQuery, apply_ite TerminalState.cursor, apply_ite TerminalState.rows,
      apply_ite TerminalState.cols, apply_ite TerminalState.scrollTop,
      apply_ite TerminalState.scrollBottom, apply_ite TerminalState.lastPrintedWidth, ite_self]

theorem cfp_handle_osc (s : TerminalState) (params : List String) (freshId clipboard : String) :
    (s.handle_osc params freshId clipboard).cursor = s.cursor ∧
      (s.handle_osc params freshId clipboard).rows = s.rows ∧
      (s.handle_osc params freshId clipboard).cols = s.cols ∧
      (s.handle_osc params freshId clipboard).scrollTop = s.scrollTop ∧
      (s.handle_osc params freshId clipboard).scrollBottom = s.scrollBottom ∧
      (s.handle_osc params freshId clipboard).lastPrintedWidth = s.lastPrintedWidth := by
  cases params with
  | nil => exact ⟨rfl, rfl, rfl, rfl, rfl, rfl⟩
  | cons first rest =>
      simp only [TerminalState.handle_osc]
      split_ifs <;>
        (refine ⟨?_, ?_, ?_, ?_, ?_, ?_⟩ <;>
          simp only [cfp_handleOscTitle, cfp_handleOsc7, cfp_handleOsc133, cfp_handleOsc8,
            cfp_handle_osc_52, cfp_handleOsc4, cfp_handleOscColorQuery,
            cfp_handleOsc1337Dispatch])

theorem cfp_handle_xtgettcap (s : TerminalState) (data : List Nat) :
    (s.handle_xtgettcap data).cursor = s.cursor ∧
      (s.handle_xtgettcap data).rows = s.rows ∧
      (s.handle_xtgettcap data).cols = s.cols ∧
      (s.handle_xtgettcap data).scrollTop = s.scrollTop ∧
      (s.handle_xtgettcap data).scrollBottom = s.scrollBottom ∧
      (s.handle_xtgettcap data).lastPrintedWidth = s.lastPrintedWidth := by
  simp only [TerminalState.handle_xtgettcap]
  split
  · simp
  · cases hx : xtgettcapPairs (splitOnChar ';' (data.map Char.ofNat)) with
    | none => exact ⟨rfl, rfl, rfl, rfl, rfl, rfl⟩
    | some pairs => cases pairs <;> exact ⟨rfl, rfl, rfl, rfl, rfl, rfl⟩

theorem cfp_handle_decrqss (s : TerminalState) (data : List Nat) :
    (s.handle_decrqss data).cursor = s.cursor ∧
      (s.handle_decrqss data).rows = s.rows ∧
      (s.handle_decrqss data).cols = s.cols ∧
      (s.handle_decrqss data).scrollTop = s.scrollTop ∧
      (s.handle_decrqss data).scrollBottom = s.scrollBottom ∧
      (s.handle_decrqss data).lastPrintedWidth = s.lastPrintedWidth := by
  unfold TerminalState.handle_decrqss
  cases hx : s.decrqssStatus (data.map Char.ofNat) <;> simp [hx]

theorem cfp_handle_dcs (s : TerminalState) (action : Option Char) (ints data : List Nat) :
    (s.handle_dcs action ints data).cursor = s.cursor ∧
      (s.handle_dcs action ints data).rows = s.rows ∧
      (s.handle_dcs action ints data).cols = s.cols ∧
      (s.handle_dcs action ints data).scrollTop = s.scrollTop ∧
      (s.handle_dcs action ints data).scrollBottom = s.scrollBottom ∧
      (s.handle_dcs action ints data).lastPrintedWidth = s.lastPrintedWidth := by
  unfold TerminalState.handle_dcs
  (repeat' split) <;>
    first
    | exact cfp_handle_xtgettcap ..
    | exact cfp_handle_decrqss ..
    | exact ⟨rfl, rfl, rfl, rfl, rfl, rfl⟩

theorem sgrApply_parts (cur : CursorState) (p : Nat) :
    (sgrApply cur p).row = cur.row ∧ (sgrApply cur p).col = cur.col ∧
      (sgrApply cur p).saved = cur.saved := by
  unfold sgrApply
  by_cases hc0 : p = 0
  · rw [if_pos hc0]
    exact ⟨rfl, rfl, rfl⟩
  rw [if_neg hc0]
  by_cases hc1 : p = 1
  · rw [if_pos hc1]
    exact ⟨rfl, rfl, rfl⟩
  rw [if_neg hc1]
  by_cases hc2 : p = 2
  · rw [if_pos hc2]
    exact ⟨rfl, rfl, rfl⟩
  rw [if_neg hc2]
  by_cases hc3 : p = 3
  · rw [if_pos hc3]
    exact ⟨rfl, rfl, rfl⟩
  rw [if_neg hc3]
  by_cases hc4 : p = 4
  · rw [if_pos hc4]
    exact ⟨rfl, rfl, rfl⟩
  rw [if_neg hc4]
  by_cases hc5 : p = 5
  · rw [if_pos hc5]
    exact ⟨rfl, rfl, rfl⟩
  rw [if_neg hc5]
  by_cases hc6 : p = 7
  · rw [if_pos hc6]
    exact ⟨rfl, rfl, rfl⟩
  rw [if_neg hc6]
  by_cases hc7 : p = 8
  · rw [if_pos hc7]
    exact ⟨rfl, rfl, rfl⟩
  rw [if_neg hc7]
  by_cases hc8 : p = 9
  · rw [if_pos hc8]
    exact ⟨rfl, rfl, rfl⟩
  rw [if_neg hc8]
  by_cases hc9 : p = 22
  · rw [if_pos hc9]
    exact ⟨rfl, rfl, rfl⟩
  rw [if_neg hc9]
  by_cases hc10 : p = 23
  · rw [if_pos hc10]
    exact ⟨rfl, rfl, rfl⟩
  rw [if_neg hc10]
  by_cases hc11 : p = 24
  · rw [if_pos hc11]
    exact ⟨rfl, rfl, rfl⟩
  rw [if_neg hc11]
  by_cases hc12 : p = 25
  · rw [if_pos hc12]
    exact ⟨rfl, rfl, rfl⟩
  rw [if_neg hc12]
  by_cases hc13 : p = 27
  · rw [if_pos hc13]
    exact ⟨rfl, rfl, rfl⟩
  rw [if_neg hc13]
  by_cases hc14 : p = 28
  · rw [if_pos hc14]
    exact ⟨rfl, rfl, rfl⟩
  rw [if_neg hc14]
  by_cases hc15 : p = 29
  · rw [if_pos hc15]
    exact ⟨rfl, rfl, rfl⟩
  rw [if_neg hc15]
  by_cases hc16 : 30 ≤ p ∧ p ≤ 37
  · rw [if_pos hc16]
    exact ⟨rfl, rfl, rfl⟩
  rw [if_neg hc16]
  by_cases hc17 : p = 39
  · rw [if_pos hc17]
    exact ⟨rfl, rfl, rfl⟩
  rw [if_neg hc17]
  by_cases hc18 : 40 ≤ p ∧ p ≤ 47
  · rw [if_pos hc18]
    exact ⟨rfl, rfl, rfl⟩
  rw [if_neg hc18]
  by_cases hc19 : p = 49
  · rw [if_pos hc19]
    exact ⟨rfl, rfl, rfl⟩
  rw [if_neg hc19]
  by_cases hc20 : 90 ≤ p ∧ p ≤ 97
  · rw [if_pos hc20]
    exact ⟨rfl, rfl, rfl⟩
  rw [if_neg hc20]
  by_cases hc21 : 100 ≤ p ∧ p ≤ 107
  · rw [if_pos hc21]
    exact ⟨rfl, rfl, rfl⟩
  rw [if_neg hc21]
  exact ⟨rfl, rfl, rfl⟩

theorem sgrWalk_parts (cur : CursorState) (ps : List Nat) :
    (sgrWalk cur ps).row = cur.row ∧ (sgrWalk cur ps).col = cur.col ∧
      (sgrWalk cur ps).saved = cur.saved := by
  induction cur, ps using sgrWalk.induct <;>
    simp only [sgrWalk] <;>
    first
    | exact ⟨rfl, rfl, rfl⟩
    | assumption
    | simp_all [sgrApply_parts]

theorem cinv_handle_sgr (s : TerminalState) (params : List Nat) (hs : cursorInv s) :
    cursorInv (s.handle_sgr params) ∧ (s.handle_sgr params).rows = s.rows ∧
      (s.handle_sgr params).cols = s.cols := by
  have h := sgrWalk_parts s.cursor (if params = [] then [0] else params)
  exact ⟨cursorInv_parts h.1 h.2.1 h.2.2 rfl rfl rfl rfl rfl hs, rfl, rfl⟩

theorem cinv_carriage_return (s : TerminalState) (hs : cursorInv s) :
    cursorInv s.carriage_return ∧ s.carriage_return.rows = s.rows ∧
      s.carriage_return.cols = s.cols := by
  obtain ⟨h1, h2, h3, h4, h5, h6, h7, h8⟩ := id hs
  exact ⟨⟨h1, h2, h3, Nat.zero_le _, h5, h6, h7, h8⟩, rfl, rfl⟩

theorem cinv_linefeed (s : TerminalState) (hs : cursorInv s) :
    cursorInv s.linefeed ∧ s.linefeed.cursor.col = s.cursor.col ∧
      s.linefeed.rows = s.rows ∧ s.linefeed.cols = s.cols := by
  obtain ⟨h1, h2, h3, h4, h5, h6, h7, h8⟩ := id hs
  unfold TerminalState.linefeed
  split_ifs with hsb hlt
  · have h := cfp_scrollUpCapture s s.scrollTop s.scrollBottom
    exact ⟨(cinv_of_cfp h hs).1, by rw [h.1], h.2.1, h.2.2.1⟩
  · exact ⟨⟨h1, h2, by show s.cursor.row + 1 < s.rows; omega, h4, h5, h6, h7, h8⟩,
      rfl, rfl, rfl⟩
  · exact ⟨hs, rfl, rfl, rfl⟩

theorem cinv_reverse_index (s : TerminalState) (hs : cursorInv s) :
    cursorInv s.reverse_index ∧ s.reverse_index.rows = s.rows ∧
      s.reverse_index.cols = s.cols := by
  obtain ⟨h1, h2, h3, h4, h5, h6, h7, h8⟩ := id hs
  unfold TerminalState.reverse_index
  split_ifs with htop hpos
  · exact cinv_of_cfp (cfp_withActiveGrid s _) hs
  · exact ⟨⟨h1, h2, by show s.cursor.row - 1 < s.rows; omega, h4, h5, h6, h7, h8⟩, rfl, rfl⟩
  · exact ⟨hs, rfl, rfl⟩

theorem cinv_backspace (s : TerminalState) (hs : cursorInv s) :
    cursorInv s.backspace ∧ s.backspace.rows = s.rows ∧ s.backspace.cols = s.cols := by
  obtain ⟨h1, h2, h3, h4, h5, h6, h7, h8⟩ := id hs
  unfold TerminalState.backspace
  split_ifs with hz
  · exact ⟨⟨h1, h2, h3, by show s.cursor.col - 1 ≤ s.cols + 1; omega, h5, h6, h7, h8⟩, rfl, rfl⟩
  · exact ⟨hs, rfl, rfl⟩

theorem cinv_tab (s : TerminalState) (hs : cursorInv s) :
    cursorInv s.tab ∧ s.tab.rows = s.rows ∧ s.tab.cols = s.cols := by
  obtain ⟨h1, h2, h3, h4, h5, h6, h7, h8⟩ := id hs
  unfold TerminalState.tab
  cases hf : (List.range' (s.cursor.col + 1) (s.cols - (s.cursor.col + 1))).find?
      (fun i => s.tabStops.getD i false) with
  | none => exact ⟨⟨h1, h2, h3, by show s.cols - 1 ≤ s.cols + 1; omega, h5, h6, h7, h8⟩,
      rfl, rfl⟩
  | some i =>
      have hm := List.mem_range'_1.mp (List.mem_of_find?_eq_some hf)
      exact ⟨⟨h1, h2, h3, by show i ≤ s.cols + 1; omega, h5, h6, h7, h8⟩, rfl, rfl⟩

theorem cinv_cursor_up (s : TerminalState) (n : Nat) (hs : cursorInv s) :
    cursorInv (s.cursor_up n) ∧ (s.cursor_up n).rows = s.rows ∧
      (s.cursor_up n).cols = s.cols := by
  obtain ⟨h1, h2, h3, h4, h5, h6, h7, h8⟩ := id hs
  refine ⟨⟨h1, h2, ?_, h4, h5, h6, h7, h8⟩, rfl, rfl⟩
  show max (s.cursor.row - n)
      (if s.scrollTop ≤ s.cursor.row ∧ s.cursor.row ≤ s.scrollBottom then s.scrollTop else 0)
    < s.rows
  split_ifs <;> omega

theorem cinv_cursor_down (s : TerminalState) (n : Nat) (hs : cursorInv s) :
    cursorInv (s.cursor_down n) ∧ (s.cursor_down n).rows = s.rows ∧
      (s.cursor_down n).cols = s.cols := by
  obtain ⟨h1, h2, h3, h4, h5, h6, h7, h8⟩ := id hs
  refine ⟨⟨h1, h2, ?_, h4, h5, h6, h7, h8⟩, rfl, rfl⟩
  show min (s.cursor.row + n)
      (if s.scrollTop ≤ s.cursor.row ∧ s.cursor.row ≤ s.scrollBottom then s.scrollBottom
       else s.rows - 1)
    < s.rows
  split_ifs <;> omega

theorem cinv_cursor_forward (s : TerminalState) (n : Nat) (hs : cursorInv s) :
    cursorInv (s.cursor_forward n) ∧ (s.cursor_forward n).rows = s.rows ∧
      (s.cursor_forward n).cols = s.cols := by
  obtain ⟨h1, h2, h3, h4, h5, h6, h7, h8⟩ := id hs
  exact ⟨⟨h1, h2, h3, by show min (s.cursor.col + n) (s.cols - 1) ≤ s.cols + 1; omega,
    h5, h6, h7, h8⟩, rfl, rfl⟩

theorem cinv_cursor_backward (s : TerminalState) (n : Nat) (hs : cursorInv s) :
    cursorInv (s.cursor_backward n) ∧ (s.cursor_backward n).rows = s.rows ∧
      (s.cursor_backward n).cols = s.cols := by
  obtain ⟨h1, h2, h3, h4, h5, h6, h7, h8⟩ := id hs
  exact ⟨⟨h1, h2, h3, by show s.cursor.col - n ≤ s.cols + 1; omega, h5, h6, h7, h8⟩, rfl, rfl⟩

theorem cinv_save_cursor (s : TerminalState) (hs : cursorInv s) :
    cursorInv s.save_cursor ∧ s.save_cursor.rows = s.rows ∧ s.save_cursor.cols = s.cols := by
  obtain ⟨h1, h2, h3, h4, h5, h6, h7, h8⟩ := id hs
  exact ⟨⟨h1, h2, h3, h4, h5, h6, ⟨h3, h4⟩, h8⟩, rfl, rfl⟩

theorem cinv_restore_cursor (s : TerminalState) (hs : cursorInv s) :
    cursorInv s.restore_cursor ∧ s.restore_cursor.rows = s.rows ∧
      s.restore_cursor.cols = s.cols := by
  obtain ⟨h1, h2, h3, h4, h5, h6, h7, h8⟩ := id hs
  unfold TerminalState.restore_cursor CursorState.restore
  cases hsv : s.cursor.saved with
  | none => exact ⟨hs, rfl, rfl⟩
  | some sv =>
      have h7x : sv.row < s.rows ∧ sv.col ≤ s.cols + 1 := by rw [hsv] at h7; exact h7
      exact ⟨⟨h1, h2, h7x.1, h7x.2, h5, h6, trivial, h8⟩, rfl, rfl⟩

theorem cinv_clear_screen (s : TerminalState) (hs : cursorInv s) :
    cursorInv s.clear_screen ∧ s.clear_screen.rows = s.rows ∧
      s.clear_screen.cols = s.cols := by
  simp only [TerminalState.clear_screen]
  have hx := cinv_of_cfp
    (cfp_withActiveGrid s (fun g => (List.range s.rows).foldl (fun g2 r => g2.clearVisibleRow r) g))
    hs
  obtain ⟨hh1, hh2, hh3, hh4, hh5, hh6, hh7, hh8⟩ := id hx.1
  exact ⟨⟨hh1, hh2, hh1, Nat.zero_le _, hh5, hh6, hh7, hh8⟩, hx.2.1, hx.2.2⟩

theorem cinv_insert_lines (s : TerminalState) (n : Nat) (hs : cursorInv s) :
    cursorInv (s.insert_lines n) ∧ (s.insert_lines n).rows = s.rows ∧
      (s.insert_lines n).cols = s.cols := by
  simp only [TerminalState.insert_lines]
  split_ifs with hreg
  · have hx := cinv_of_cfp
      (cfp_foldl
        (fun st (_ : Nat) =>
          st.withActiveGrid (fun g => g.scroll_down s.cursor.row s.scrollBottom))
        (fun st b => cfp_withActiveGrid st _) (List.range n) s)
      hs
    obtain ⟨hh1, hh2, hh3, hh4, hh5, hh6, hh7, hh8⟩ := id hx.1
    first
    | exact ⟨⟨hh1, hh2, hh3, Nat.zero_le _, hh5, hh6, hh7, hh8⟩, hx.2.1, hx.2.2⟩
    | exact ⟨hh1, hh2, hh3, Nat.zero_le _, hh5, hh6, hh7, hh8⟩
  · first | exact ⟨hs, rfl, rfl⟩ | exact hs

theorem cinv_delete_lines (s : TerminalState) (n : Nat) (hs : cursorInv s) :
    cursorInv (s.delete_lines n) ∧ (s.delete_lines n).rows = s.rows ∧
      (s.delete_lines n).cols = s.cols := by
  simp only [TerminalState.delete_lines]
  split_ifs with hreg
  · have hx := cinv_of_cfp
      (cfp_foldl (fun st (_ : Nat) => st.scrollUpCapture s.cursor.row s.scrollBottom)
        (fun st b => cfp_scrollUpCapture st _ _) (List.range n) s)
      hs
    obtain ⟨hh1, hh2, hh3, hh4, hh5, hh6, hh7, hh8⟩ := id hx.1
    first
    | exact ⟨⟨hh1, hh2, hh3, Nat.zero_le _, hh5, hh6, hh7, hh8⟩, hx.2.1, hx.2.2⟩
    | exact ⟨hh1, hh2, hh3, Nat.zero_le _, hh5, hh6, hh7, hh8⟩
  · first | exact ⟨hs, rfl, rfl⟩ | exact hs

theorem cinv_foldl {β : Type} (f : TerminalState → β → TerminalState)
    (h : ∀ (st : TerminalState) (b : β), cursorInv st →
      cursorInv (f st b) ∧ (f st b).rows = st.rows ∧ (f st b).cols = st.cols)
    (l : List β) (s : TerminalState) (hs : cursorInv s) :
    cursorInv (l.foldl f s) ∧ (l.foldl f s).rows = s.rows ∧ (l.foldl f s).cols = s.cols := by
  induction l generalizing s with
  | nil => exact ⟨hs, rfl, rfl⟩
  | cons b rest ih =>
      simp only [List.foldl_cons]
      obtain ⟨ha, hr, hc⟩ := h s b hs
      obtain ⟨ha2, hr2, hc2⟩ := ih (f s b) ha
      exact ⟨ha2, hr2.trans hr, hc2.trans hc⟩

theorem cinv_setDecModeOne (s : TerminalState) (p : Nat) (enable : Bool) (hs : cursorInv s) :
    cursorInv (s.setDecModeOne p enable) ∧ (s.setDecModeOne p enable).rows = s.rows ∧
      (s.setDecModeOne p enable).cols = s.cols := by
  obtain ⟨h1, h2, h3, h4, h5, h6, h7, h8⟩ := id hs
  simp only [TerminalState.setDecModeOne]
  by_cases hc0 : p = 1
  · rw [if_pos hc0]
    exact ⟨hs, rfl, rfl⟩
  rw [if_neg hc0]
  by_cases hc1 : p = 6
  · rw [if_pos hc1]
    by_cases hen : enable = true
    · rw [if_pos hen]
      exact ⟨⟨h1, h2, h5, Nat.zero_le _, h5, h6, h7, h8⟩, rfl, rfl⟩
    rw [if_neg hen]
    exact ⟨⟨h1, h2, h1, Nat.zero_le _, h5, h6, h7, h8⟩, rfl, rfl⟩
  rw [if_neg hc1]
  by_cases hc2 : p = 7
  · rw [if_pos hc2]
    exact ⟨hs, rfl, rfl⟩
  rw [if_neg hc2]
  by_cases hc3 : p = 12
  · rw [if_pos hc3]
    exact ⟨hs, rfl, rfl⟩
  rw [if_neg hc3]
  by_cases hc4 : p = 25
  · rw [if_pos hc4]
    exact ⟨hs, rfl, rfl⟩
  rw [if_neg hc4]
  by_cases hc5 : p = 47
  · rw [if_pos hc5]
    by_cases hen : enable = true
    · rw [if_pos hen]
      exact cinv_of_cfp (cfp_enter_alt_screen s) hs
    rw [if_neg hen]
    exact cinv_of_cfp (cfp_exit_alt_screen s) hs
  rw [if_neg hc5]
  by_cases hc6 : p = 1047
  · rw [if_pos hc6]
    by_cases hen : enable = true
    · rw [if_pos hen]
      have hA := cinv_of_cfp (cfp_enter_alt_screen s) hs
      have hB := cinv_clear_screen s.enter_alt_screen hA.1
      exact ⟨hB.1, hB.2.1.trans hA.2.1, hB.2.2.trans hA.2.2⟩
    rw [if_neg hen]
    exact cinv_of_cfp (cfp_exit_alt_screen s) hs
  rw [if_neg hc6]
  by_cases hc7 : p = 1048
  · rw [if_pos hc7]
    by_cases hen : enable = true
    · rw [if_pos hen]
      exact cinv_save_cursor s hs
    rw [if_neg hen]
    exact cinv_restore_cursor s hs
  rw [if_neg hc7]
  by_cases hc8 : p = 1000
  · rw [if_pos hc8]
    exact ⟨hs, rfl, rfl⟩
  rw [if_neg hc8]
  by_cases hc9 : p = 1002
  · rw [if_pos hc9]
    exact ⟨hs, rfl, rfl⟩
  rw [if_neg hc9]
  by_cases hc10 : p = 1003
  · rw [if_pos hc10]
    exact ⟨hs, rfl, rfl⟩
  rw [if_neg hc10]
  by_cases hc11 : p = 1004
  · rw [if_pos hc11]
    exact ⟨hs, rfl, rfl⟩
  rw [if_neg hc11]
  by_cases hc12 : p = 1005
  · rw [if_pos hc12]
    exact ⟨hs, rfl, rfl⟩
  rw [if_neg hc12]
  by_cases hc13 : p = 1006
  · rw [if_pos hc13]
    exact ⟨hs, rfl, rfl⟩
  rw [if_neg hc13]
  by_cases hc14 : p = 1007
  · rw [if_pos hc14]
    exact ⟨hs, rfl, rfl⟩
  rw [if_neg hc14]
  by_cases hc15 : p = 1049
  · rw [if_pos hc15]
    by_cases hen : enable = true
    · rw [if_pos hen]
      have hA := cinv_save_cursor s hs
      have hB := cinv_of_cfp (cfp_enter_alt_screen s.save_cursor) hA.1
      have hC := cinv_clear_screen s.save_cursor.enter_alt_screen hB.1
      exact ⟨hC.1, (hC.2.1.trans hB.2.1).trans hA.2.1, (hC.2.2.trans hB.2.2).trans hA.2.2⟩
    rw [if_neg hen]
    have hA := cinv_of_cfp (cfp_exit_alt_screen s) hs
    have hB := cinv_restore_cursor s.exit_alt_screen hA.1
    exact ⟨hB.1, hB.2.1.trans hA.2.1, hB.2.2.trans hA.2.2⟩
  rw [if_neg hc15]
  by_cases hc16 : p = 2004
  · rw [if_pos hc16]
    exact ⟨hs, rfl, rfl⟩
  rw [if_neg hc16]
  by_cases hc17 : p = 2026
  · rw [if_pos hc17]
    exact ⟨hs, rfl, rfl⟩
  rw [if_neg hc17]
  exact ⟨hs, rfl, rfl⟩

theorem cinv_set_dec_mode (s : TerminalState) (params : List Nat) (enable : Bool)
    (hs : cursorInv s) :
    cursorInv (s.set_dec_mode params enable) ∧ (s.set_dec_mode params enable).rows = s.rows ∧
      (s.set_dec_mode params enable).cols = s.cols := by
  unfold TerminalState.set_dec_mode
  exact cinv_foldl _ (fun st p hst => cinv_setDecModeOne st p enable hst) params s hs

theorem cinv_putCharWrap (s : TerminalState) (hs : cursorInv s) :
    cursorInv s.putCharWrap ∧ s.putCharWrap.cursor.col < s.putCharWrap.cols ∧
      s.putCharWrap.rows = s.rows ∧ s.putCharWrap.cols = s.cols := by
  obtain ⟨h1, h2, h3, h4, h5, h6, h7, h8⟩ := id hs
  unfold TerminalState.putCharWrap
  split_ifs with hc ha
  · have hcr := cinv_carriage_return s hs
    have hlf := cinv_linefeed s.carriage_return hcr.1
    refine ⟨hlf.1, ?_, hlf.2.2.1.trans hcr.2.1, hlf.2.2.2.trans hcr.2.2⟩
    have e1 : s.carriage_return.linefeed.cursor.col = 0 := hlf.2.1
    have e2 : s.carriage_return.linefeed.cols = s.cols := hlf.2.2.2.trans hcr.2.2
    omega
  · first
    | exact ⟨⟨h1, h2, h3, by show s.cols - 1 ≤ s.cols + 1; omega, h5, h6, h7, h8⟩,
        by show s.cols - 1 < s.cols; omega, rfl, rfl⟩
    | exact ⟨⟨h1, h2, h3, by show s.cols - 1 ≤ s.cols + 1; omega, h5, h6, h7, h8⟩,
        by show s.cols - 1 < s.cols; omega⟩
  · first
    | exact ⟨hs, by omega, rfl, rfl⟩
    | exact ⟨hs, by omega⟩

theorem cinv_putCharWrite (s : TerminalState) (c : Char) (w : Nat) (hw : w ≤ 2)
    (hcl : s.cursor.col < s.cols) (hs : cursorInv s) :
    cursorInv (s.putCharWrite c w) ∧ (s.putCharWrite c w).rows = s.rows ∧
      (s.putCharWrite c w).cols = s.cols := by
  obtain ⟨h1, h2, h3, h4, h5, h6, h7, h8⟩ := id hs
  simp only [TerminalState.putCharWrite]
  split_ifs with hins
  all_goals
    refine ⟨⟨?_, ?_, ?_, ?_, ?_, ?_, ?_, ?_⟩, ?_, ?_⟩ <;>
      simp only [cfp_withActiveGrid] <;>
      first
      | exact h1 | exact h2 | exact h3 | exact h5 | exact h6 | exact h7 | exact h8
      | omega

theorem cinv_putChar (s : TerminalState) (c : Char) (w : Nat) (hw : w ≤ 2) (hs : cursorInv s) :
    cursorInv (s.putChar c w) ∧ (s.putChar c w).rows = s.rows ∧
      (s.putChar c w).cols = s.cols := by
  have hA := cinv_putCharWrap s hs
  have hB := cinv_putCharWrite s.putCharWrap c w hw hA.2.1 hA.1
  exact ⟨hB.1, hB.2.1.trans hA.2.2.1, hB.2.2.trans hA.2.2.2⟩

theorem cinv_print (s : TerminalState) (c : Char) (w : Nat) (hw : w ≤ 2) (hs : cursorInv s) :
    cursorInv (s.print c w) ∧ (s.print c w).rows = s.rows ∧ (s.print c w).cols = s.cols := by
  obtain ⟨h1, h2, h3, h4, h5, h6, h7, h8⟩ := id hs
  simp only [TerminalState.print]
  exact cinv_putChar _ _ _ hw ⟨h1, h2, h3, h4, h5, h6, h7, hw⟩

theorem cinv_csiRep (s : TerminalState) (count : Nat) (hs : cursorInv s) :
    cursorInv (s.csiRep count) ∧ (s.csiRep count).rows = s.rows ∧
      (s.csiRep count).cols = s.cols := by
  obtain ⟨h1, h2, h3, h4, h5, h6, h7, h8⟩ := id hs
  simp only [TerminalState.csiRep]
  exact cinv_foldl _
    (fun st _ hst => cinv_putChar st s.lastPrintedChar s.lastPrintedWidth h8 hst)
    (List.range (min count 2048)) s hs

theorem cinv_execute (s : TerminalState) (b : Nat) (hs : cursorInv s) :
    cursorInv (s.execute b) ∧ (s.execute b).rows = s.rows ∧ (s.execute b).cols = s.cols := by
  simp only [TerminalState.execute]
  split_ifs with hbel hbs htab hlf hnl hcr
  · first | exact ⟨hs, rfl, rfl⟩ | exact hs
  · first | exact cinv_backspace s hs | exact (cinv_backspace s hs).1
  · first | exact cinv_tab s hs | exact (cinv_tab s hs).1
  · have hA := cinv_linefeed s hs
    have hB := cinv_carriage_return s.linefeed hA.1
    first
    | exact ⟨hB.1, hB.2.1.trans hA.2.2.1, hB.2.2.trans hA.2.2.2⟩
    | exact hB.1
  · first
    | exact ⟨(cinv_linefeed s hs).1, (cinv_linefeed s hs).2.2.1, (cinv_linefeed s hs).2.2.2⟩
    | exact (cinv_linefeed s hs).1
  · first | exact cinv_carriage_return s hs | exact (cinv_carriage_return s hs).1
  · first | exact ⟨hs, rfl, rfl⟩ | exact hs

theorem cinv_csiCup (s : TerminalState) (raw : List Nat) (hs : cursorInv s) :
    cursorInv (s.csiCup raw) ∧ (s.csiCup raw).rows = s.rows ∧ (s.csiCup raw).cols = s.cols := by
  obtain ⟨h1, h2, h3, h4, h5, h6, h7, h8⟩ := id hs
  simp only [TerminalState.csiCup]
  split_ifs with ho
  · first
    | exact ⟨⟨h1, h2,
        by show min (s.scrollTop + (param raw 0 1 - 1)) s.scrollBottom < s.rows; omega,
        by show min (param raw 1 1 - 1) (s.cols - 1) ≤ s.cols + 1; omega,
        h5, h6, h7, h8⟩, rfl, rfl⟩
    | exact ⟨h1, h2,
        by show min (s.scrollTop + (param raw 0 1 - 1)) s.scrollBottom < s.rows; omega,
        by show min (param raw 1 1 - 1) (s.cols - 1) ≤ s.cols + 1; omega,
        h5, h6, h7, h8⟩
  · first
    | exact ⟨⟨h1, h2,
        by show min (param raw 0 1 - 1) (s.rows - 1) < s.rows; omega,
        by show min (param raw 1 1 - 1) (s.cols - 1) ≤ s.cols + 1; omega,
        h5, h6, h7, h8⟩, rfl, rfl⟩
    | exact ⟨h1, h2,
        by show min (param raw 0 1 - 1) (s.rows - 1) < s.rows; omega,
        by show min (param raw 1 1 - 1) (s.cols - 1) ≤ s.cols + 1; omega,
        h5, h6, h7, h8⟩

theorem cinv_csiNextLine (s : TerminalState) (raw : List Nat) (hs : cursorInv s) :
    cursorInv (s.csiNextLine raw) ∧ (s.csiNextLine raw).rows = s.rows ∧
      (s.csiNextLine raw).cols = s.cols := by
  obtain ⟨h1, h2, h3, h4, h5, h6, h7, h8⟩ := id hs
  unfold TerminalState.csiNextLine
  exact cinv_cursor_down _ _ ⟨h1, h2, h3, Nat.zero_le _, h5, h6, h7, h8⟩

theorem cinv_csiPrevLine (s : TerminalState) (raw : List Nat) (hs : cursorInv s) :
    cursorInv (s.csiPrevLine raw) ∧ (s.csiPrevLine raw).rows = s.rows ∧
      (s.csiPrevLine raw).cols = s.cols := by
  obtain ⟨h1, h2, h3, h4, h5, h6, h7, h8⟩ := id hs
  unfold TerminalState.csiPrevLine
  exact cinv_cursor_up _ _ ⟨h1, h2, h3, Nat.zero_le _, h5, h6, h7, h8⟩

theorem cinv_csiHpa (s : TerminalState) (raw : List Nat) (hs : cursorInv s) :
    cursorInv (s.csiHpa raw) ∧ (s.csiHpa raw).rows = s.rows ∧ (s.csiHpa raw).cols = s.cols := by
  obtain ⟨h1, h2, h3, h4, h5, h6, h7, h8⟩ := id hs
  exact ⟨⟨h1, h2, h3, by show min (param raw 0 1 - 1) (s.cols - 1) ≤ s.cols + 1; omega,
    h5, h6, h7, h8⟩, rfl, rfl⟩

theorem cinv_csiVpa (s : TerminalState) (raw : List Nat) (hs : cursorInv s) :
    cursorInv (s.csiVpa raw) ∧ (s.csiVpa raw).rows = s.rows ∧ (s.csiVpa raw).cols = s.cols := by
  obtain ⟨h1, h2, h3, h4, h5, h6, h7, h8⟩ := id hs
  simp only [TerminalState.csiVpa]
  split_ifs with ho
  · first
    | exact ⟨⟨h1, h2,
        by show min (s.scrollTop + (param raw 0 1 - 1)) s.scrollBottom < s.rows; omega,
        h4, h5, h6, h7, h8⟩, rfl, rfl⟩
    | exact ⟨h1, h2,
        by show min (s.scrollTop + (param raw 0 1 - 1)) s.scrollBottom < s.rows; omega,
        h4, h5, h6, h7, h8⟩
  · first
    | exact ⟨⟨h1, h2, by show min (param raw 0 1 - 1) (s.rows - 1) < s.rows; omega,
        h4, h5, h6, h7, h8⟩, rfl, rfl⟩
    | exact ⟨h1, h2, by show min (param raw 0 1 - 1) (s.rows - 1) < s.rows; omega,
        h4, h5, h6, h7, h8⟩

theorem cinv_csiDecstbm (s : TerminalState) (raw : List Nat)
    (htop : param raw 0 1 ≤ s.rows) (hs : cursorInv s) :
    cursorInv (s.csiDecstbm raw) ∧ (s.csiDecstbm raw).rows = s.rows ∧
      (s.csiDecstbm raw).cols = s.cols := by
  obtain ⟨h1, h2, h3, h4, h5, h6, h7, h8⟩ := id hs
  simp only [TerminalState.csiDecstbm]
  split_ifs with ho
  · first
    | exact ⟨⟨h1, h2, by show param raw 0 1 - 1 < s.rows; omega, Nat.zero_le _,
        by show param raw 0 1 - 1 < s.rows; omega,
        by show min (param raw 1 s.rows - 1) (s.rows - 1) < s.rows; omega, h7, h8⟩, rfl, rfl⟩
    | exact ⟨h1, h2, by show param raw 0 1 - 1 < s.rows; omega, Nat.zero_le _,
        by show param raw 0 1 - 1 < s.rows; omega,
        by show min (param raw 1 s.rows - 1) (s.rows - 1) < s.rows; omega, h7, h8⟩
  · first
    | exact ⟨⟨h1, h2, h1, Nat.zero_le _, by show param raw 0 1 - 1 < s.rows; omega,
        by show min (param raw 1 s.rows - 1) (s.rows - 1) < s.rows; omega, h7, h8⟩, rfl, rfl⟩
    | exact ⟨h1, h2, h1, Nat.zero_le _, by show param raw 0 1 - 1 < s.rows; omega,
        by show min (param raw 1 s.rows - 1) (s.rows - 1) < s.rows; omega, h7, h8⟩

theorem cinv_csiDsr (s : TerminalState) (raw : List Nat) (hs : cursorInv s) :
    cursorInv (s.csiDsr raw) ∧ (s.csiDsr raw).rows = s.rows ∧ (s.csiDsr raw).cols = s.cols := by
  simp only [TerminalState.csiDsr]
  split_ifs <;> first | exact ⟨hs, rfl, rfl⟩ | exact hs

theorem cinv_csiDa1 (s : TerminalState) (raw : List Nat) (hs : cursorInv s) :
    cursorInv (s.csiDa1 raw) ∧ (s.csiDa1 raw).rows = s.rows ∧ (s.csiDa1 raw).cols = s.cols := by
  simp only [TerminalState.csiDa1]
  split_ifs <;> first | exact ⟨hs, rfl, rfl⟩ | exact hs

theorem cinv_csiDa2 (s : TerminalState) (raw : List Nat) (hs : cursorInv s) :
    cursorInv (s.csiDa2 raw) ∧ (s.csiDa2 raw).rows = s.rows ∧ (s.csiDa2 raw).cols = s.cols := by
  simp only [TerminalState.csiDa2]
  split_ifs <;> first | exact ⟨hs, rfl, rfl⟩ | exact hs

theorem cinv_csiDecscusr (s : TerminalState) (raw : List Nat) (hs : cursorInv s) :
    cursorInv (s.csiDecscusr raw) ∧ (s.csiDecscusr raw).rows = s.rows ∧
      (s.csiDecscusr raw).cols = s.cols := by
  simp only [TerminalState.csiDecscusr]
  split_ifs <;> first | exact ⟨hs, rfl, rfl⟩ | exact hs

theorem cinv_hookDcs (s : TerminalState) (ints : List Nat) (action : Char) (hs : cursorInv s) :
    cursorInv (s.hookDcs ints action) ∧ (s.hookDcs ints action).rows = s.rows ∧
      (s.hookDcs ints action).cols = s.cols := by
  simp only [TerminalState.hookDcs]
  split_ifs <;> first | exact ⟨hs, rfl, rfl⟩ | exact hs

theorem cinv_putDcs (s : TerminalState) (b : Nat) (hs : cursorInv s) :
    cursorInv (s.putDcs b) ∧ (s.putDcs b).rows = s.rows ∧ (s.putDcs b).cols = s.cols := by
  simp only [TerminalState.putDcs]
  split_ifs <;> first | exact ⟨hs, rfl, rfl⟩ | exact hs

theorem cinv_unhookDcs (s : TerminalState) (hs : cursorInv s) :
    cursorInv s.unhookDcs ∧ s.unhookDcs.rows = s.rows ∧ s.unhookDcs.cols = s.cols := by
  simp only [TerminalState.unhookDcs]
  split_ifs with hsix hdat
  · first | exact ⟨hs, rfl, rfl⟩ | exact hs
  · first | exact ⟨hs, rfl, rfl⟩ | exact hs
  · first
    | exact cinv_of_cfp (cfp_handle_dcs _ _ _ _) hs
    | exact (cinv_of_cfp (cfp_handle_dcs _ _ _ _) hs).1

theorem cinv_csi_dispatch (s : TerminalState) (raw ints : List Nat) (action : Char)
    (hsafe : action = 'r' → param raw 0 1 ≤ s.rows) (hs : cursorInv s) :
    cursorInv (s.csi_dispatch raw ints action) ∧
      (s.csi_dispatch raw ints action).rows = s.rows ∧
      (s.csi_dispatch raw ints action).cols = s.cols := by
  simp only [TerminalState.csi_dispatch]
  by_cases hc0 : action = 'p' ∧ ints.contains 0x24 = true
  · rw [if_pos hc0]
    by_cases hpv : ints.contains 0x3f = true
    · rw [if_pos hpv]
      exact cinv_of_cfp (cfp_report_dec_modes s raw) hs
    rw [if_neg hpv]
    exact cinv_of_cfp (cfp_report_ansi_modes s raw) hs
  rw [if_neg hc0]
  by_cases hc1 : action = 'c' ∧ ints.contains 0x3e = true
  · rw [if_pos hc1]
    exact cinv_csiDa2 s raw hs
  rw [if_neg hc1]
  by_cases hc2 : ints.contains 0x3f = true
  · rw [if_pos hc2]
    by_cases hdh : action = 'h'
    · rw [if_pos hdh]
      exact cinv_set_dec_mode s raw true hs
    rw [if_neg hdh]
    by_cases hdl : action = 'l'
    · rw [if_pos hdl]
      exact cinv_set_dec_mode s raw false hs
    rw [if_neg hdl]
    exact ⟨hs, rfl, rfl⟩
  rw [if_neg hc2]
  by_cases hc3 : action = 'A'
  · rw [if_pos hc3]
    exact cinv_cursor_up s (param raw 0 1) hs
  rw [if_neg hc3]
  by_cases hc4 : action = 'B'
  · rw [if_pos hc4]
    exact cinv_cursor_down s (param raw 0 1) hs
  rw [if_neg hc4]
  by_cases hc5 : action = 'C'
  · rw [if_pos hc5]
    exact cinv_cursor_forward s (param raw 0 1) hs
  rw [if_neg hc5]
  by_cases hc6 : action = 'D'
  · rw [if_pos hc6]
    exact cinv_cursor_backward s (param raw 0 1) hs
  rw [if_neg hc6]
  by_cases hc7 : action = 'E'
  · rw [if_pos hc7]
    exact cinv_csiNextLine s raw hs
  rw [if_neg hc7]
  by_cases hc8 : action = 'F'
  · rw [if_pos hc8]
    exact cinv_csiPrevLine s raw hs
  rw [if_neg hc8]
  by_cases hc9 : action = 'G'
  · rw [if_pos hc9]
    exact cinv_csiHpa s raw hs
  rw [if_neg hc9]
  by_cases hc10 : action = 'H' ∨ action = 'f'
  · rw [if_pos hc10]
    exact cinv_csiCup s raw hs
  rw [if_neg hc10]
  by_cases hc11 : action = 'J'
  · rw [if_pos hc11]
    exact cinv_of_cfp (cfp_erase_display s (param raw 0 0)) hs
  rw [if_neg hc11]
  by_cases hc12 : action = 'K'
  · rw [if_pos hc12]
    exact cinv_of_cfp (cfp_erase_line s (param raw 0 0)) hs
  rw [if_neg hc12]
  by_cases hc13 : action = 'L'
  · rw [if_pos hc13]
    exact cinv_insert_lines s (param raw 0 1) hs
  rw [if_neg hc13]
  by_cases hc14 : action = 'M'
  · rw [if_pos hc14]
    exact cinv_delete_lines s (param raw 0 1) hs
  rw [if_neg hc14]
  by_cases hc15 : action = 'P'
  · rw [if_pos hc15]
    exact cinv_of_cfp (cfp_delete_chars s (param raw 0 1)) hs
  rw [if_neg hc15]
  by_cases hc16 : action = 'S'
  · rw [if_pos hc16]
    exact cinv_of_cfp (cfp_scroll_up_n s (param raw 0 1)) hs
  rw [if_neg hc16]
  by_cases hc17 : action = 'T'
  · rw [if_pos hc17]
    exact cinv_of_cfp (cfp_scroll_down_n s (param raw 0 1)) hs
  rw [if_neg hc17]
  by_cases hc18 : action = 'X'
  · rw [if_pos hc18]
    exact cinv_of_cfp (cfp_erase_chars s (param raw 0 1)) hs
  rw [if_neg hc18]
  by_cases hc19 : action = '@'
  · rw [if_pos hc19]
    exact cinv_of_cfp (cfp_insert_chars s (param raw 0 1)) hs
  rw [if_neg hc19]
  by_cases hc20 : action = 'd'
  · rw [if_pos hc20]
    exact cinv_csiVpa s raw hs
  rw [if_neg hc20]
  by_cases hc21 : action = 'm'
  · rw [if_pos hc21]
    exact cinv_handle_sgr s raw hs
  rw [if_neg hc21]
  by_cases hc22 : action = 'r'
  · rw [if_pos hc22]
    exact cinv_csiDecstbm s raw (hsafe hc22) hs
  rw [if_neg hc22]
  by_cases hc23 : action = 'h'
  · rw [if_pos hc23]
    exact cinv_of_cfp (cfp_set_mode s raw true) hs
  rw [if_neg hc23]
  by_cases hc24 : action = 'l'
  · rw [if_pos hc24]
    exact cinv_of_cfp (cfp_set_mode s raw false) hs
  rw [if_neg hc24]
  by_cases hc25 : action = 'n'
  · rw [if_pos hc25]
    exact cinv_csiDsr s raw hs
  rw [if_neg hc25]
  by_cases hc26 : action = 'c'
  · rw [if_pos hc26]
    exact cinv_csiDa1 s raw hs
  rw [if_neg hc26]
  by_cases hc27 : action = 's'
  · rw [if_pos hc27]
    exact cinv_save_cursor s hs
  rw [if_neg hc27]
  by_cases hc28 : action = 'u'
  · rw [if_pos hc28]
    exact cinv_restore_cursor s hs
  rw [if_neg hc28]
  by_cases hc29 : action = 'q'
  · rw [if_pos hc29]
    by_cases hsp : ints.contains 0x20 = true
    · rw [if_pos hsp]
      exact cinv_csiDecscusr s raw hs
    rw [if_neg hsp]
    exact ⟨hs, rfl, rfl⟩
  rw [if_neg hc29]
  by_cases hc30 : action = 'b'
  · rw [if_pos hc30]
    exact cinv_csiRep s (param raw 0 1) hs
  rw [if_neg hc30]
  exact ⟨hs, rfl, rfl⟩

theorem cinv_esc_dispatch (s : TerminalState) (ints : List Nat) (b : Nat) (hs : cursorInv s) :
    cursorInv (s.esc_dispatch ints b) ∧ (s.esc_dispatch ints b).rows = s.rows ∧
      (s.esc_dispatch ints b).cols = s.cols := by
  obtain ⟨h1, h2, h3, h4, h5, h6, h7, h8⟩ := id hs
  simp only [TerminalState.esc_dispatch]
  by_cases hc0 : b = 0x63 ∧ ints = []
  · rw [if_pos hc0]
    by_cases hua : s.usingAlt = true
    · rw [if_pos hua]
      exact ⟨⟨h1, h2, h1, Nat.zero_le _, h1, by show s.rows - 1 < s.rows; omega, trivial,
        by show (1 : Nat) ≤ 2; omega⟩, rfl, rfl⟩
    rw [if_neg hua]
    exact ⟨⟨h1, h2, h1, Nat.zero_le _, h1, by show s.rows - 1 < s.rows; omega, trivial,
      by show (1 : Nat) ≤ 2; omega⟩, rfl, rfl⟩
  rw [if_neg hc0]
  by_cases hc1 : b = 0x44 ∧ ints = []
  · rw [if_pos hc1]
    exact ⟨(cinv_linefeed s hs).1, (cinv_linefeed s hs).2.2.1, (cinv_linefeed s hs).2.2.2⟩
  rw [if_neg hc1]
  by_cases hc2 : b = 0x45 ∧ ints = []
  · rw [if_pos hc2]
    have hA := cinv_carriage_return s hs
    have hB := cinv_linefeed s.carriage_return hA.1
    exact ⟨hB.1, hB.2.2.1.trans hA.2.1, hB.2.2.2.trans hA.2.2⟩
  rw [if_neg hc2]
  by_cases hc3 : b = 0x48 ∧ ints = []
  · rw [if_pos hc3]
    by_cases htb : s.cursor.col < s.tabStops.length
    · rw [if_pos htb]
      exact ⟨hs, rfl, rfl⟩
    rw [if_neg htb]
    exact ⟨hs, rfl, rfl⟩
  rw [if_neg hc3]
  by_cases hc4 : b = 0x4d ∧ ints = []
  · rw [if_pos hc4]
    exact cinv_reverse_index s hs
  rw [if_neg hc4]
  by_cases hc5 : b = 0x37 ∧ ints = []
  · rw [if_pos hc5]
    exact cinv_save_cursor s hs
  rw [if_neg hc5]
  by_cases hc6 : b = 0x38 ∧ ints = []
  · rw [if_pos hc6]
    exact cinv_restore_cursor s hs
  rw [if_neg hc6]
  by_cases hc7 : b = 0x3d ∧ ints = []
  · rw [if_pos hc7]
    exact ⟨hs, rfl, rfl⟩
  rw [if_neg hc7]
  by_cases hc8 : b = 0x3e ∧ ints = []
  · rw [if_pos hc8]
    exact ⟨hs, rfl, rfl⟩
  rw [if_neg hc8]
  by_cases hc9 : b = 0x30 ∧ ints = [0x28]
  · rw [if_pos hc9]
    exact ⟨hs, rfl, rfl⟩
  rw [if_neg hc9]
  by_cases hc10 : b = 0x42 ∧ ints = [0x28]
  · rw [if_pos hc10]
    exact ⟨hs, rfl, rfl⟩
  rw [if_neg hc10]
  exact ⟨hs, rfl, rfl⟩

theorem cinv_step (s : TerminalState) (op : Op) (hs : cursorInv s)
    (hop : op.safeFor s.rows) :
    cursorInv (step s op) ∧ (step s op).rows = s.rows ∧ (step s op).cols = s.cols := by
  cases op with
  | print c w => exact cinv_print s c w hop hs
  | execute b => exact cinv_execute s b hs
  | csi p i a => exact cinv_csi_dispatch s p i a hop hs
  | osc p fid clip => exact cinv_of_cfp (cfp_handle_osc s p fid clip) hs
  | esc i b => exact cinv_esc_dispatch s i b hs
  | hook i a => exact cinv_hookDcs s i a hs
  | put b => exact cinv_putDcs s b hs
  | unhook => exact cinv_unhookDcs s hs
  | resizeTo r c => exact False.elim hop
  | snapshot => exact False.elim hop

theorem cinv_run (s : TerminalState) (ops : List Op) (hs : cursorInv s)
    (hops : ∀ op ∈ ops, op.safeFor s.rows) :
    cursorInv (run s ops) ∧ (run s ops).rows = s.rows ∧ (run s ops).cols = s.cols := by
  induction ops generalizing s with
  | nil => exact ⟨hs, rfl, rfl⟩
  | cons op rest ih =>
      have h1 := cinv_step s op hs (hops op (List.mem_cons_self op rest))
      have h2 := ih (step s op) h1.1
        (fun o ho => by rw [h1.2.1]; exact hops o (List.mem_cons_of_mem op ho))
      exact ⟨h2.1, h2.2.1.trans h1.2.1, h2.2.2.trans h1.2.2⟩

/-- C2 (counterexample): two valid byte streams break the claimed cursor
bounds on a fresh 24×80 terminal.  `ESC [ 100 r` stores the unclamped
DECSTBM top 99, and `ESC [ ? 6 h` (origin mode on) homes the cursor to it,
leaving `cursor.row = 99 ≥ 24`.  Separately, `ESC [ 1 ; 80 H` then
printing a width-2 CJK character in the last column leaves
`cursor.col = 81 > 80`. -/
theorem c2_cursor_bounds_counterexample :
    (run (TerminalState.new 24 80) [Op.csi [100] [] 'r', Op.csi [6] [0x3f] 'h']).cursor.row
        = 99 ∧
      ¬((run (TerminalState.new 24 80)
            [Op.csi [100] [] 'r', Op.csi [6] [0x3f] 'h']).cursor.row < 24) ∧
      (run (TerminalState.new 24 80)
            [Op.csi [1, 80] [] 'H', Op.print (Char.ofNat 0x4E00) 2]).cursor.col = 81 ∧
      ¬((run (TerminalState.new 24 80)
            [Op.csi [1, 80] [] 'H', Op.print (Char.ofNat 0x4E00) 2]).cursor.col ≤ 80) := by
  exact ⟨rfl, by decide, rfl, by decide⟩

/-- C2 (amended): feeding any stream of parser callbacks to a fresh `r`×`c`
terminal (`r, c ≥ 1`) keeps `cursor.row < r`, provided every DECSTBM top
parameter stays within the screen height; the column satisfies the weaker
bound `cursor.col ≤ c + 1` (printing a wide character in the last column
leaves the cursor one past the right edge, so `col ≤ c` does not hold). -/
theorem c2_cursor_bounds_amended (r c : Nat) (ops : List Op) (hr : 1 ≤ r) (hc : 1 ≤ c)
    (hops : ∀ op ∈ ops, op.safeFor r) :
    (run (TerminalState.new r c) ops).cursor.row < r ∧
      (run (TerminalState.new r c) ops).cursor.col ≤ c + 1 := by
  have hs : cursorInv (TerminalState.new r c) :=
    ⟨hr, hc, hr, Nat.zero_le _, hr, by show r - 1 < r; omega, trivial,
      by show (1 : Nat) ≤ 2; omega⟩
  have h := cinv_run (TerminalState.new r c) ops hs hops
  obtain ⟨⟨_, _, h3, h4, _, _, _, _⟩, hrw, hcl⟩ := h
  rw [hrw] at h3
  rw [hcl] at h4
  exact ⟨h3, h4⟩

/-- C2 (witness): the amended bound applied to a concrete stream — home
the cursor, print a normal character, and set a DECSTBM region within the
24-row screen. -/
theorem c2_cursor_bounds_amended_witness :
    (∀ op ∈ [Op.csi [2, 2] [] 'H', Op.print 'A' 1, Op.csi [6, 21] [] 'r'],
        Op.safeFor 24 op) ∧
      (run (TerminalState.new 24 80)
          [Op.csi [2, 2] [] 'H', Op.print 'A' 1, Op.csi [6, 21] [] 'r']).cursor.row < 24 ∧
      (run (TerminalState.new 24 80)
          [Op.csi [2, 2] [] 'H', Op.print 'A' 1, Op.csi [6, 21] [] 'r']).cursor.col ≤ 81 :=
  ⟨by decide,
    c2_cursor_bounds_amended 24 80 [Op.csi [2, 2] [] 'H', Op.print 'A' 1, Op.csi [6, 21] [] 'r']
      (by decide) (by decide) (by decide)⟩


/-!
### C3: wide characters and their spacers
-/

/-- The two cell writes of a wide print land at `(row, col)` and
`(row, col + 1)` of the visible area. -/
theorem cellAt_set_cell_pair (g : Grid) (row col : Nat) (c1 c2 : Cell) (r0 : Row)
    (hc : col + 1 < g.cols) (hr : row < g.visibleRows)
    (hrow : g.rows[g.visibleOffset + row]? = some r0) (hlen : col + 1 < r0.cells.length) :
    ((g.set_cell row col c1).set_cell row (col + 1) c2).cellAt row col = some c1 ∧
      ((g.set_cell row col c1).set_cell row (col + 1) c2).cellAt row (col + 1) = some c2 := by
  unfold Grid.set_cell Grid.cellAt Grid.visibleOffset
  rw [if_pos (⟨by omega, hr⟩ : col < g.cols ∧ row < g.visibleRows)]
  rw [if_pos (⟨hc, hr⟩ : col + 1 < g.cols ∧ row < g.visibleRows)]
  simp only [List.length_modify, List.getElem?_modify, hrow, Option.map_some]
  have hrow2 : g.rows[g.rows.length - g.visibleRows + row]? = some r0 := hrow
  constructor
  · simp only [hrow2, Option.map_some, if_true]
    rw [List.getElem?_set_ne (by omega), List.getElem?_set_self (by omega)]
  · simp only [hrow2, Option.map_some, if_true]
    rw [List.getElem?_set_self (by simpa using hlen)]

/-- The active grid after `withActiveGrid` is the transformed grid. -/
theorem activeGrid_withActiveGrid (s : TerminalState) (f : Grid → Grid) :
    (s.withActiveGrid f).activeGrid = f s.activeGrid := by
  unfold TerminalState.withActiveGrid TerminalState.setActiveGrid TerminalState.activeGrid
  split <;> simp

/-- C3 (counterexample): printing a width-2 character in the last column
writes the WIDE_CHAR cell but no spacer (the spacer write is guarded by
`col + 1 < cols`), so a WIDE_CHAR cell does sit in the last column with
nothing after it.  On a 1×2 screen, print `A` then a CJK character. -/
theorem c3_wide_char_counterexample :
    (run (TerminalState.new 1 2) [Op.print 'A' 1, Op.print (Char.ofNat 0x4E00) 2]).cols = 2 ∧
      ((run (TerminalState.new 1 2)
          [Op.print 'A' 1, Op.print (Char.ofNat 0x4E00) 2]).activeGrid.cellAt 0 1).map
        (fun cl => cl.flags.wideChar) = some true ∧
      ((run (TerminalState.new 1 2)
          [Op.print 'A' 1, Op.print (Char.ofNat 0x4E00) 2]).activeGrid.cellAt 0 2) = none := by
  exact ⟨rfl, rfl, rfl⟩

/-- Updating only the cursor column leaves the active grid unchanged. -/
theorem activeGrid_cursor_col (s : TerminalState) (v : Nat) :
    ({ s with cursor.col := v } : TerminalState).activeGrid = s.activeGrid := rfl

/-- C3 (amended): the invariant holds locally for writes strictly inside
the line: with insert mode off, the shared cell-writing body of `print`
and CSI REP, at a column with `col + 1 < cols`, writes the WIDE_CHAR cell
at `(row, col)` and the WIDE_SPACER cell immediately after it at
`(row, col + 1)`.  (In the last column the spacer write is skipped — see
the counterexample.) -/
theorem c3_wide_print_amended (s : TerminalState) (c : Char) (r0 : Row)
    (hins : s.modes.insert = false)
    (hcol : s.cursor.col + 1 < s.cols)
    (hgc : s.cursor.col + 1 < s.activeGrid.cols)
    (hgr : s.cursor.row < s.activeGrid.visibleRows)
    (hrow : s.activeGrid.rows[s.activeGrid.visibleOffset + s.cursor.row]? = some r0)
    (hlen : s.cursor.col + 1 < r0.cells.length) :
    (s.putChar c 2).activeGrid.cellAt s.cursor.row s.cursor.col =
        some { c := c, fg := s.cursor.fg, bg := s.cursor.bg, attrs := s.cursor.attrs,
               flags := { wideChar := true } } ∧
      (s.putChar c 2).activeGrid.cellAt s.cursor.row (s.cursor.col + 1) =
        some Cell.wide_spacer := by
  have hwrap : s.putCharWrap = s := by
    unfold TerminalState.putCharWrap
    rw [if_neg (by omega : ¬(s.cols ≤ s.cursor.col))]
  unfold TerminalState.putChar
  rw [hwrap]
  simp only [TerminalState.putCharWrite, hins, Bool.false_eq_true, if_false,
    if_pos (⟨rfl, hcol⟩ : (2 : Nat) = 2 ∧ s.cursor.col + 1 < s.cols)]
  rw [activeGrid_cursor_col, activeGrid_withActiveGrid]
  simp only [if_true]
  rw [if_pos (⟨trivial, hcol⟩ : True ∧ s.cursor.col + 1 < s.cols)]
  exact cellAt_set_cell_pair s.activeGrid s.cursor.row s.cursor.col _ _ r0 hgc hgr hrow hlen

/-- C3 (witness): the amended postcondition on a fresh 2×4 screen. -/
theorem c3_wide_print_amended_witness :
    ((TerminalState.new 2 4).modes.insert = false ∧
      (TerminalState.new 2 4).cursor.col + 1 < (TerminalState.new 2 4).cols ∧
      (TerminalState.new 2 4).activeGrid.rows[(TerminalState.new 2 4).activeGrid.visibleOffset
          + (TerminalState.new 2 4).cursor.row]? = some (Row.new 4)) ∧
      ((TerminalState.new 2 4).putChar (Char.ofNat 0x4E00) 2).activeGrid.cellAt 0 0 =
        some { c := Char.ofNat 0x4E00, flags := { wideChar := true } } ∧
      ((TerminalState.new 2 4).putChar (Char.ofNat 0x4E00) 2).activeGrid.cellAt 0 1 =
        some Cell.wide_spacer := by
  refine ⟨⟨rfl, by decide, rfl⟩, ?_⟩
  have h := c3_wide_print_amended (TerminalState.new 2 4) (Char.ofNat 0x4E00) (Row.new 4)
    rfl (by decide) (by decide) (by decide) rfl (by decide)
  simpa using h


/-!
### C4: ED 3 clears only the scrolled-off buffer
-/

/-- C4 (counterexample): after scrolling one line off a 2×2 screen, ED 3
empties `scrolled_off_buffer` and queues `ScrollbackCleared`, but the grid
deque still holds its scrollback row above the visible area (3 rows for 2
visible), so the scrollback is not fully cleared. -/
theorem c4_ed3_counterexample :
    (run (TerminalState.new 2 2)
        [Op.print 'A' 1, Op.execute 0x0A, Op.execute 0x0A, Op.csi [3] [] 'J']).grid.rows.length
      = 3 ∧
      (run (TerminalState.new 2 2)
          [Op.print 'A' 1, Op.execute 0x0A, Op.execute 0x0A,
            Op.csi [3] [] 'J']).grid.visibleRows = 2 ∧
      (run (TerminalState.new 2 2)
          [Op.print 'A' 1, Op.execute 0x0A, Op.execute 0x0A,
            Op.csi [3] [] 'J']).scrolledOffBuffer = [] ∧
      (run (TerminalState.new 2 2)
          [Op.print 'A' 1, Op.execute 0x0A, Op.execute 0x0A,
            Op.csi [3] [] 'J']).pendingTerminalEvents = [TerminalEvent.scrollbackCleared] := by
  exact ⟨rfl, rfl, rfl, rfl⟩

/-- C4 (amended): CSI 3 J is exactly the state update that empties the
scrolled-off line buffer and queues one `ScrollbackCleared` event; every
other field — in particular the grid (including its scrollback rows above
the visible area), the cursor, and the visible rows — is unchanged. -/
theorem c4_ed3_amended (s : TerminalState) :
    step s (Op.csi [3] [] 'J') =
      { s with scrolledOffBuffer := [],
               pendingTerminalEvents :=
                 s.pendingTerminalEvents ++ [TerminalEvent.scrollbackCleared] } := by
  rfl

/-!
### C5: `Grid::scroll_up`
-/

/-- Position-level description of `List.insertIdx`. -/
theorem insertIdx_getElem? {α : Type} (l : List α) (x : α) (n j : Nat) (hn : n ≤ l.length) :
    (List.insertIdx n x l)[j]? =
      if j < n then l[j]? else if j = n then some x else l[j - 1]? := by
  induction l generalizing n j with
  | nil =>
      have hn0 : n = 0 := Nat.le_zero.mp hn
      subst hn0
      have h1 : List.insertIdx 0 x ([] : List α) = [x] := rfl
      rw [h1]
      cases j with
      | zero => simp
      | succ i => simp
  | cons a t ih =>
      cases n with
      | zero =>
          have h1 : List.insertIdx 0 x (a :: t) = x :: a :: t := rfl
          rw [h1]
          cases j with
          | zero => simp
          | succ i => simp
      | succ m =>
          rw [List.insertIdx_succ_cons]
          cases j with
          | zero => simp
          | succ i =>
              have hm : m ≤ t.length := by simpa using hn
              simp only [List.getElem?_cons_succ, ih m i hm]
              by_cases h1 : i < m
              · rw [if_pos (by omega : i + 1 < m + 1), if_pos h1]
              · rw [if_neg (by omega : ¬(i + 1 < m + 1)), if_neg h1]
                by_cases h2 : i = m
                · rw [if_pos (by omega : i + 1 = m + 1), if_pos h2]
                · rw [if_neg (by omega : ¬(i + 1 = m + 1)), if_neg h2]
                  have h3 : i + 1 - 1 = (i - 1) + 1 := by omega
                  rw [h3]
                  simp

/-- The fold of `markDirtyRange` only sets dirty flags on the addressed
indices. -/
theorem foldl_markDirty_getElem? (top : Nat) (ks : List Nat) (g : Grid) (j : Nat) :
    ((ks.foldl (fun g2 k =>
        { g2 with rows := (List.modify (fun r => { r with dirty := true })
            (g2.visibleOffset + (top + k)) g2.rows) }) g)).rows[j]? =
      if ∃ k ∈ ks, g.visibleOffset + (top + k) = j then
        (g.rows[j]?).map (fun r => { r with dirty := true })
      else g.rows[j]? := by
  induction ks generalizing g with
  | nil => simp
  | cons k ks ih =>
      rw [List.foldl_cons, ih]
      have hoff : ({ g with rows := (List.modify (fun r => { r with dirty := true })
          (g.visibleOffset + (top + k)) g.rows) } : Grid).visibleOffset = g.visibleOffset := by
        simp [Grid.visibleOffset, List.length_modify]
      rw [hoff]
      by_cases h1 : g.visibleOffset + (top + k) = j
      · rw [if_pos (⟨k, List.mem_cons_self k ks, h1⟩ :
          ∃ k2 ∈ k :: ks, g.visibleOffset + (top + k2) = j)]
        by_cases h2 : ∃ k2 ∈ ks, g.visibleOffset + (top + k2) = j
        · rw [if_pos h2]
          show ((List.modify (fun r => { r with dirty := true })
            (g.visibleOffset + (top + k)) g.rows)[j]?).map _ = _
          rw [List.getElem?_modify, h1]
          cases g.rows[j]? <;> simp
        · rw [if_neg h2]
          show (List.modify (fun r => { r with dirty := true })
            (g.visibleOffset + (top + k)) g.rows)[j]? = _
          rw [List.getElem?_modify, h1]
          cases g.rows[j]? <;> simp
      · by_cases h2 : ∃ k2 ∈ ks, g.visibleOffset + (top + k2) = j
        · rw [if_pos h2, if_pos ?side1]
          case side1 =>
            obtain ⟨k2, hk2, he⟩ := h2
            exact ⟨k2, List.mem_cons_of_mem k hk2, he⟩
          show ((List.modify (fun r => { r with dirty := true })
            (g.visibleOffset + (top + k)) g.rows)[j]?).map _ = _
          rw [List.getElem?_modify]
          cases g.rows[j]? with
          | none => simp
          | some r => simp [h1]
        · rw [if_neg h2, if_neg ?side2]
          case side2 =>
            intro hcon
            obtain ⟨k2, hk2, he⟩ := hcon
            rcases List.mem_cons.mp hk2 with hk | hk
            · exact h1 (hk ▸ he)
            · exact h2 ⟨k2, hk, he⟩
          show (List.modify (fun r => { r with dirty := true })
            (g.visibleOffset + (top + k)) g.rows)[j]? = _
          rw [List.getElem?_modify]
          cases g.rows[j]? with
          | none => simp
          | some r => simp [h1]

/-- The fold of `markDirtyRange` keeps all grid dimensions. -/
theorem foldl_markDirty_dims (top : Nat) (ks : List Nat) (g : Grid) :
    ((ks.foldl (fun g2 k =>
        { g2 with rows := (List.modify (fun r => { r with dirty := true })
            (g2.visibleOffset + (top + k)) g2.rows) }) g)).cols = g.cols ∧
      ((ks.foldl (fun g2 k =>
        { g2 with rows := (List.modify (fun r => { r with dirty := true })
            (g2.visibleOffset + (top + k)) g2.rows) }) g)).visibleRows = g.visibleRows ∧
      ((ks.foldl (fun g2 k =>
        { g2 with rows := (List.modify (fun r => { r with dirty := true })
            (g2.visibleOffset + (top + k)) g2.rows) }) g)).rows.length = g.rows.length ∧
      ((ks.foldl (fun g2 k =>
        { g2 with rows := (List.modify (fun r => { r with dirty := true })
            (g2.visibleOffset + (top + k)) g2.rows) }) g)).scrollbackLimit
        = g.scrollbackLimit := by
  induction ks generalizing g with
  | nil => exact ⟨rfl, rfl, rfl, rfl⟩
  | cons k ks ih =>
      rw [List.foldl_cons]
      refine ⟨(ih _).1.trans rfl, (ih _).2.1.trans rfl, (ih _).2.2.1.trans ?_,
        (ih _).2.2.2.trans rfl⟩
      simp [List.length_modify]

/-- Projection helpers for grids whose rows were replaced. -/
theorem rows_update (g : Grid) (X : List Row) : ({ g with rows := X } : Grid).rows = X := rfl

theorem visibleRows_update (g : Grid) (X : List Row) :
    ({ g with rows := X } : Grid).visibleRows = g.visibleRows := rfl

theorem cols_update (g : Grid) (X : List Row) :
    ({ g with rows := X } : Grid).cols = g.cols := rfl

theorem visibleOffset_eq (g : Grid) : g.visibleOffset = g.rows.length - g.visibleRows := rfl

/-- Every row of a fresh grid has exactly `cols` cells. -/
theorem cells_length_new (R C : Nat) :
    ∀ (i : Nat) (r : Row), (Grid.new R C).rows[i]? = some r → r.cells.length = C := by
  intro i r hir
  simp only [Grid.new] at hir
  rw [List.getElem?_replicate] at hir
  split at hir
  · rw [Option.some_inj] at hir
    rw [← hir]
    simp [Row.new]
  · exact absurd hir (by simp)

/-- `markDirtyRange` positionally: rows in the addressed window get their
dirty flag set, all others are untouched. -/
theorem markDirtyRange_getElem? (g : Grid) (top bottom j : Nat) :
    (g.markDirtyRange top bottom).rows[j]? =
      if g.visibleOffset + top ≤ j ∧ j < g.visibleOffset + (bottom + 1) ∧ top ≤ bottom then
        (g.rows[j]?).map (fun r => { r with dirty := true })
      else g.rows[j]? := by
  have h := foldl_markDirty_getElem? top (List.range (bottom + 1 - top)) g j
  have h2 : (g.markDirtyRange top bottom).rows[j]? = _ := h
  rw [h2]
  by_cases hin : g.visibleOffset + top ≤ j ∧ j < g.visibleOffset + (bottom + 1) ∧ top ≤ bottom
  · rw [if_pos hin, if_pos ?side3]
    case side3 =>
      refine ⟨j - (g.visibleOffset + top), ?_, by omega⟩
      rw [List.mem_range]
      omega
  · rw [if_neg hin, if_neg ?side4]
    case side4 =>
      intro hcon
      obtain ⟨k, hk, he⟩ := hcon
      rw [List.mem_range] at hk
      exact hin (by omega)

theorem markDirtyRange_dims (g : Grid) (top bottom : Nat) :
    (g.markDirtyRange top bottom).cols = g.cols ∧
      (g.markDirtyRange top bottom).visibleRows = g.visibleRows ∧
      (g.markDirtyRange top bottom).rows.length = g.rows.length ∧
      (g.markDirtyRange top bottom).scrollbackLimit = g.scrollbackLimit :=
  foldl_markDirty_dims top (List.range (bottom + 1 - top)) g

/-- A sublist keeps the cells-per-row count. -/
theorem cellsP_of_subset {l l0 : List Row} {C : Nat} (hsub : l ⊆ l0)
    (hl : ∀ (i : Nat) (r : Row), l0[i]? = some r → r.cells.length = C) :
    ∀ (i : Nat) (r : Row), l[i]? = some r → r.cells.length = C := by
  intro i r hir
  obtain ⟨j, hj⟩ := List.mem_iff_getElem?.mp (hsub (List.mem_iff_getElem?.mpr ⟨i, hir⟩))
  exact hl j r hj

/-- Inserting a `cols`-wide row keeps the cells-per-row count. -/
theorem cellsP_insertIdx {l : List Row} {C : Nat} (n : Nat) (x : Row) (hn : n ≤ l.length)
    (hl : ∀ (i : Nat) (r : Row), l[i]? = some r → r.cells.length = C)
    (hx : x.cells.length = C) :
    ∀ (i : Nat) (r : Row), (List.insertIdx n x l)[i]? = some r → r.cells.length = C := by
  intro i r hir
  have hm : r ∈ List.insertIdx n x l := List.mem_iff_getElem?.mpr ⟨i, hir⟩
  rcases (List.mem_insertIdx hn).mp hm with h | h
  · rw [h]; exact hx
  · obtain ⟨j, hj⟩ := List.mem_iff_getElem?.mp h
    exact hl j r hj

/-- C5: `Grid::scroll_up` on a well-formed grid with a valid region.
With `top = 0` it returns the rendered spans of the previous visible row
0, shifts the visible window down past that row (keeping it as
scrollback), inserts a blank row at the region bottom, and trims the
deque to at most `visible_rows + scrollback_limit` rows; with `top > 0`
it returns `none` and removes the region-top row while shifting the
region up and inserting a blank at the region bottom, leaving everything
outside the region untouched.  In both cases every stored row still has
exactly `cols` cells. -/
theorem c5_scroll_up (g : Grid) (top bottom : Nat)
    (hwf : g.visibleRows ≤ g.rows.length)
    (htb : top ≤ bottom) (hbv : bottom < g.visibleRows)
    (hcells : ∀ (i : Nat) (r : Row), g.rows[i]? = some r → r.cells.length = g.cols) :
    (top = 0 →
      (g.scroll_up top bottom).1 =
          some { index := 0,
                 spans := (g.rows.getD g.visibleOffset (Row.new 0)).to_styled_spans } ∧
        (g.scroll_up top bottom).2.rows.length =
          min (g.rows.length + 1) (g.visibleRows + g.scrollbackLimit) ∧
        (g.scroll_up top bottom).2.rows.length ≤ g.visibleRows + g.scrollbackLimit ∧
        (g.rows.length + 1 ≤ g.visibleRows + g.scrollbackLimit →
          (g.scroll_up top bottom).2.visibleOffset = g.visibleOffset + 1 ∧
          (g.scroll_up top bottom).2.rows[g.visibleOffset]? = g.rows[g.visibleOffset]? ∧
          (g.scroll_up top bottom).2.rows[g.visibleOffset + 1 + bottom]? =
            some (Row.new g.cols))) ∧
    (0 < top →
      (g.scroll_up top bottom).1 = none ∧
        (g.scroll_up top bottom).2.rows.length = g.rows.length ∧
        (∀ j, j < g.visibleOffset + top → (g.scroll_up top bottom).2.rows[j]? = g.rows[j]?) ∧
        (∀ k, top ≤ k → k < bottom →
          (g.scroll_up top bottom).2.rows[g.visibleOffset + k]? =
            (g.rows[g.visibleOffset + k + 1]?).map (fun r => { r with dirty := true })) ∧
        (g.scroll_up top bottom).2.rows[g.visibleOffset + bottom]? = some (Row.new g.cols) ∧
        (∀ j, g.visibleOffset + bottom < j → (g.scroll_up top bottom).2.rows[j]? = g.rows[j]?)) ∧
    (g.scroll_up top bottom).2.cols = g.cols ∧
    (∀ (i : Nat) (r : Row),
      (g.scroll_up top bottom).2.rows[i]? = some r → r.cells.length = g.cols) := by
  have hoff : g.visibleOffset = g.rows.length - g.visibleRows := rfl
  have hguard : ¬(g.visibleOffset + top > g.visibleOffset + bottom ∨
      g.visibleOffset + bottom ≥ g.rows.length) := by
    rw [hoff]; omega
  by_cases ht0 : top = 0
  · subst ht0
    have hrw : g.scroll_up 0 bottom =
        (some { index := 0,
                spans := (g.rows.getD (g.visibleOffset + 0) (Row.new 0)).to_styled_spans },
         ({ g with rows :=
              ((g.rows.insertIdx (g.visibleOffset + bottom + 1) (Row.new g.cols)).drop
                ((g.rows.insertIdx (g.visibleOffset + bottom + 1) (Row.new g.cols)).length -
                  (g.visibleRows + g.scrollbackLimit))) } : Grid).markDirtyRange 0 bottom) := by
      simp only [Grid.scroll_up]
      rw [if_neg hguard, if_true]
    have hrw1 : (g.scroll_up 0 bottom).1 =
        some { index := 0,
               spans := (g.rows.getD (g.visibleOffset + 0) (Row.new 0)).to_styled_spans } := by
      rw [hrw]
    have hrw2 : (g.scroll_up 0 bottom).2 =
        Grid.markDirtyRange ({ g with rows :=
            ((g.rows.insertIdx (g.visibleOffset + bottom + 1) (Row.new g.cols)).drop
              ((g.rows.insertIdx (g.visibleOffset + bottom + 1) (Row.new g.cols)).length -
                (g.visibleRows + g.scrollbackLimit))) } : Grid) 0 bottom := by
      rw [hrw]
    have hn1 : g.visibleOffset + bottom + 1 ≤ g.rows.length := by rw [hoff]; omega
    have hlen1 : (g.rows.insertIdx (g.visibleOffset + bottom + 1) (Row.new g.cols)).length =
        g.rows.length + 1 := List.length_insertIdx _ _ hn1
    have hlen2 : ((g.rows.insertIdx (g.visibleOffset + bottom + 1) (Row.new g.cols)).drop
        ((g.rows.insertIdx (g.visibleOffset + bottom + 1) (Row.new g.cols)).length -
          (g.visibleRows + g.scrollbackLimit))).length =
        min (g.rows.length + 1) (g.visibleRows + g.scrollbackLimit) := by
      rw [List.length_drop, hlen1]; omega
    refine ⟨fun _ => ⟨?_, ?_, ?_, fun htrim => ?_⟩,
      fun hcon => absurd hcon (by omega), ?_, ?_⟩
    · exact hrw1
    · rw [hrw2, (markDirtyRange_dims _ 0 bottom).2.2.1, rows_update]
      exact hlen2
    · rw [hrw2, (markDirtyRange_dims _ 0 bottom).2.2.1, rows_update, hlen2]
      omega
    · have hdrop : (g.rows.insertIdx (g.visibleOffset + bottom + 1) (Row.new g.cols)).length -
          (g.visibleRows + g.scrollbackLimit) = 0 := by rw [hlen1]; omega
      have hX : ((g.rows.insertIdx (g.visibleOffset + bottom + 1) (Row.new g.cols)).drop
          ((g.rows.insertIdx (g.visibleOffset + bottom + 1) (Row.new g.cols)).length -
            (g.visibleRows + g.scrollbackLimit))) =
          g.rows.insertIdx (g.visibleOffset + bottom + 1) (Row.new g.cols) := by
        rw [hdrop, List.drop_zero]
      have hrw2b : (g.scroll_up 0 bottom).2 =
          Grid.markDirtyRange ({ g with rows :=
              (g.rows.insertIdx (g.visibleOffset + bottom + 1) (Row.new g.cols)) } : Grid)
            0 bottom := by
        rw [hrw2, hX]
      have hvo : ({ g with rows :=
          (g.rows.insertIdx (g.visibleOffset + bottom + 1) (Row.new g.cols)) } : Grid).visibleOffset
          = g.visibleOffset + 1 := by
        rw [visibleOffset_eq, rows_update, visibleRows_update, hlen1]
        omega
      refine ⟨?_, ?_, ?_⟩
      · rw [hrw2b, visibleOffset_eq, (markDirtyRange_dims _ 0 bottom).2.2.1,
          (markDirtyRange_dims _ 0 bottom).2.1, rows_update, visibleRows_update, hlen1]
        omega
      · rw [hrw2b, markDirtyRange_getElem?, hvo, rows_update, if_neg (by omega),
          insertIdx_getElem? _ _ _ _ hn1, if_pos (by omega)]
      · rw [hrw2b, markDirtyRange_getElem?, hvo, rows_update, if_pos (by omega),
          insertIdx_getElem? _ _ _ _ hn1, if_neg (by omega), if_pos (by omega)]
        rfl
    · rw [hrw2, (markDirtyRange_dims _ 0 bottom).1, cols_update]
    · intro i r hir
      rw [hrw2, markDirtyRange_getElem?, rows_update] at hir
      have hbase : ∀ (jj : Nat) (rr : Row),
          ((g.rows.insertIdx (g.visibleOffset + bottom + 1) (Row.new g.cols)).drop
            ((g.rows.insertIdx (g.visibleOffset + bottom + 1) (Row.new g.cols)).length -
              (g.visibleRows + g.scrollbackLimit)))[jj]? = some rr →
          rr.cells.length = g.cols := by
        refine cellsP_of_subset (List.drop_subset _ _) ?_
        refine cellsP_insertIdx _ _ hn1 hcells ?_
        simp [Row.new]
      split at hir
      · cases hbase0 : ((g.rows.insertIdx (g.visibleOffset + bottom + 1)
            (Row.new g.cols)).drop ((g.rows.insertIdx (g.visibleOffset + bottom + 1)
              (Row.new g.cols)).length - (g.visibleRows + g.scrollbackLimit)))[i]? with
        | none => rw [hbase0] at hir; exact absurd hir (by simp)
        | some r0 =>
            rw [hbase0] at hir
            simp only [Option.map_some', Option.some_inj] at hir
            have hc0 := hbase i r0 hbase0
            rw [← hir]
            simpa using hc0
      · exact hbase i r hir
  · have ht0p : 0 < top := by omega
    have hrw : g.scroll_up top bottom =
        (none,
         ({ g with rows := ((g.rows.eraseIdx (g.visibleOffset + top)).insertIdx
              (g.visibleOffset + bottom) (Row.new g.cols)) } : Grid).markDirtyRange top
            bottom) := by
      simp only [Grid.scroll_up]
      rw [if_neg hguard, if_neg ht0]
    have hrw1 : (g.scroll_up top bottom).1 = none := by rw [hrw]
    have hrw2 : (g.scroll_up top bottom).2 =
        Grid.markDirtyRange ({ g with rows := ((g.rows.eraseIdx (g.visibleOffset + top)).insertIdx
            (g.visibleOffset + bottom) (Row.new g.cols)) } : Grid) top bottom := by
      rw [hrw]
    have herlen : (g.rows.eraseIdx (g.visibleOffset + top)).length = g.rows.length - 1 := by
      rw [List.length_eraseIdx,
        if_pos (show g.visibleOffset + top < g.rows.length by omega)]
    have hn1 : g.visibleOffset + bottom ≤ (g.rows.eraseIdx (g.visibleOffset + top)).length := by
      rw [herlen]; omega
    have hlen1 : ((g.rows.eraseIdx (g.visibleOffset + top)).insertIdx
        (g.visibleOffset + bottom) (Row.new g.cols)).length = g.rows.length := by
      rw [List.length_insertIdx _ _ hn1, herlen]; omega
    have hvo3 : ({ g with rows := ((g.rows.eraseIdx (g.visibleOffset + top)).insertIdx
        (g.visibleOffset + bottom) (Row.new g.cols)) } : Grid).visibleOffset =
        g.visibleOffset := by
      rw [visibleOffset_eq, rows_update, visibleRows_update, hlen1]
      omega
    refine ⟨fun hcon => absurd hcon ht0, fun _ => ⟨?_, ?_, ?_, ?_, ?_, ?_⟩, ?_, ?_⟩
    · exact hrw1
    · rw [hrw2, (markDirtyRange_dims _ top bottom).2.2.1, rows_update, hlen1]
    · intro j hj
      rw [hrw2, markDirtyRange_getElem?, hvo3, rows_update, if_neg (by omega),
        insertIdx_getElem? _ _ _ _ hn1, if_pos (by omega), List.getElem?_eraseIdx,
        if_pos (by omega)]
    · intro k hk1 hk2
      rw [hrw2, markDirtyRange_getElem?, hvo3, rows_update, if_pos (by omega),
        insertIdx_getElem? _ _ _ _ hn1, if_pos (by omega), List.getElem?_eraseIdx,
        if_neg (by omega)]
    · rw [hrw2, markDirtyRange_getElem?, hvo3, rows_update, if_pos (by omega),
        insertIdx_getElem? _ _ _ _ hn1, if_neg (by omega), if_pos rfl]
      rfl
    · intro j hj
      rw [hrw2, markDirtyRange_getElem?, hvo3, rows_update, if_neg (by omega),
        insertIdx_getElem? _ _ _ _ hn1, if_neg (by omega), if_neg (by omega),
        List.getElem?_eraseIdx, if_neg (by omega)]
      congr 1
      omega
    · rw [hrw2, (markDirtyRange_dims _ top bottom).1, cols_update]
    · intro i r hir
      rw [hrw2, markDirtyRange_getElem?, rows_update] at hir
      have hbase : ∀ (jj : Nat) (rr : Row),
          ((g.rows.eraseIdx (g.visibleOffset + top)).insertIdx (g.visibleOffset + bottom)
            (Row.new g.cols))[jj]? = some rr → rr.cells.length = g.cols := by
        refine cellsP_insertIdx _ _ hn1 ?_ ?_
        · exact cellsP_of_subset (List.eraseIdx_subset _ _) hcells
        · simp [Row.new]
      split at hir
      · cases hbase0 : ((g.rows.eraseIdx (g.visibleOffset + top)).insertIdx
            (g.visibleOffset + bottom) (Row.new g.cols))[i]? with
        | none => rw [hbase0] at hir; exact absurd hir (by simp)
        | some r0 =>
            rw [hbase0] at hir
            simp only [Option.map_some', Option.some_inj] at hir
            have hc0 := hbase i r0 hbase0
            rw [← hir]
            simpa using hc0
      · exact hbase i r hir

/-- C5 (witness): `scroll_up` on a concrete grid with 2 visible rows, in
both region shapes. -/
theorem c5_scroll_up_witness :
    (((Grid.new 2 2).scroll_up 0 1).1 =
        some { index := 0,
               spans := ((Grid.new 2 2).rows.getD (Grid.new 2 2).visibleOffset
                   (Row.new 0)).to_styled_spans } ∧
      ((Grid.new 2 2).scroll_up 0 1).2.rows.length =
        min ((Grid.new 2 2).rows.length + 1)
          ((Grid.new 2 2).visibleRows + (Grid.new 2 2).scrollbackLimit)) ∧
      (((Grid.new 2 2).scroll_up 1 1).1 = none ∧
        ((Grid.new 2 2).scroll_up 1 1).2.rows.length = (Grid.new 2 2).rows.length) := by
  constructor
  · have h := (c5_scroll_up (Grid.new 2 2) 0 1 (by decide) (by decide) (by decide)
      (cells_length_new 2 2)).1 rfl
    exact ⟨h.1, h.2.1⟩
  · have h := (c5_scroll_up (Grid.new 2 2) 1 1 (by decide) (by decide) (by decide)
      (cells_length_new 2 2)).2.1 (by decide)
    exact ⟨h.1, h.2.1⟩

/-!
### C6: span coalescing
-/

/-- `specRuns` never produces an empty run. -/
theorem specRuns_no_nil (l : List Cell) : ([] : List Cell) ∉ specRuns l := by
  induction l with
  | nil => simp [specRuns]
  | cons c rest ih =>
      simp only [specRuns]
      cases hsr : specRuns rest with
      | nil => simp
      | cons run rs =>
          rw [hsr] at ih
          cases run with
          | nil => exact absurd (List.mem_cons_self _ _) ih
          | cons d ds =>
              dsimp only
              by_cases hst : cellStyle d = cellStyle c
              · rw [if_pos hst]
                intro hmem
                rcases List.mem_cons.mp hmem with h | h
                · exact List.noConfusion h
                · exact ih (List.mem_cons_of_mem _ h)
              · rw [if_neg hst]
                intro hmem
                rcases List.mem_cons.mp hmem with h | h
                · exact List.noConfusion h
                · exact ih h

/-- The first run of `specRuns (c :: l)` starts with `c`. -/
theorem specRuns_cons (c : Cell) (l : List Cell) :
    ∃ t rs, specRuns (c :: l) = (c :: t) :: rs := by
  simp only [specRuns]
  cases hsr : specRuns l with
  | nil => exact ⟨[], [], rfl⟩
  | cons run rs =>
      cases run with
      | nil =>
          exact absurd (show ([] : List Cell) ∈ specRuns l by
            rw [hsr]; exact List.mem_cons_self _ _) (specRuns_no_nil l)
      | cons d ds =>
          dsimp only
          by_cases hst : cellStyle d = cellStyle c
          · rw [if_pos hst]; exact ⟨d :: ds, rs, rfl⟩
          · rw [if_neg hst]; exact ⟨[], (d :: ds) :: rs, rfl⟩

/-- `specRuns` is a partition: concatenating the runs gives the list back. -/
theorem specRuns_flatten (l : List Cell) : (specRuns l).flatten = l := by
  induction l with
  | nil => simp [specRuns]
  | cons c rest ih =>
      simp only [specRuns]
      cases hsr : specRuns rest with
      | nil =>
          rw [hsr] at ih
          simp only [List.flatten_nil] at ih
          dsimp only
          simp [← ih]
      | cons run rs =>
          rw [hsr] at ih
          cases run with
          | nil =>
              exact absurd (show ([] : List Cell) ∈ specRuns rest by
                rw [hsr]; exact List.mem_cons_self _ _) (specRuns_no_nil rest)
          | cons d ds =>
              dsimp only
              simp only [List.flatten_cons] at ih
              by_cases hst : cellStyle d = cellStyle c
              · rw [if_pos hst]
                simp only [List.flatten_cons, List.cons_append, ih]
              · rw [if_neg hst]
                simp only [List.flatten_cons, List.singleton_append, ih]

/-- Every run produced by `specRuns` is nonempty and style-constant. -/
theorem specRuns_const (l : List Cell) :
    ∀ run ∈ specRuns l, run ≠ [] ∧ ∀ x ∈ run, ∀ y ∈ run, cellStyle x = cellStyle y := by
  induction l with
  | nil => simp [specRuns]
  | cons c rest ih =>
      simp only [specRuns]
      cases hsr : specRuns rest with
      | nil =>
          dsimp only
          intro run hrun
          rw [List.mem_singleton] at hrun
          subst hrun
          refine ⟨List.cons_ne_nil _ _, ?_⟩
          intro x hx y hy
          rw [List.mem_singleton] at hx hy
          rw [hx, hy]
      | cons run0 rs =>
          rw [hsr] at ih
          cases run0 with
          | nil =>
              exact absurd (show ([] : List Cell) ∈ specRuns rest by
                rw [hsr]; exact List.mem_cons_self _ _) (specRuns_no_nil rest)
          | cons d ds =>
              dsimp only
              have hds := ih (d :: ds) (List.mem_cons_self _ _)
              by_cases hst : cellStyle d = cellStyle c
              · rw [if_pos hst]
                intro run hrun
                rcases List.mem_cons.mp hrun with h | h
                · subst h
                  refine ⟨List.cons_ne_nil _ _, ?_⟩
                  have hall : ∀ x ∈ c :: d :: ds, cellStyle x = cellStyle c := by
                    intro x hx
                    rcases List.mem_cons.mp hx with h1 | h1
                    · rw [h1]
                    · rw [hds.2 x h1 d (List.mem_cons_self _ _), hst]
                  intro x hx y hy
                  rw [hall x hx, hall y hy]
                · exact ih run (List.mem_cons_of_mem _ h)
              · rw [if_neg hst]
                intro run hrun
                rcases List.mem_cons.mp hrun with h | h
                · subst h
                  refine ⟨List.cons_ne_nil _ _, ?_⟩
                  intro x hx y hy
                  rw [List.mem_singleton] at hx hy
                  rw [hx, hy]
                · exact ih run h

/-- Maximality: adjacent runs of `specRuns` have different styles. -/
theorem specRuns_adjacent (l : List Cell) :
    ∀ i c1 t1 c2 t2, (specRuns l)[i]? = some (c1 :: t1) →
      (specRuns l)[i + 1]? = some (c2 :: t2) → cellStyle c1 ≠ cellStyle c2 := by
  induction l with
  | nil =>
      intro i c1 t1 c2 t2 h1 h2
      simp [specRuns] at h1
  | cons c rest ih =>
      intro i c1 t1 c2 t2 h1 h2
      simp only [specRuns] at h1 h2
      cases hsr : specRuns rest with
      | nil =>
          rw [hsr] at h1 h2
          dsimp only at h1 h2
          rw [List.getElem?_cons_succ, List.getElem?_nil] at h2
          exact Option.noConfusion h2
      | cons run0 rs =>
          rw [hsr] at h1 h2
          cases run0 with
          | nil =>
              exact absurd (show ([] : List Cell) ∈ specRuns rest by
                rw [hsr]; exact List.mem_cons_self _ _) (specRuns_no_nil rest)
          | cons d ds =>
              dsimp only at h1 h2
              by_cases hst : cellStyle d = cellStyle c
              · rw [if_pos hst] at h1 h2
                cases i with
                | zero =>
                    rw [List.getElem?_cons_zero, Option.some_inj] at h1
                    rw [List.getElem?_cons_succ] at h2
                    injection h1 with hc _
                    have hadj := ih 0 d ds c2 t2 (by rw [hsr]; exact List.getElem?_cons_zero)
                      (by rw [hsr]; rw [List.getElem?_cons_succ]; exact h2)
                    subst hc
                    rw [← hst]
                    exact hadj
                | succ i2 =>
                    rw [List.getElem?_cons_succ] at h1 h2
                    exact ih (i2 + 1) c1 t1 c2 t2
                      (by rw [hsr, List.getElem?_cons_succ]; exact h1)
                      (by rw [hsr, List.getElem?_cons_succ]; exact h2)
              · rw [if_neg hst] at h1 h2
                cases i with
                | zero =>
                    rw [List.getElem?_cons_zero, Option.some_inj] at h1
                    rw [List.getElem?_cons_succ, List.getElem?_cons_zero,
                      Option.some_inj] at h2
                    injection h1 with hc _
                    injection h2 with hd _
                    subst hc
                    subst hd
                    exact fun hcon => hst hcon.symm
                | succ i2 =>
                    rw [List.getElem?_cons_succ] at h1 h2
                    exact ih i2 c1 t1 c2 t2 (by rw [hsr]; exact h1) (by rw [hsr]; exact h2)

/-- The loop of `Row::to_styled_spans` with an open run produces the
bridge `seedSpans` over the spacer-filtered cells. -/
theorem spansAux_seed (cells : List Cell) :
    ∀ (spans : List StyledSpan) (text : List Char) (fg bg : Color) (attrs : CellAttrs),
      text ≠ [] →
      spansAux cells spans text fg bg attrs true =
        spans ++ seedSpans text fg bg attrs
          (cells.filter (fun c2 => !c2.flags.wideSpacer)) := by
  induction cells with
  | nil =>
      intro spans text fg bg attrs ht
      simp only [spansAux, seedSpans, List.filter_nil]
      rw [if_neg ht]
  | cons cell rest ih =>
      intro spans text fg bg attrs ht
      by_cases hsp : cell.flags.wideSpacer = true
      · rw [List.filter_cons, if_neg (by rw [hsp]; simp)]
        simp only [spansAux]
        rw [if_pos hsp]
        exact ih spans text fg bg attrs ht
      · have hsp2 : cell.flags.wideSpacer = false := by
          revert hsp; cases cell.flags.wideSpacer <;> simp
        rw [List.filter_cons, if_pos (by rw [hsp2]; rfl)]
        simp only [spansAux, hsp2, Bool.false_eq_true, if_false, Bool.not_true]
        by_cases hstyle : cell.fg ≠ fg ∨ cell.bg ≠ bg ∨ cell.attrs ≠ attrs
        · rw [if_pos hstyle, if_neg ht]
          rw [ih (spans ++ [StyledSpan.new text fg bg attrs]) [cell.c]
            cell.fg cell.bg cell.attrs (by simp)]
          simp only [seedSpans]
          rw [if_pos hstyle]
          simp [List.append_assoc]
        · rw [if_neg hstyle]
          rw [ih spans (text ++ [cell.c]) fg bg attrs (by simp)]
          simp only [seedSpans]
          rw [if_neg hstyle]

/-- Prepending a one-cell run matches chunking with the cell consed on. -/
theorem prependSpans_single (c : Cell) (l : List Cell) :
    prependSpans [c.c] c.fg c.bg c.attrs (specRuns l) =
      (specRuns (c :: l)).map runToSpan := by
  conv_rhs => rw [specRuns]
  cases hsr : specRuns l with
  | nil => simp [prependSpans, runToSpan]
  | cons run rs =>
      cases run with
      | nil =>
          exact absurd (show ([] : List Cell) ∈ specRuns l by
            rw [hsr]; exact List.mem_cons_self _ _) (specRuns_no_nil l)
      | cons d ds =>
          dsimp only
          by_cases hst : cellStyle d = cellStyle c
          · rw [if_pos hst]
            simp only [prependSpans]
            rw [if_pos (show cellStyle d = (c.fg, c.bg, c.attrs) from hst)]
            simp [runToSpan]
          · rw [if_neg hst]
            simp only [prependSpans]
            rw [if_neg (show ¬(cellStyle d = (c.fg, c.bg, c.attrs)) from hst)]
            simp [runToSpan]

/-- The bridge `seedSpans` refines to prepending onto the spec chunking. -/
theorem seedSpans_prepend (l : List Cell) :
    ∀ (text : List Char) (fg bg : Color) (attrs : CellAttrs), text ≠ [] →
      seedSpans text fg bg attrs l = prependSpans text fg bg attrs (specRuns l) := by
  induction l with
  | nil =>
      intro text fg bg attrs ht
      simp [seedSpans, specRuns, prependSpans]
  | cons c rest ih =>
      intro text fg bg attrs ht
      by_cases hstyle : c.fg ≠ fg ∨ c.bg ≠ bg ∨ c.attrs ≠ attrs
      · simp only [seedSpans]
        rw [if_pos hstyle]
        rw [ih [c.c] c.fg c.bg c.attrs (by simp)]
        rw [prependSpans_single]
        obtain ⟨t, rs, hcr⟩ := specRuns_cons c rest
        rw [hcr]
        have hne : ¬(cellStyle c = (fg, bg, attrs)) := by
          intro hcon
          simp only [cellStyle, Prod.mk.injEq] at hcon
          rcases hstyle with h | h | h
          · exact h hcon.1
          · exact h hcon.2.1
          · exact h hcon.2.2
        simp only [prependSpans]
        rw [if_neg hne]
      · push_neg at hstyle
        obtain ⟨h1, h2, h3⟩ := hstyle
        have hceq : cellStyle c = (fg, bg, attrs) := by
          simp only [cellStyle, Prod.mk.injEq]
          exact ⟨h1, h2, h3⟩
        simp only [seedSpans]
        rw [if_neg (by push_neg; exact ⟨h1, h2, h3⟩)]
        rw [ih (text ++ [c.c]) fg bg attrs (by simp)]
        conv_rhs => rw [specRuns]
        cases hsr : specRuns rest with
        | nil =>
            simp only [prependSpans]
            rw [if_pos hceq]
            simp
        | cons run rs =>
            cases run with
            | nil =>
                exact absurd (show ([] : List Cell) ∈ specRuns rest by
                  rw [hsr]; exact List.mem_cons_self _ _) (specRuns_no_nil rest)
            | cons d ds =>
                dsimp only
                by_cases hst : cellStyle d = cellStyle c
                · rw [if_pos hst]
                  simp only [prependSpans]
                  rw [if_pos (hst.trans hceq), if_pos hceq]
                  simp [List.append_assoc]
                · rw [if_neg hst]
                  simp only [prependSpans]
                  rw [if_neg (fun hcon => hst (hcon.trans hceq.symm)), if_pos hceq]
                  simp

/-- The uninitialized loop of `Row::to_styled_spans` produces exactly the
spans of the spec chunking of the spacer-filtered cells. -/
theorem spansAux_runs (cells : List Cell) :
    ∀ (spans : List StyledSpan) (fg0 bg0 : Color) (attrs0 : CellAttrs),
      spansAux cells spans [] fg0 bg0 attrs0 false =
        spans ++ (specRuns (cells.filter (fun c2 => !c2.flags.wideSpacer))).map runToSpan := by
  induction cells with
  | nil =>
      intro spans fg0 bg0 attrs0
      simp [spansAux, specRuns]
  | cons cell rest ih =>
      intro spans fg0 bg0 attrs0
      by_cases hsp : cell.flags.wideSpacer = true
      · rw [List.filter_cons, if_neg (by rw [hsp]; simp)]
        simp only [spansAux]
        rw [if_pos hsp]
        exact ih spans fg0 bg0 attrs0
      · have hsp2 : cell.flags.wideSpacer = false := by
          revert hsp; cases cell.flags.wideSpacer <;> simp
        rw [List.filter_cons, if_pos (by rw [hsp2]; rfl)]
        simp only [spansAux, hsp2, Bool.false_eq_true, if_false, Bool.not_false, if_true,
          List.nil_append]
        rw [spansAux_seed rest spans [cell.c] cell.fg cell.bg cell.attrs (by simp)]
        rw [seedSpans_prepend _ [cell.c] cell.fg cell.bg cell.attrs (by simp)]
        rw [prependSpans_single]

/-- The text of the span a run emits is the run's characters. -/
theorem runToSpan_text (run : List Cell) : (runToSpan run).text = run.map Cell.c := by
  cases run with
  | nil => rfl
  | cons c cs => rfl

/-- C6: span coalescing.  `Row::to_styled_spans` emits exactly one span per
maximal style-constant run of the row's non-spacer cells (`specRuns`),
so concatenating the span texts gives the row's non-spacer characters in
order; `specRuns` itself is a partition into nonempty style-constant runs
with adjacent runs differing in style; and `StyledSpan::new` keeps the
text, swaps fg/bg under REVERSE, and then forces `fg = bg` under
HIDDEN. -/
theorem c6_span_coalescing (r : Row) :
    r.to_styled_spans =
      (specRuns (r.cells.filter (fun c2 => !c2.flags.wideSpacer))).map runToSpan ∧
    (r.to_styled_spans.map (fun s => s.text)).flatten =
      (r.cells.filter (fun c2 => !c2.flags.wideSpacer)).map Cell.c ∧
    (specRuns (r.cells.filter (fun c2 => !c2.flags.wideSpacer))).flatten =
      r.cells.filter (fun c2 => !c2.flags.wideSpacer) ∧
    (∀ run ∈ specRuns (r.cells.filter (fun c2 => !c2.flags.wideSpacer)),
      run ≠ [] ∧ ∀ x ∈ run, ∀ y ∈ run, cellStyle x = cellStyle y) ∧
    (∀ i c1 t1 c2 t2,
      (specRuns (r.cells.filter (fun c2b => !c2b.flags.wideSpacer)))[i]? = some (c1 :: t1) →
      (specRuns (r.cells.filter (fun c2b => !c2b.flags.wideSpacer)))[i + 1]? =
        some (c2 :: t2) →
      cellStyle c1 ≠ cellStyle c2) ∧
    (∀ (text : List Char) (fg bg : Color) (attrs : CellAttrs),
      (StyledSpan.new text fg bg attrs).text = text ∧
      (StyledSpan.new text fg bg attrs).bg = (if attrs.reverse then fg else bg) ∧
      (StyledSpan.new text fg bg attrs).fg =
        (if attrs.hidden then (if attrs.reverse then fg else bg)
         else (if attrs.reverse then bg else fg))) := by
  have hmain : r.to_styled_spans =
      (specRuns (r.cells.filter (fun c2 => !c2.flags.wideSpacer))).map runToSpan := by
    unfold Row.to_styled_spans
    by_cases hc : r.cells = []
    · rw [if_pos hc, hc]
      simp [specRuns]
    · rw [if_neg hc]
      rw [spansAux_runs]
      simp
  refine ⟨hmain, ?_, specRuns_flatten _, specRuns_const _, specRuns_adjacent _, ?_⟩
  · rw [hmain, List.map_map]
    have hcomp : ((fun s : StyledSpan => s.text) ∘ runToSpan) =
        fun run : List Cell => run.map Cell.c :=
      funext fun run => runToSpan_text run
    rw [hcomp, ← List.map_join, specRuns_flatten]
  · intro text fg bg attrs
    refine ⟨rfl, ?_, ?_⟩
    · simp only [StyledSpan.new]
      cases hr : attrs.reverse <;> simp [hr]
    · simp only [StyledSpan.new]
      cases hr : attrs.reverse <;> cases hh : attrs.hidden <;> simp [hr, hh]

/-- C6 (witness): the coalescing identity evaluated on a concrete row with
a wide character, its spacer, and a style change. -/
theorem c6_span_coalescing_witness :
    ({ cells := [{ c := 'W', flags := { wideChar := true } }, Cell.wide_spacer,
        { c := 'x', attrs := { bold := true } }], dirty := false } : Row).to_styled_spans =
      (specRuns (({ cells := [{ c := 'W', flags := { wideChar := true } }, Cell.wide_spacer,
          { c := 'x', attrs := { bold := true } }], dirty := false } : Row).cells.filter
        (fun c2 => !c2.flags.wideSpacer))).map runToSpan :=
  (c6_span_coalescing { cells := [{ c := 'W', flags := { wideChar := true } },
    Cell.wide_spacer, { c := 'x', attrs := { bold := true } }], dirty := false }).1

/-!
### C7, C8: device reports and origin mode on a 24×80 terminal
-/

/-- C7: device reports are queued bit-exactly.  On a 24×80 terminal,
`CUP 5;10` followed by `DSR 6` queues exactly `ESC[5;10R`; `DSR 5`
queues `ESC[0n`; `DA1` with parameter 0 queues `ESC[?62;22c`; and
`DA2` (`CSI > c`) queues `ESC[>0;10;0c`. -/
theorem c7_device_reports :
    (run (TerminalState.new 24 80)
        [Op.csi [5, 10] [] 'H', Op.csi [6] [] 'n']).pendingResponses = ["\x1b[5;10R"] ∧
    (run (TerminalState.new 24 80) [Op.csi [5] [] 'n']).pendingResponses = ["\x1b[0n"] ∧
    (run (TerminalState.new 24 80) [Op.csi [0] [] 'c']).pendingResponses = ["\x1b[?62;22c"] ∧
    (run (TerminalState.new 24 80)
        [Op.csi [0] [0x3e] 'c']).pendingResponses = ["\x1b[>0;10;0c"] := by
  decide

/-- C8: DECSTBM 6;21 plus DECOM (origin mode) on a 24×80 terminal homes
the cursor to the scroll region top (`scroll_top = 5`,
`scroll_bottom = 20`, `row = 5`, `col = 0`), and a subsequent `CUP 3;1`
lands on absolute row 7 (origin-relative, clamped to the region). -/
theorem c8_origin_mode :
    (run (TerminalState.new 24 80)
        [Op.csi [6, 21] [] 'r', Op.csi [6] [0x3f] 'h']).scrollTop = 5 ∧
    (run (TerminalState.new 24 80)
        [Op.csi [6, 21] [] 'r', Op.csi [6] [0x3f] 'h']).scrollBottom = 20 ∧
    (run (TerminalState.new 24 80)
        [Op.csi [6, 21] [] 'r', Op.csi [6] [0x3f] 'h']).modes.origin = true ∧
    (run (TerminalState.new 24 80)
        [Op.csi [6, 21] [] 'r', Op.csi [6] [0x3f] 'h']).cursor.row = 5 ∧
    (run (TerminalState.new 24 80)
        [Op.csi [6, 21] [] 'r', Op.csi [6] [0x3f] 'h']).cursor.col = 0 ∧
    (run (TerminalState.new 24 80)
        [Op.csi [6, 21] [] 'r', Op.csi [6] [0x3f] 'h',
         Op.csi [3, 1] [] 'H']).cursor.row = 7 := by
  decide

/-!
### C9: tmux octal decoding
-/

/-- C9 (counterexample): the decoder tests the three digits with
`is_ascii_digit`, not octal range, and truncates mod 256 — so `\999`
(whose digits are not octal) is consumed as an escape and decodes to the
single byte 145 = (9*64+9*8+9) mod 256 instead of passing through
literally. -/
theorem c9_octal_decode_counterexample :
    decode_octal_escapes [92, 57, 57, 57] = [145] ∧
      decode_octal_escapes [92, 57, 57, 57] ≠ [92, 57, 57, 57] ∧
      9 * 64 + 9 * 8 + 9 = 657 ∧ 657 % 256 = 145 := by
  decide

/-- C9 (amended): `\NNN` with three ASCII decimal digits decodes to
`(N1*64 + N2*8 + N3) mod 256`; `\\` decodes to a single backslash; any
non-backslash byte passes through literally; and decoding tmux's encoded
form of any byte `b < 256` yields exactly `b`. -/
theorem c9_octal_decode_amended :
    (∀ d1 d2 d3 rest, 48 ≤ d1 → d1 ≤ 57 → 48 ≤ d2 → d2 ≤ 57 → 48 ≤ d3 → d3 ≤ 57 →
      decode_octal_escapes (92 :: d1 :: d2 :: d3 :: rest) =
        ((d1 - 48) * 64 + (d2 - 48) * 8 + (d3 - 48)) % 256 :: decode_octal_escapes rest) ∧
    (∀ rest, decode_octal_escapes (92 :: 92 :: rest) = 92 :: decode_octal_escapes rest) ∧
    (∀ b rest, b ≠ 92 → decode_octal_escapes (b :: rest) = b :: decode_octal_escapes rest) ∧
    (∀ b, b < 256 → decode_octal_escapes (tmuxEncodeByte b) = [b]) := by
  refine ⟨?_, ?_, ?_, ?_⟩
  · intro d1 d2 d3 rest h1 h2 h3 h4 h5 h6
    rw [decode_octal_escapes.eq_3 d1 d2 d3 rest (by omega), if_pos (by omega)]
  · intro rest
    exact decode_octal_escapes.eq_2 rest
  · intro b rest hb
    exact decode_octal_escapes.eq_5 b rest (fun _ h92 _ => hb h92)
      (fun _ _ _ _ h92 _ => hb h92) (fun h92 => hb h92)
  · set_option maxRecDepth 4000 in decide

/-- C9 (witness): the amended decoding rules evaluated on `\033`, on a
literal backslash pair, on a plain byte, and on the encoder round trip
at byte 0. -/
theorem c9_octal_decode_amended_witness :
    decode_octal_escapes [92, 48, 51, 51] = [27] ∧
      decode_octal_escapes [92, 92, 65] = [92, 65] ∧
      decode_octal_escapes [65] = [65] ∧
      decode_octal_escapes (tmuxEncodeByte 0) = [0] :=
  ⟨(c9_octal_decode_amended.1 48 51 51 [] (by decide) (by decide) (by decide) (by decide)
      (by decide) (by decide)).trans (by decide),
   (c9_octal_decode_amended.2.1 [65]).trans (by decide),
   (c9_octal_decode_amended.2.2.1 65 [] (by decide)).trans (by decide),
   c9_octal_decode_amended.2.2.2 0 (by decide)⟩

/-!
### Shell-projection lemmas: which operations leave `shell` untouched
-/

theorem shp_foldl {β : Type} (f : TerminalState → β → TerminalState)
    (h : ∀ st b, (f st b).shell = st.shell)
    (l : List β) (s : TerminalState) :
    (l.foldl f s).shell = s.shell := by
  induction l generalizing s with
  | nil => rfl
  | cons b rest ih =>
      simp only [List.foldl_cons]
      exact (ih (f s b)).trans (h s b)

theorem shp_setActiveGrid (s : TerminalState) (g : Grid) :
    (s.setActiveGrid g).shell = s.shell := by
  unfold TerminalState.setActiveGrid; split <;> simp

theorem shp_withActiveGrid (s : TerminalState) (f : Grid → Grid) :
    (s.withActiveGrid f).shell = s.shell := by
  unfold TerminalState.withActiveGrid; exact shp_setActiveGrid ..

theorem shp_scrollUpCapture (s : TerminalState) (top bottom : Nat) :
    (s.scrollUpCapture top bottom).shell = s.shell := by
  unfold TerminalState.scrollUpCapture
  cases hr : (s.activeGrid.scroll_up top bottom).1 with
  | none => simp [hr, shp_setActiveGrid]
  | some line => simp only [hr]; split <;> simp [shp_setActiveGrid]

theorem shp_linefeed (s : TerminalState) :
    (s.linefeed).shell = s.shell := by
  unfold TerminalState.linefeed
  split
  · exact shp_scrollUpCapture ..
  · split <;> simp

theorem shp_reverse_index (s : TerminalState) :
    (s.reverse_index).shell = s.shell := by
  unfold TerminalState.reverse_index
  split
  · exact shp_withActiveGrid ..
  · split <;> simp

theorem shp_carriage_return (s : TerminalState) :
    (s.carriage_return).shell = s.shell := by
  simp [TerminalState.carriage_return]

theorem shp_backspace (s : TerminalState) :
    (s.backspace).shell = s.shell := by
  unfold TerminalState.backspace; split <;> simp

theorem shp_tab (s : TerminalState) :
    (s.tab).shell = s.shell := by
  unfold TerminalState.tab; split <;> simp

theorem shp_cursor_up (s : TerminalState) (n : Nat) :
    (s.cursor_up n).shell = s.shell := by
  simp [TerminalState.cursor_up]

theorem shp_cursor_down (s : TerminalState) (n : Nat) :
    (s.cursor_down n).shell = s.shell := by
  simp [TerminalState.cursor_down]

theorem shp_cursor_forward (s : TerminalState) (n : Nat) :
    (s.cursor_forward n).shell = s.shell := by
  simp [TerminalState.cursor_forward]

theorem shp_cursor_backward (s : TerminalState) (n : Nat) :
    (s.cursor_backward n).shell = s.shell := by
  simp [TerminalState.cursor_backward]

theorem shp_erase_display (s : TerminalState) (mode : Nat) :
    (s.erase_display mode).shell = s.shell := by
  unfold TerminalState.erase_display
  split
  · exact shp_withActiveGrid ..
  split
  · exact shp_withActiveGrid ..
  split
  · exact shp_withActiveGrid ..
  split
  · simp
  · simp

theorem shp_erase_line (s : TerminalState) (mode : Nat) :
    (s.erase_line mode).shell = s.shell := by
  unfold TerminalState.erase_line
  split
  · exact shp_withActiveGrid ..
  split
  · exact shp_withActiveGrid ..
  split
  · exact shp_withActiveGrid ..
  · simp

theorem shp_insert_lines (s : TerminalState) (n : Nat) :
    (s.insert_lines n).shell = s.shell := by
  unfold TerminalState.insert_lines
  split
  · have h := shp_foldl
      (fun st (_ : Nat) => st.withActiveGrid (fun g => g.scroll_down s.cursor.row s.scrollBottom))
      (fun st _ => shp_withActiveGrid ..) (List.range n) s
    simpa using h
  · simp

theorem shp_delete_lines (s : TerminalState) (n : Nat) :
    (s.delete_lines n).shell = s.shell := by
  unfold TerminalState.delete_lines
  split
  · have h := shp_foldl
      (fun st (_ : Nat) => st.scrollUpCapture s.cursor.row s.scrollBottom)
      (fun st _ => shp_scrollUpCapture ..) (List.range n) s
    simpa using h
  · simp

theorem shp_erase_chars (s : TerminalState) (n : Nat) :
    (s.erase_chars n).shell = s.shell := by
  unfold TerminalState.erase_chars; exact shp_withActiveGrid ..

theorem shp_insert_chars (s : TerminalState) (n : Nat) :
    (s.insert_chars n).shell = s.shell := by
  unfold TerminalState.insert_chars; exact shp_withActiveGrid ..

theorem shp_delete_chars (s : TerminalState) (n : Nat) :
    (s.delete_chars n).shell = s.shell := by
  unfold TerminalState.delete_chars; exact shp_withActiveGrid ..

theorem shp_scroll_up_n (s : TerminalState) (n : Nat) :
    (s.scroll_up_n n).shell = s.shell := by
  unfold TerminalState.scroll_up_n
  exact shp_foldl _ (fun st _ => shp_scrollUpCapture ..) (List.range n) s

theorem shp_scroll_down_n (s : TerminalState) (n : Nat) :
    (s.scroll_down_n n).shell = s.shell := by
  unfold TerminalState.scroll_down_n
  exact shp_foldl _ (fun st _ => shp_withActiveGrid ..) (List.range n) s

theorem shp_save_cursor (s : TerminalState) :
    (s.save_cursor).shell = s.shell := by
  simp [TerminalState.save_cursor]

theorem shp_restore_cursor (s : TerminalState) :
    (s.restore_cursor).shell = s.shell := by
  simp [TerminalState.restore_cursor]

theorem shp_enter_alt_screen (s : TerminalState) :
    (s.enter_alt_screen).shell = s.shell := by
  unfold TerminalState.enter_alt_screen; split <;> simp

theorem shp_exit_alt_screen (s : TerminalState) :
    (s.exit_alt_screen).shell = s.shell := by
  unfold TerminalState.exit_alt_screen; split <;> simp

theorem shp_clear_screen (s : TerminalState) :
    (s.clear_screen).shell = s.shell := by
  unfold TerminalState.clear_screen
  have h := shp_withActiveGrid s
    (fun g => (List.range s.rows).foldl (fun g2 r => g2.clearVisibleRow r) g)
  simp [h]

theorem shp_handle_sgr (s : TerminalState) (params : List Nat) :
    (s.handle_sgr params).shell = s.shell := by
  simp [TerminalState.handle_sgr]

theorem shp_emit_mode_changed (s : TerminalState) :
    (s.emit_mode_changed).shell = s.shell := by
  simp [TerminalState.emit_mode_changed]

theorem shp_setDecModeOne (s : TerminalState) (p : Nat) (enable : Bool) :
    (s.setDecModeOne p enable).shell = s.shell := by
  simp only [TerminalState.setDecModeOne, apply_ite TerminalState.shell, shp_emit_mode_changed, shp_enter_alt_screen,
      shp_exit_alt_screen, shp_save_cursor, shp_restore_cursor, shp_clear_screen,
      ite_self]

theorem shp_set_dec_mode (s : TerminalState) (params : List Nat) (enable : Bool) :
    (s.set_dec_mode params enable).shell = s.shell := by
  unfold TerminalState.set_dec_mode
  exact shp_foldl _ (fun st p => shp_setDecModeOne ..) params s

theorem shp_report_mode_state (s : TerminalState) (mode : Nat) (set : Option Bool) (dp : Bool) :
    (s.report_mode_state mode set dp).shell = s.shell := by
  simp [TerminalState.report_mode_state]

theorem shp_report_dec_modes (s : TerminalState) (params : List Nat) :
    (s.report_dec_modes params).shell = s.shell := by
  unfold TerminalState.report_dec_modes
  split
  · exact shp_report_mode_state ..
  · exact shp_foldl _ (fun st p => shp_report_mode_state ..) params s

theorem shp_report_ansi_modes (s : TerminalState) (params : List Nat) :
    (s.report_ansi_modes params).shell = s.shell := by
  unfold TerminalState.report_ansi_modes
  split
  · exact shp_report_mode_state ..
  · exact shp_foldl _ (fun st p => shp_report_mode_state ..) params s

theorem shp_set_mode (s : TerminalState) (params : List Nat) (enable : Bool) :
    (s.set_mode params enable).shell = s.shell := by
  unfold TerminalState.set_mode
  refine shp_foldl _ (fun st p => ?_) params s
  simp only [apply_ite TerminalState.shell, ite_self]

theorem shp_handle_osc_52 (s : TerminalState) (params : List String) (clipboard : String) :
    (s.handle_osc_52 params clipboard).shell = s.shell := by
  simp only [TerminalState.handle_osc_52, apply_ite TerminalState.shell, ite_self]

theorem shp_handleOsc1337 (s : TerminalState) (payload : String) :
    (s.handleOsc1337 payload).shell = s.shell := by
  simp only [TerminalState.handleOsc1337]
  split
  · cases (payload.drop 5).toList.findIdx? (· = ':') with
    | none => exact rfl
    | some colonIdx =>
        (repeat' split) <;>
            simp only [apply_ite TerminalState.shell,
              ite_self]
  · exact rfl

theorem shp_handleOsc1337Dispatch (s : TerminalState) (params : List String) :
    (s.handleOsc1337Dispatch params).shell = s.shell := by
  unfold TerminalState.handleOsc1337Dispatch
  cases params[1]? with
  | none => exact rfl
  | some payload => exact shp_handleOsc1337 ..

theorem shp_handleOscTitle (s : TerminalState) (params : List String) :
    (s.handleOscTitle params).shell = s.shell := by
  unfold TerminalState.handleOscTitle
  cases params[1]? <;> simp

theorem shp_handleOsc8 (s : TerminalState) (params : List String) :
    (s.handleOsc8 params).shell = s.shell := by
  simp only [TerminalState.handleOsc8, apply_ite TerminalState.shell, ite_self]

theorem shp_handleOsc4 (s : TerminalState) (params : List String) :
    (s.handleOsc4 params).shell = s.shell := by
  unfold TerminalState.handleOsc4
  split
  · cases (params.getD 1 "").toNat? with
    | none => exact rfl
    | some index =>
        simp only [apply_ite TerminalState.shell,
            ite_self]
  · exact rfl

theorem shp_handleOscColorQuery (s : TerminalState) (first : String) (params : List String) :
    (s.handleOscColorQuery first params).shell = s.shell := by
  simp only [TerminalState.handleOscColorQuery, apply_ite TerminalState.shell, ite_self]

theorem shp_handle_xtgettcap (s : TerminalState) (data : List Nat) :
    (s.handle_xtgettcap data).shell = s.shell := by
  simp only [TerminalState.handle_xtgettcap]
  split
  · simp
  · cases hx : xtgettcapPairs (splitOnChar ';' (data.map Char.ofNat)) with
    | none => exact rfl
    | some pairs => cases pairs <;> exact rfl

theorem shp_handle_decrqss (s : TerminalState) (data : List Nat) :
    (s.handle_decrqss data).shell = s.shell := by
  unfold TerminalState.handle_decrqss
  cases hx : s.decrqssStatus (data.map Char.ofNat) <;> simp [hx]

theorem shp_handle_dcs (s : TerminalState) (action : Option Char) (ints data : List Nat) :
    (s.handle_dcs action ints data).shell = s.shell := by
  unfold TerminalState.handle_dcs
  (repeat' split) <;>
    first
    | exact shp_handle_xtgettcap ..
    | exact shp_handle_decrqss ..
    | exact rfl

theorem shp_putChar (s : TerminalState) (c : Char) (w : Nat) :
    (s.putChar c w).shell = s.shell := by
  simp only [TerminalState.putChar, TerminalState.putCharWrap, TerminalState.putCharWrite,
      apply_ite TerminalState.shell,
      shp_withActiveGrid, shp_linefeed, shp_carriage_return, ite_self]

theorem shp_print (s : TerminalState) (c : Char) (w : Nat) :
    (s.print c w).shell = s.shell := by
  unfold TerminalState.print
  simp only [apply_ite TerminalState.shell,
      shp_putChar, ite_self]

theorem shp_csiRep (s : TerminalState) (count : Nat) :
    (s.csiRep count).shell = s.shell := by
  unfold TerminalState.csiRep
  exact shp_foldl _ (fun st _ => shp_putChar ..) (List.range (min count 2048)) s

theorem shp_execute (s : TerminalState) (b : Nat) :
    (s.execute b).shell = s.shell := by
  simp only [TerminalState.execute, apply_ite TerminalState.shell, ite_self, shp_backspace, shp_tab, shp_linefeed,
      shp_carriage_return]

theorem shp_csiCup (s : TerminalState) (raw : List Nat) :
    (s.csiCup raw).shell = s.shell := by
  simp only [TerminalState.csiCup, apply_ite TerminalState.shell, ite_self]

theorem shp_csiNextLine (s : TerminalState) (raw : List Nat) :
    (s.csiNextLine raw).shell = s.shell := by
  simp only [TerminalState.csiNextLine, shp_cursor_down]

theorem shp_csiPrevLine (s : TerminalState) (raw : List Nat) :
    (s.csiPrevLine raw).shell = s.shell := by
  simp only [TerminalState.csiPrevLine, shp_cursor_up]

theorem shp_csiHpa (s : TerminalState) (raw : List Nat) :
    (s.csiHpa raw).shell = s.shell := by
  exact rfl

theorem shp_csiVpa (s : TerminalState) (raw : List Nat) :
    (s.csiVpa raw).shell = s.shell := by
  simp only [TerminalState.csiVpa, apply_ite TerminalState.shell, ite_self]

theorem shp_csiDecstbm (s : TerminalState) (raw : List Nat) :
    (s.csiDecstbm raw).shell = s.shell := by
  simp only [TerminalState.csiDecstbm, apply_ite TerminalState.shell, ite_self]

theorem shp_csiDsr (s : TerminalState) (raw : List Nat) :
    (s.csiDsr raw).shell = s.shell := by
  simp only [TerminalState.csiDsr, apply_ite TerminalState.shell, ite_self]

theorem shp_csiDa1 (s : TerminalState) (raw : List Nat) :
    (s.csiDa1 raw).shell = s.shell := by
  simp only [TerminalState.csiDa1, apply_ite TerminalState.shell, ite_self]

theorem shp_csiDa2 (s : TerminalState) (raw : List Nat) :
    (s.csiDa2 raw).shell = s.shell := by
  simp only [TerminalState.csiDa2, apply_ite TerminalState.shell, ite_self]

theorem shp_csiDecscusr (s : TerminalState) (raw : List Nat) :
    (s.csiDecscusr raw).shell = s.shell := by
  simp only [TerminalState.csiDecscusr, apply_ite TerminalState.shell, ite_self]

theorem shp_csi_dispatch (s : TerminalState) (raw ints : List Nat) (action : Char) :
    (s.csi_dispatch raw ints action).shell = s.shell := by
  simp only [TerminalState.csi_dispatch, apply_ite TerminalState.shell, ite_self, shp_report_dec_modes,
      shp_report_ansi_modes, shp_csiDa2, shp_set_dec_mode, shp_cursor_up, shp_cursor_down,
      shp_cursor_forward, shp_cursor_backward, shp_csiNextLine, shp_csiPrevLine,
      shp_csiHpa, shp_csiCup, shp_erase_display, shp_erase_line, shp_insert_lines,
      shp_delete_lines, shp_delete_chars, shp_scroll_up_n, shp_scroll_down_n,
      shp_erase_chars, shp_insert_chars, shp_csiVpa, shp_handle_sgr, shp_csiDecstbm,
      shp_set_mode, shp_csiDsr, shp_csiDa1, shp_save_cursor, shp_restore_cursor,
      shp_csiDecscusr, shp_csiRep]

theorem shp_hookDcs (s : TerminalState) (ints : List Nat) (action : Char) :
    (s.hookDcs ints action).shell = s.shell := by
  simp only [TerminalState.hookDcs, apply_ite TerminalState.shell, ite_self]

theorem shp_putDcs (s : TerminalState) (b : Nat) :
    (s.putDcs b).shell = s.shell := by
  simp only [TerminalState.putDcs, apply_ite TerminalState.shell, ite_self]

theorem shp_unhookDcs (s : TerminalState) :
    (s.unhookDcs).shell = s.shell := by
  simp only [TerminalState.unhookDcs, apply_ite TerminalState.shell, ite_self, shp_handle_dcs]

/-!
### C10: shell-integration block events
-/

theorem walkEvents_append (cur : Option String) (l1 l2 : List TerminalEvent) :
    walkEvents cur (l1 ++ l2) = (walkEvents cur l1).bind (fun c2 => walkEvents c2 l2) := by
  induction l1 generalizing cur with
  | nil => simp [walkEvents]
  | cons ev rest ih =>
      simp only [List.cons_append, walkEvents]
      cases hw : walkEvent cur ev with
      | none => simp
      | some c2 => simp [ih]

theorem shellInv_prompt_start (sh : ShellIntegration) (fid : String) (row : Nat)
    (h : shellInv sh) : shellInv (sh.prompt_start fid row) := by
  obtain ⟨b0, hb⟩ := h
  refine ⟨b0, ?_⟩
  unfold ShellIntegration.prompt_start
  dsimp only
  rw [walkEvents_append, hb]
  simp [walkEvents, walkEvent]

theorem shellInv_command_start (sh : ShellIntegration) (cmd : String) (row : Nat)
    (h : shellInv sh) : shellInv (sh.command_start cmd row) := by
  obtain ⟨b0, hb⟩ := h
  unfold ShellIntegration.command_start
  cases hc : sh.currentBlockId with
  | none => exact ⟨b0, hb⟩
  | some id =>
      refine ⟨b0, ?_⟩
      dsimp only
      rw [walkEvents_append, hb, hc]
      simp [walkEvents, walkEvent, hc]

theorem shellInv_command_end (sh : ShellIntegration) (e : Int) (row : Nat)
    (h : shellInv sh) : shellInv (sh.command_end e row) := by
  obtain ⟨b0, hb⟩ := h
  unfold ShellIntegration.command_end
  cases hc : sh.currentBlockId with
  | none => exact ⟨b0, hb⟩
  | some id =>
      refine ⟨b0, ?_⟩
      dsimp only
      rw [walkEvents_append, hb, hc]
      simp [walkEvents, walkEvent]

theorem shellInv_handleOsc7 (s : TerminalState) (params : List String)
    (h : shellInv s.shell) : shellInv (s.handleOsc7 params).shell := by
  unfold TerminalState.handleOsc7
  cases params[1]? with
  | none => exact h
  | some uri =>
      dsimp only
      split
      · cases (uri.drop 7).toList.findIdx? (· = '/') with
        | none => exact h
        | some i =>
            obtain ⟨b0, hb⟩ := h
            refine ⟨b0, ?_⟩
            simp only [ShellIntegration.set_cwd]
            rw [walkEvents_append, hb]
            simp [walkEvents, walkEvent]
      · obtain ⟨b0, hb⟩ := h
        refine ⟨b0, ?_⟩
        simp only [ShellIntegration.set_cwd]
        rw [walkEvents_append, hb]
        simp [walkEvents, walkEvent]

theorem shellInv_handleOsc133 (s : TerminalState) (params : List String) (fid : String)
    (h : shellInv s.shell) : shellInv (s.handleOsc133 params fid).shell := by
  unfold TerminalState.handleOsc133
  cases params[1]? with
  | none => exact h
  | some marker =>
      dsimp only
      split_ifs
      · exact shellInv_prompt_start _ _ _ h
      · exact shellInv_command_start _ _ _ h
      · exact h
      · exact h
      · exact h
      · exact shellInv_command_end _ _ _ h
      · exact h

theorem shellInv_handle_osc (s : TerminalState) (params : List String) (fid clip : String)
    (h : shellInv s.shell) : shellInv (s.handle_osc params fid clip).shell := by
  cases params with
  | nil => exact h
  | cons first rest =>
      simp only [TerminalState.handle_osc]
      split_ifs
      · rw [shp_handleOscTitle]; exact h
      · exact shellInv_handleOsc7 s _ h
      · exact shellInv_handleOsc133 s _ fid h
      · rw [shp_handleOsc8]; exact h
      · rw [shp_handle_osc_52]; exact h
      · rw [shp_handleOsc4]; exact h
      · rw [shp_handleOscColorQuery]; exact h
      · rw [shp_handleOsc1337Dispatch]; exact h
      · exact h

/-- `esc_dispatch` resets the shell integration exactly on RIS. -/
theorem shell_esc_dispatch (s : TerminalState) (ints : List Nat) (b : Nat) :
    (s.esc_dispatch ints b).shell =
      if b = 0x63 ∧ ints = [] then ShellIntegration.new else s.shell := by
  by_cases hc : b = 0x63 ∧ ints = []
  · rw [if_pos hc]
    unfold TerminalState.esc_dispatch
    rw [if_pos hc]
    simp only [apply_ite TerminalState.shell, ite_self]
    unfold TerminalState.new
    rfl
  · rw [if_neg hc]
    unfold TerminalState.esc_dispatch
    rw [if_neg hc]
    simp only [apply_ite TerminalState.shell, ite_self, shp_linefeed,
      shp_carriage_return, shp_reverse_index, shp_save_cursor, shp_restore_cursor,
      shp_emit_mode_changed]

theorem shp_captureShrinkRows (s : TerminalState) (rows : Nat) :
    (s.captureShrinkRows rows).shell = s.shell := by
  unfold TerminalState.captureShrinkRows
  split
  · refine shp_foldl _ (fun st i => ?_) _ s
    cases st.grid.rows[s.grid.rows.length - s.grid.visibleRows + i]? <;> simp
  · rfl

theorem shp_resize (s : TerminalState) (rows cols : Nat) :
    (s.resize rows cols).shell = s.shell := by
  simp only [TerminalState.resize, shp_captureShrinkRows]

/-- The draining phase empties the shell event queue and keeps the open
block. -/
theorem snapshotDrain_shell (s : TerminalState) (g : Grid)
    (putGrid : TerminalState → Grid → TerminalState)
    (hp : ∀ st g2, (putGrid st g2).shell = st.shell) :
    (s.snapshotDrain g putGrid).2.shell = { s.shell with pendingEvents := [] } := by
  simp only [TerminalState.snapshotDrain, apply_ite TerminalState.shell,
    apply_ite TerminalState.bellPending, apply_ite TerminalState.titleChanged, ite_self, hp]

theorem snapshotWithGrid_shell (s : TerminalState) (g : Grid)
    (putGrid : TerminalState → Grid → TerminalState)
    (hp : ∀ st g2, (putGrid st g2).shell = st.shell) :
    (s.snapshotWithGrid g putGrid).2.shell = { s.shell with pendingEvents := [] } := by
  unfold TerminalState.snapshotWithGrid
  by_cases hc : (s.snapshotDrain g putGrid).1.1 = [] ∧ (s.snapshotDrain g putGrid).1.2.2 = [] ∧
      (s.snapshotDrain g putGrid).1.2.1 = [] <;>
    simp [hc, snapshotDrain_shell s g putGrid hp]

theorem take_render_snapshot_shell (s : TerminalState) :
    (s.take_render_snapshot).2.shell = { s.shell with pendingEvents := [] } ∨
      (s.take_render_snapshot).2.shell = s.shell := by
  unfold TerminalState.take_render_snapshot
  split
  · cases s.altGrid with
    | none => exact Or.inr rfl
    | some ag =>
        exact Or.inl (snapshotWithGrid_shell s ag
          (fun st g2 => { st with altGrid := some g2 }) (fun st g2 => rfl))
  · exact Or.inl (snapshotWithGrid_shell s s.grid
      (fun st g2 => { st with grid := g2 }) (fun st g2 => rfl))

/-- Every operation preserves well-bracketing of the shell events. -/
theorem shellInv_step (s : TerminalState) (op : Op) (h : shellInv s.shell) :
    shellInv (step s op).shell := by
  cases op with
  | print c w =>
      show shellInv (s.print c w).shell
      rw [shp_print]; exact h
  | execute b =>
      show shellInv (s.execute b).shell
      rw [shp_execute]; exact h
  | csi p i a =>
      show shellInv (s.csi_dispatch p i a).shell
      rw [shp_csi_dispatch]; exact h
  | osc p fid clip => exact shellInv_handle_osc s p fid clip h
  | esc i b =>
      show shellInv (s.esc_dispatch i b).shell
      rw [shell_esc_dispatch]
      split
      · exact ⟨none, rfl⟩
      · exact h
  | hook i a =>
      show shellInv (s.hookDcs i a).shell
      rw [shp_hookDcs]; exact h
  | put b =>
      show shellInv (s.putDcs b).shell
      rw [shp_putDcs]; exact h
  | unhook =>
      show shellInv (s.unhookDcs).shell
      rw [shp_unhookDcs]; exact h
  | resizeTo r c =>
      show shellInv (s.resize r c).shell
      rw [shp_resize]; exact h
  | snapshot =>
      show shellInv (s.take_render_snapshot).2.shell
      rcases take_render_snapshot_shell s with hd | hd <;> rw [hd]
      · exact ⟨s.shell.currentBlockId, rfl⟩
      · exact h

theorem shellInv_run (s : TerminalState) (ops : List Op) (h : shellInv s.shell) :
    shellInv (run s ops).shell := by
  induction ops generalizing s with
  | nil => exact h
  | cons op rest ih =>
      simp only [run, List.foldl_cons]
      exact ih (step s op) (shellInv_step s op h)

/-- C10: shell-integration block events are well bracketed.  Every
reachable state satisfies `shellInv` (pending `BlockCommand` /
`BlockCompleted` events always cite the block opened by the most recent
`BlockStarted` — or a block already open at the last drain — and only
while it is open); OSC `133;B` with empty command text is a no-op; OSC
`133;D` always closes the open block; and with no block open OSC
`133;D` is a no-op, so a second `133;D` queues nothing. -/
theorem c10_block_events (rows cols : Nat) (ops : List Op) :
    shellInv (run (TerminalState.new rows cols) ops).shell ∧
    (∀ (s : TerminalState) (fid clip : String),
      step s (Op.osc ["133", "B"] fid clip) = s) ∧
    (∀ (sh : ShellIntegration) (e : Int) (r : Nat),
      (sh.command_end e r).currentBlockId = none) ∧
    (∀ (s : TerminalState) (fid clip : String), s.shell.currentBlockId = none →
      step s (Op.osc ["133", "D"] fid clip) = s) := by
  refine ⟨shellInv_run _ ops ⟨none, rfl⟩, ?_, ?_, ?_⟩
  · intro s fid clip
    rfl
  · intro sh e r
    unfold ShellIntegration.command_end
    cases hc : sh.currentBlockId with
    | none => exact hc
    | some id => rfl
  · intro s fid clip h
    have hsh : s.shell.command_end 0 s.global_row = s.shell := by
      unfold ShellIntegration.command_end
      rw [h]
    calc step s (Op.osc ["133", "D"] fid clip)
        = { s with shell := s.shell.command_end 0 s.global_row } := rfl
      _ = { s with shell := s.shell } := by rw [hsh]
      _ = s := rfl

/-- C10 (witness): the well-bracketing facts on a concrete trace — a
full `A`/`B`/`D` block followed by a second `D` on a 2×2 terminal. -/
theorem c10_block_events_witness :
    shellInv (run (TerminalState.new 2 2)
      [Op.osc ["133", "A"] "id1" "", Op.osc ["133", "B", "ls"] "x" "",
       Op.osc ["133", "D", "0"] "x" "", Op.osc ["133", "D"] "x" ""]).shell ∧
    step (TerminalState.new 2 2) (Op.osc ["133", "B"] "x" "") = TerminalState.new 2 2 :=
  ⟨(c10_block_events 2 2
      [Op.osc ["133", "A"] "id1" "", Op.osc ["133", "B", "ls"] "x" "",
       Op.osc ["133", "D", "0"] "x" "", Op.osc ["133", "D"] "x" ""]).1,
   (c10_block_events 2 2 []).2.1 (TerminalState.new 2 2) "x" ""⟩

end Rain
